import Mathlib

/-!
A shallow embedding of the structured-grid field sampler of
src/parcels/include/parcels.h (the parcels repository).

Modelling conventions:
* C doubles / floats are modelled by exact rationals (ℚ); machine ints by ℤ.
  A second, NaN-propagating model (`FpQ := Option ℚ`, with IEEE-like
  comparison semantics: every comparison against NaN is false) is given for
  the functions whose NaN behaviour is claimed.
* C arrays are modelled as total functions from the flat integer offset to
  ℚ, so a read outside the declared extent returns an arbitrary,
  universally quantified value, as a C read of unspecified memory would.
* The square root used by the curvilinear inverse-bilinear solve is an
  explicit parameter (sq : ℚ → Option ℚ, none modelling a NaN result);
  no theorem below depends on which function is supplied.
* printf side effects are dropped; the iteration caps of the search loops
  are kept.
-/

inductive ErrorCode where
  | SUCCESS
  | REPEAT
  | DELETE
  | ERROR
  | ERROR_OUT_OF_BOUNDS
  | ERROR_TIME_EXTRAPOLATION
deriving DecidableEq, Repr

open ErrorCode

/-- GridCode values, kept as integers so that the default branches of the
C switch statements stay live in the model. -/
def RECTILINEAR_Z_GRID : ℤ := 0

def RECTILINEAR_S_GRID : ℤ := 1

def CURVILINEAR_Z_GRID : ℤ := 2

def CURVILINEAR_S_GRID : ℤ := 3

def LINEAR : ℤ := 0

def NEAREST : ℤ := 1

/-- Generic upward linear walk shared by the index searches of parcels.h:
while (i < nmax && c i) ++i.  The condition c folds in the comparison
against vals[i+1]. -/
def walkUpC (c : ℤ → Bool) (nmax : ℤ) (i : ℤ) : ℤ :=
  if h : i < nmax ∧ c i = true then walkUpC c nmax (i + 1) else i
termination_by (nmax - i).toNat
decreasing_by omega

/-- Generic downward linear walk: while (0 < i && c i) --i. -/
def walkDownC (c : ℤ → Bool) (i : ℤ) : ℤ :=
  if h : 0 < i ∧ c i = true then walkDownC c (i - 1) else i
termination_by i.toNat
decreasing_by omega

/-- Adjacent strict increase of the first n entries of an axis, stated in a
form that decides on concrete axes. -/
def adjInc (v : ℤ → ℚ) (n : ℕ) : Prop :=
  ∀ k : ℕ, k < n - 1 → v (k : ℤ) < v ((k : ℤ) + 1)

instance (v : ℤ → ℚ) (n : ℕ) : Decidable (adjInc v n) := by
  unfold adjInc
  infer_instance

/-- C function fix_1d_index (parcels.h lines 106-120). -/
def fix_1d_index (xi : ℤ) (xdim : ℕ) (sphere_mesh : Bool) : ℤ :=
  let xi1 := if xi < 0 then (if sphere_mesh then (xdim : ℤ) - 2 else 0) else xi
  if xi1 > (xdim : ℤ) - 2 then (if sphere_mesh then 0 else (xdim : ℤ) - 2) else xi1

/-- C function fix_2d_indices (parcels.h lines 123-145).  The x clamping is
the same code as fix_1d_index; the pole reflection (yi past ydim-2 on a
sphere) then maps the already-clamped xi to xdim - xi. -/
def fix_2d_indices (xi yi : ℤ) (xdim ydim : ℕ) (sphere_mesh : Bool) : ℤ × ℤ :=
  let xi2 := fix_1d_index xi xdim sphere_mesh
  let yi1 := if yi < 0 then 0 else yi
  if yi1 > (ydim : ℤ) - 2 then
    (if sphere_mesh then (xdim : ℤ) - xi2 else xi2, (ydim : ℤ) - 2)
  else (xi2, yi1)

/-- Result of a vertical index search: error code, updated zi, and zeta.
On ERROR_OUT_OF_BOUNDS the C code leaves *zi and *zeta unwritten, which the
model renders as the incoming zi and a placeholder 0. -/
structure VRes where
  err : ErrorCode
  zi : ℤ
  zeta : ℚ
deriving DecidableEq, Repr

/-- The vertical column walk shared verbatim by search_indices_vertical_z
(parcels.h lines 52-58) and search_indices_vertical_s (lines 96-101): reject
z outside [v 0, v (zdim-1)], walk zi up then down, back off from zdim-1, and
form zeta. -/
def vertical_core (v : ℤ → ℚ) (zdim : ℕ) (z : ℚ) (zi0 : ℤ) : VRes :=
  if z < v 0 ∨ z > v ((zdim : ℤ) - 1) then ⟨ERROR_OUT_OF_BOUNDS, zi0, 0⟩
  else
    let zi1 := walkDownC (fun j => decide (z < v j))
      (walkUpC (fun j => decide (z > v (j + 1))) ((zdim : ℤ) - 1) zi0)
    let zi2 := if zi1 = (zdim : ℤ) - 1 then zi1 - 1 else zi1
    ⟨SUCCESS, zi2, (z - v zi2) / (v (zi2 + 1) - v zi2)⟩

/-- C function search_indices_vertical_z (parcels.h lines 50-59). -/
def search_indices_vertical_z (z : ℚ) (zdim : ℕ) (zvals : ℤ → ℚ) (zi0 : ℤ) : VRes :=
  vertical_core zvals zdim z zi0

/-- The vertical column zcol synthesized at (xi, yi) by
search_indices_vertical_s (parcels.h lines 65-94): bilinear horizontal
interpolation of the depth table at level zii, with an extra linear blend in
time between ti and min(ti+1, tdim-1) when z4d is set.  The flat offsets
realize the C pointer casts float(*)[zdim][ydim][xdim] and
float(*)[ydim][xdim]. -/
def zcol_at (zvals : ℤ → ℚ) (xdim ydim zdim : ℕ) (xi yi : ℤ) (xsi eta : ℚ)
    (z4d : Bool) (ti : ℤ) (tdim : ℕ) (time t0 t1 : ℚ) (zii : ℤ) : ℚ :=
  if z4d then
    let ti1 := if ti < (tdim : ℤ) - 1 then ti + 1 else ti
    let idx := fun (t k y x : ℤ) => ((t * zdim + k) * ydim + y) * xdim + x
    let zt0 := (1 - xsi) * (1 - eta) * zvals (idx ti zii yi xi)
      + xsi * (1 - eta) * zvals (idx ti zii yi (xi + 1))
      + xsi * eta * zvals (idx ti zii (yi + 1) (xi + 1))
      + (1 - xsi) * eta * zvals (idx ti zii (yi + 1) xi)
    let zt1 := (1 - xsi) * (1 - eta) * zvals (idx ti1 zii yi xi)
      + xsi * (1 - eta) * zvals (idx ti1 zii yi (xi + 1))
      + xsi * eta * zvals (idx ti1 zii (yi + 1) (xi + 1))
      + (1 - xsi) * eta * zvals (idx ti1 zii (yi + 1) xi)
    zt0 + (zt1 - zt0) * ((time - t0) / (t1 - t0))
  else
    let idx := fun (k y x : ℤ) => (k * ydim + y) * xdim + x
    (1 - xsi) * (1 - eta) * zvals (idx zii yi xi)
      + xsi * (1 - eta) * zvals (idx zii yi (xi + 1))
      + xsi * eta * zvals (idx zii (yi + 1) (xi + 1))
      + (1 - xsi) * eta * zvals (idx zii (yi + 1) xi)

/-- C function search_indices_vertical_s (parcels.h lines 61-103). -/
def search_indices_vertical_s (z : ℚ) (xdim ydim zdim : ℕ) (zvals : ℤ → ℚ)
    (xi yi : ℤ) (zi0 : ℤ) (xsi eta : ℚ) (z4d : Bool) (ti : ℤ) (tdim : ℕ)
    (time t0 t1 : ℚ) : VRes :=
  vertical_core (zcol_at zvals xdim ydim zdim xi yi xsi eta z4d ti tdim time t0 t1)
    zdim z zi0

/-- Result of a horizontal+vertical index search.  On an error return the C
code leaves some of the output pointers unwritten; the model carries the
incoming hint (for indices) or a placeholder 0 (for coordinates not yet
computed) in those fields.  No theorem below reads an unwritten field. -/
structure SRes where
  err : ErrorCode
  xi : ℤ
  yi : ℤ
  zi : ℤ
  xsi : ℚ
  eta : ℚ
  zeta : ℚ
deriving DecidableEq, Repr

/-- Longitude normalization of search_indices_rectilinear on a sphere
(parcels.h lines 165-170 and 180-185): pull xvals[xi] into the 450-degree
band around x, then xvals[xi+1] into the 360-degree band around it. -/
def norm_lon_pair (xvals : ℤ → ℚ) (x : ℚ) (xi : ℤ) : ℚ × ℚ :=
  let a0 := xvals xi
  let a1 := if a0 < x - 225 then a0 + 360 else a0
  let a2 := if a1 > x + 225 then a1 - 360 else a1
  let b0 := xvals (xi + 1)
  let b1 := if b0 < a2 - 180 then b0 + 360 else b0
  let b2 := if b1 > a2 + 180 then b1 - 360 else b1
  (a2, b2)

/-- The spherical longitude search loop of search_indices_rectilinear
(parcels.h lines 172-190), with its 10000-iteration cap modelled by fuel. -/
def sphere_x_loop (xvals : ℤ → ℚ) (xdim : ℕ) (x : ℚ) : ℕ → ℤ → ErrorCode × ℤ
  | fuel, xi =>
    let p := norm_lon_pair xvals x xi
    if p.1 > x ∨ p.2 < x then
      match fuel with
      | 0 => (ERROR_OUT_OF_BOUNDS, xi)
      | fuel' + 1 =>
        let xi1 := if p.2 < x then xi + 1 else if p.1 > x then xi - 1 else xi
        sphere_x_loop xvals xdim x fuel' (fix_1d_index xi1 xdim true)
    else (SUCCESS, xi)

/-- Final range validation shared by both horizontal locators (parcels.h
lines 220-222 and 323-325). -/
def final_checks (xi yi zi : ℤ) (xsi eta zeta : ℚ) : SRes :=
  if xsi < 0 ∨ xsi > 1 then ⟨ERROR_OUT_OF_BOUNDS, xi, yi, zi, xsi, eta, zeta⟩
  else if eta < 0 ∨ eta > 1 then ⟨ERROR_OUT_OF_BOUNDS, xi, yi, zi, xsi, eta, zeta⟩
  else if zeta < 0 ∨ zeta > 1 then ⟨ERROR_OUT_OF_BOUNDS, xi, yi, zi, xsi, eta, zeta⟩
  else ⟨SUCCESS, xi, yi, zi, xsi, eta, zeta⟩

/-- The y-axis walk, vertical dispatch and final validation shared by the
two x-axis branches of search_indices_rectilinear (parcels.h lines
195-224). -/
def rect_tail (y z : ℚ) (xdim ydim zdim : ℕ) (yvals zvals : ℤ → ℚ) (gcode : ℤ)
    (xi1 : ℤ) (xsi1 : ℚ) (yi0 zi0 : ℤ) (z4d : Bool) (ti : ℤ) (tdim : ℕ)
    (time t0 t1 : ℚ) : SRes :=
  if y < yvals 0 ∨ y > yvals ((ydim : ℤ) - 1) then ⟨ERROR_OUT_OF_BOUNDS, xi1, yi0, zi0, xsi1, 0, 0⟩
  else
    let yi1 := walkDownC (fun j => decide (y < yvals j))
      (walkUpC (fun j => decide (y > yvals (j + 1))) ((ydim : ℤ) - 1) yi0)
    let eta1 := (y - yvals yi1) / (yvals (yi1 + 1) - yvals yi1)
    if 1 < zdim then
      let vres := if gcode = RECTILINEAR_Z_GRID then search_indices_vertical_z z zdim zvals zi0
        else if gcode = RECTILINEAR_S_GRID then
          search_indices_vertical_s z xdim ydim zdim zvals xi1 yi1 zi0 xsi1 eta1 z4d ti tdim time t0 t1
        else ⟨ERROR, zi0, 0⟩
      if vres.err ≠ SUCCESS then ⟨vres.err, xi1, yi1, vres.zi, xsi1, eta1, 0⟩
      else final_checks xi1 yi1 vres.zi xsi1 eta1 vres.zeta
    else final_checks xi1 yi1 zi0 xsi1 eta1 0

/-- C function search_indices_rectilinear (parcels.h lines 148-225). -/
def search_indices_rectilinear (x y z : ℚ) (xdim ydim zdim : ℕ)
    (xvals yvals zvals : ℤ → ℚ) (sphere_mesh zonal_periodic : Bool) (gcode : ℤ)
    (xi0 yi0 zi0 : ℤ) (z4d : Bool) (ti : ℤ) (tdim : ℕ) (time t0 t1 : ℚ) : SRes :=
  if sphere_mesh = false then
    if x < xvals 0 ∨ x > xvals ((xdim : ℤ) - 1) then ⟨ERROR_OUT_OF_BOUNDS, xi0, yi0, zi0, 0, 0, 0⟩
    else
      let xi1 := walkDownC (fun j => decide (x < xvals j))
        (walkUpC (fun j => decide (x > xvals (j + 1))) ((xdim : ℤ) - 1) xi0)
      let xsi1 := (x - xvals xi1) / (xvals (xi1 + 1) - xvals xi1)
      rect_tail y z xdim ydim zdim yvals zvals gcode xi1 xsi1 yi0 zi0 z4d ti tdim time t0 t1
  else
    if zonal_periodic = false ∧ xvals 0 < xvals ((xdim : ℤ) - 1) ∧
        (x < xvals 0 ∨ x > xvals ((xdim : ℤ) - 1)) then
      ⟨ERROR_OUT_OF_BOUNDS, xi0, yi0, zi0, 0, 0, 0⟩
    else if zonal_periodic = false ∧ xvals 0 ≥ xvals ((xdim : ℤ) - 1) ∧
        (x < xvals 0 ∧ x > xvals ((xdim : ℤ) - 1)) then
      ⟨ERROR_OUT_OF_BOUNDS, xi0, yi0, zi0, 0, 0, 0⟩
    else
      let r := sphere_x_loop xvals xdim x 10001 xi0
      if r.1 ≠ SUCCESS then ⟨r.1, r.2, yi0, zi0, 0, 0, 0⟩
      else
        let xi1 := r.2
        let p := norm_lon_pair xvals x xi1
        let xsi1 := (x - p.1) / (p.2 - p.1)
        rect_tail y z xdim ydim zdim yvals zvals gcode xi1 xsi1 yi0 zi0 z4d ti tdim time t0 t1

/-- State returned by the curvilinear search loop. -/
structure CRes where
  err : ErrorCode
  xi : ℤ
  yi : ℤ
  xsi : ℚ
  eta : ℚ
deriving DecidableEq, Repr

/-- The four corner longitudes of curvilinear cell (xi, yi) with the
spherical re-unwrapping of parcels.h lines 247-256: corner 0 is pulled into
the 450-degree band around x, the other three into the 360-degree band
around corner 0.  xg is the flat [ydim][xdim] longitude table. -/
def curv_xgrid_loc (xg : ℤ → ℚ) (xdim : ℕ) (x : ℚ) (xi yi : ℤ) (sphere : Bool) :
    ℚ × ℚ × ℚ × ℚ :=
  let g := fun (r c : ℤ) => xg (r * xdim + c)
  let l0 := g yi xi
  let l1 := g yi (xi + 1)
  let l2 := g (yi + 1) (xi + 1)
  let l3 := g (yi + 1) xi
  if sphere then
    let m0a := if l0 < x - 225 then l0 + 360 else l0
    let m0 := if m0a > x + 225 then m0a - 360 else m0a
    let adj := fun v =>
      let v1 := if v < m0 - 180 then v + 360 else v
      if v1 > m0 + 180 then v1 - 360 else v1
    (m0, adj l1, adj l2, adj l3)
  else (l0, l1, l2, l3)

/-- The iterative inverse-bilinear search of search_indices_curvilinear
(parcels.h lines 244-297), with its 10^6-iteration cap modelled by fuel and
the C sqrt passed in as sq (none modelling a NaN result, in which case the
eta of the previous iteration is kept, as in the det == det test of line
275). -/
def curv_body (sq : ℚ → Option ℚ) (xg yg : ℤ → ℚ) (xdim : ℕ) (x y : ℚ)
    (sphere : Bool) (xi yi : ℤ) (eta : ℚ) : ℚ × ℚ :=
  let xl := curv_xgrid_loc xg xdim x xi yi sphere
  let g := fun (r c : ℤ) => yg (r * xdim + c)
  let yl0 := g yi xi
  let yl1 := g yi (xi + 1)
  let yl2 := g (yi + 1) (xi + 1)
  let yl3 := g (yi + 1) xi
  let a0 := xl.1
  let a1 := -xl.1 + xl.2.1
  let a2 := -xl.1 + xl.2.2.2
  let a3 := xl.1 - xl.2.1 + xl.2.2.1 - xl.2.2.2
  let b0 := yl0
  let b1 := -yl0 + yl1
  let b2 := -yl0 + yl3
  let b3 := yl0 - yl1 + yl2 - yl3
  let aa := a3 * b2 - a2 * b3
  let bb := a3 * b0 - a0 * b3 + a1 * b2 - a2 * b1 + x * b3 - y * a3
  let cc := a1 * b0 - a0 * b1 + x * b1 - y * a1
  let eta1 := if |aa| < 1 / 1000000000000 then -cc / bb
    else match sq (bb * bb - 4 * aa * cc) with
      | none => eta
      | some det => (-bb + det) / (2 * aa)
  let xsi1 := (x - a0 - a2 * eta1) / (a1 + a3 * eta1)
  (xsi1, eta1)

def curv_loop (sq : ℚ → Option ℚ) (xg yg : ℤ → ℚ) (xdim ydim : ℕ) (x y : ℚ)
    (sphere : Bool) : ℕ → ℤ → ℤ → ℚ → ℚ → CRes
  | fuel, xi, yi, xsi, eta =>
    if ¬(xsi < 0 ∨ xsi > 1 ∨ eta < 0 ∨ eta > 1) then ⟨SUCCESS, xi, yi, xsi, eta⟩
    else
      match fuel with
      | 0 => ⟨ERROR_OUT_OF_BOUNDS, xi, yi, xsi, eta⟩
      | fuel' + 1 =>
        let q := curv_body sq xg yg xdim x y sphere xi yi eta
        let xsi1 := q.1
        let eta1 := q.2
        if xsi1 < 0 ∧ eta1 < 0 ∧ xi = 0 ∧ yi = 0 then ⟨ERROR_OUT_OF_BOUNDS, xi, yi, xsi1, eta1⟩
        else if xsi1 > 1 ∧ eta1 > 1 ∧ xi = (xdim : ℤ) - 1 ∧ yi = (ydim : ℤ) - 1 then
          ⟨ERROR_OUT_OF_BOUNDS, xi, yi, xsi1, eta1⟩
        else
          let xi1 := if xsi1 < 0 then xi - 1 else if xsi1 > 1 then xi + 1 else xi
          let yi1 := if eta1 < 0 then yi - 1 else if eta1 > 1 then yi + 1 else yi
          let p := fix_2d_indices xi1 yi1 xdim ydim sphere
          curv_loop sq xg yg xdim ydim x y sphere fuel' p.1 p.2 xsi1 eta1

/-- C function search_indices_curvilinear (parcels.h lines 228-328). -/
def search_indices_curvilinear (sq : ℚ → Option ℚ) (x y z : ℚ) (xdim ydim zdim : ℕ)
    (xvals yvals zvals : ℤ → ℚ) (sphere_mesh zonal_periodic : Bool) (gcode : ℤ)
    (xi0 yi0 zi0 : ℤ) (z4d : Bool) (ti : ℤ) (tdim : ℕ) (time t0 t1 : ℚ) : SRes :=
  if (zonal_periodic = false ∨ sphere_mesh = false) ∧ xvals 0 < xvals ((xdim : ℤ) - 1) ∧
      (x < xvals 0 ∨ x > xvals ((xdim : ℤ) - 1)) then
    ⟨ERROR_OUT_OF_BOUNDS, xi0, yi0, zi0, 0, 0, 0⟩
  else if (zonal_periodic = false ∨ sphere_mesh = false) ∧ xvals 0 ≥ xvals ((xdim : ℤ) - 1) ∧
      (x < xvals 0 ∧ x > xvals ((xdim : ℤ) - 1)) then
    ⟨ERROR_OUT_OF_BOUNDS, xi0, yi0, zi0, 0, 0, 0⟩
  else
    let r := curv_loop sq xvals yvals xdim ydim x y sphere_mesh 1000001 xi0 yi0 (-1) (-1)
    if r.err ≠ SUCCESS then ⟨r.err, r.xi, r.yi, zi0, r.xsi, r.eta, 0⟩
    else if r.xsi ≠ r.xsi ∨ r.eta ≠ r.eta then
      ⟨ERROR_OUT_OF_BOUNDS, r.xi, r.yi, zi0, r.xsi, r.eta, 0⟩
    else if 1 < zdim then
      let vres := if gcode = CURVILINEAR_Z_GRID then search_indices_vertical_z z zdim zvals zi0
        else if gcode = CURVILINEAR_S_GRID then
          search_indices_vertical_s z xdim ydim zdim zvals r.xi r.yi zi0 r.xsi r.eta z4d ti tdim time t0 t1
        else ⟨ERROR, zi0, 0⟩
      if vres.err ≠ SUCCESS then ⟨vres.err, r.xi, r.yi, vres.zi, r.xsi, r.eta, 0⟩
      else final_checks r.xi r.yi vres.zi r.xsi r.eta vres.zeta
    else final_checks r.xi r.yi zi0 r.xsi r.eta 0

/-- C function search_indices (parcels.h lines 333-355): dispatch on the
grid code. -/
def search_indices (sq : ℚ → Option ℚ) (x y z : ℚ) (xdim ydim zdim : ℕ)
    (xvals yvals zvals : ℤ → ℚ) (xi0 yi0 zi0 : ℤ) (sphere_mesh zonal_periodic : Bool)
    (gcode : ℤ) (z4d : Bool) (ti : ℤ) (tdim : ℕ) (time t0 t1 : ℚ) : SRes :=
  if gcode = RECTILINEAR_Z_GRID ∨ gcode = RECTILINEAR_S_GRID then
    search_indices_rectilinear x y z xdim ydim zdim xvals yvals zvals sphere_mesh
      zonal_periodic gcode xi0 yi0 zi0 z4d ti tdim time t0 t1
  else if gcode = CURVILINEAR_Z_GRID ∨ gcode = CURVILINEAR_S_GRID then
    search_indices_curvilinear sq x y z xdim ydim zdim xvals yvals zvals sphere_mesh
      zonal_periodic gcode xi0 yi0 zi0 z4d ti tdim time t0 t1
  else ⟨ERROR, xi0, yi0, zi0, 0, 0, 0⟩

/-- C function search_time_index (parcels.h lines 358-379).  The C version
reduces t modulo the period and calls itself recursively; after the inner
call returns, the outer walks re-run on the already-converged index, which
is the identity, so the recursion is modelled as a tail call.  On a
strictly increasing axis one reduction always lands t back inside
[tvals 0, tvals (size-1)], so fuel 2 reproduces the C behaviour; the C code
would loop forever on a degenerate axis.  The function always returns
SUCCESS. -/
def search_time_index_aux : ℕ → ℚ → ℕ → (ℤ → ℚ) → ℤ → Bool → ErrorCode × ℚ × ℤ
  | fuel, t, size, tvals, ti0, time_periodic =>
    let ti1 := if ti0 < 0 then 0 else ti0
    if time_periodic = true ∧ t < tvals 0 ∧ 0 < fuel then
      let per := tvals ((size : ℤ) - 1) - tvals 0
      let periods : ℤ := ⌊(t - tvals 0) / per⌋
      search_time_index_aux (fuel - 1) (t - (periods : ℚ) * per) size tvals ((size : ℤ) - 1)
        time_periodic
    else if time_periodic = true ∧ t > tvals ((size : ℤ) - 1) ∧ 0 < fuel then
      let per := tvals ((size : ℤ) - 1) - tvals 0
      let periods : ℤ := ⌊(t - tvals 0) / per⌋
      search_time_index_aux (fuel - 1) (t - (periods : ℚ) * per) size tvals 0 time_periodic
    else
      let j := walkDownC (fun i => decide (t < tvals i))
        (walkUpC (fun i => decide (tvals (i + 1) ≤ t)) ((size : ℤ) - 1) ti1)
      (SUCCESS, t, j)
termination_by fuel _ _ _ _ _ => fuel
decreasing_by all_goals omega

def search_time_index (t : ℚ) (size : ℕ) (tvals : ℤ → ℚ) (ti0 : ℤ)
    (time_periodic : Bool) : ErrorCode × ℚ × ℤ :=
  search_time_index_aux 2 t size tvals ti0 time_periodic

/-- C function spatial_interpolation_bilinear (parcels.h lines 382-391).
The C kernels return SUCCESS unconditionally and the driver never tests
their error codes, so they are modelled as plain values.  fdata is the flat
[..][ydim][xdim] time slice, with row stride xdim. -/
def spatial_interpolation_bilinear (xsi eta : ℚ) (xi yi : ℤ) (xdim : ℕ)
    (fdata : ℤ → ℚ) : ℚ :=
  let d := fun (r c : ℤ) => fdata (r * xdim + c)
  (1 - xsi) * (1 - eta) * d yi xi + xsi * (1 - eta) * d yi (xi + 1)
    + xsi * eta * d (yi + 1) (xi + 1) + (1 - xsi) * eta * d (yi + 1) xi

/-- C function spatial_interpolation_trilinear (parcels.h lines 394-409). -/
def spatial_interpolation_trilinear (xsi eta zeta : ℚ) (xi yi zi : ℤ)
    (xdim ydim : ℕ) (fdata : ℤ → ℚ) : ℚ :=
  let d := fun (k r c : ℤ) => fdata ((k * ydim + r) * xdim + c)
  let f0 := (1 - xsi) * (1 - eta) * d zi yi xi + xsi * (1 - eta) * d zi yi (xi + 1)
    + xsi * eta * d zi (yi + 1) (xi + 1) + (1 - xsi) * eta * d zi (yi + 1) xi
  let f1 := (1 - xsi) * (1 - eta) * d (zi + 1) yi xi + xsi * (1 - eta) * d (zi + 1) yi (xi + 1)
    + xsi * eta * d (zi + 1) (yi + 1) (xi + 1) + (1 - xsi) * eta * d (zi + 1) (yi + 1) xi
  (1 - zeta) * f0 + zeta * f1

/-- C function spatial_interpolation_nearest2D (parcels.h lines 412-422). -/
def spatial_interpolation_nearest2D (xsi eta : ℚ) (xi yi : ℤ) (xdim : ℕ)
    (fdata : ℤ → ℚ) : ℚ :=
  let ii := if xsi < 1 / 2 then xi else xi + 1
  let jj := if eta < 1 / 2 then yi else yi + 1
  fdata (jj * xdim + ii)

/-- C function spatial_interpolation_nearest3D (parcels.h lines 425-435). -/
def spatial_interpolation_nearest3D (xsi eta zeta : ℚ) (xi yi zi : ℤ)
    (xdim ydim : ℕ) (fdata : ℤ → ℚ) : ℚ :=
  let ii := if xsi < 1 / 2 then xi else xi + 1
  let jj := if eta < 1 / 2 then yi else yi + 1
  let kk := if zeta < 1 / 2 then zi else zi + 1
  fdata ((kk * ydim + jj) * xdim + ii)

/-- C struct CStructuredGrid (parcels.h lines 35-41), together with the
gtype tag of the enclosing CGrid (lines 29-33). -/
structure CStructuredGrid where
  gtype : ℤ
  xdim : ℕ
  ydim : ℕ
  zdim : ℕ
  tdim : ℕ
  z4d : Bool
  sphere_mesh : Bool
  zonal_periodic : Bool
  lon : ℤ → ℚ
  lat : ℤ → ℚ
  depth : ℤ → ℚ
  time : ℤ → ℚ

/-- C struct CField (parcels.h lines 43-48); data is the flat
[tdim][zdim][ydim][xdim] cube. -/
structure CField where
  xdim : ℕ
  ydim : ℕ
  zdim : ℕ
  tdim : ℕ
  allow_time_extrapolation : Bool
  time_periodic : Bool
  igrid : ℕ
  data : ℤ → ℚ
  grid : CStructuredGrid

/-- The time slice data[t] of the cast
float (*data)[f->zdim][f->ydim][f->xdim] (parcels.h line 453). -/
def field_slice (f : CField) (t : ℤ) : ℤ → ℚ :=
  fun j => f.data (t * ((f.zdim * f.ydim * f.xdim : ℕ) : ℤ) + j)

/-- Result of a driver query: error code, the (in/out) value, and the four
cursor arrays.  On error the C code leaves *value unwritten, modelled by
returning the incoming value. -/
structure DRes where
  err : ErrorCode
  value : ℚ
  xs : ℕ → ℤ
  ys : ℕ → ℤ
  zs : ℕ → ℤ
  ts : ℕ → ℤ

/-- The two-sample branch of temporal_interpolation_structured_grid
(parcels.h lines 457-486): locate once with the real interval
(t0, t1) = (time[ti], time[ti+1]), evaluate the spatial kernel on the time
slices ti and ti+1 and blend linearly in time. -/
def tisg_two (x y z : ℚ) (f : CField) (gcode : ℤ) (xs ys zs ts1 : ℕ → ℤ)
    (v0 : ℚ) (interp : ℤ) (sq : ℚ → Option ℚ) (t : ℚ) (tiv : ℤ) : DRes :=
  let g := f.grid
  let ig := f.igrid
  let t0 := g.time tiv
  let t1 := g.time (tiv + 1)
  let s := search_indices sq x y z g.xdim g.ydim g.zdim g.lon g.lat g.depth
    (xs ig) (ys ig) (zs ig) g.sphere_mesh g.zonal_periodic gcode g.z4d tiv g.tdim t t0 t1
  let xs1 := Function.update xs ig s.xi
  let ys1 := Function.update ys ig s.yi
  let zs1 := Function.update zs ig s.zi
  if s.err ≠ SUCCESS then ⟨s.err, v0, xs1, ys1, zs1, ts1⟩
  else if interp = LINEAR then
    let f0 := if g.zdim = 1 then
        spatial_interpolation_bilinear s.xsi s.eta s.xi s.yi g.xdim (field_slice f tiv)
      else
        spatial_interpolation_trilinear s.xsi s.eta s.zeta s.xi s.yi s.zi g.xdim g.ydim
          (field_slice f tiv)
    let f1 := if g.zdim = 1 then
        spatial_interpolation_bilinear s.xsi s.eta s.xi s.yi g.xdim (field_slice f (tiv + 1))
      else
        spatial_interpolation_trilinear s.xsi s.eta s.zeta s.xi s.yi s.zi g.xdim g.ydim
          (field_slice f (tiv + 1))
    ⟨SUCCESS, f0 + (f1 - f0) * ((t - t0) / (t1 - t0)), xs1, ys1, zs1, ts1⟩
  else if interp = NEAREST then
    let f0 := if g.zdim = 1 then
        spatial_interpolation_nearest2D s.xsi s.eta s.xi s.yi g.xdim (field_slice f tiv)
      else
        spatial_interpolation_nearest3D s.xsi s.eta s.zeta s.xi s.yi s.zi g.xdim g.ydim
          (field_slice f tiv)
    let f1 := if g.zdim = 1 then
        spatial_interpolation_nearest2D s.xsi s.eta s.xi s.yi g.xdim (field_slice f (tiv + 1))
      else
        spatial_interpolation_nearest3D s.xsi s.eta s.zeta s.xi s.yi s.zi g.xdim g.ydim
          (field_slice f (tiv + 1))
    ⟨SUCCESS, f0 + (f1 - f0) * ((t - t0) / (t1 - t0)), xs1, ys1, zs1, ts1⟩
  else ⟨ERROR, v0, xs1, ys1, zs1, ts1⟩

/-- The single-sample branch of temporal_interpolation_structured_grid
(parcels.h lines 487-509): locate once with t0 = time[ti] and the synthetic
interval (t0, t0+1), then a single spatial interpolation on slice ti. -/
def tisg_single (x y z : ℚ) (f : CField) (gcode : ℤ) (xs ys zs ts1 : ℕ → ℤ)
    (v0 : ℚ) (interp : ℤ) (sq : ℚ → Option ℚ) (tiv : ℤ) : DRes :=
  let g := f.grid
  let ig := f.igrid
  let t0 := g.time tiv
  let s := search_indices sq x y z g.xdim g.ydim g.zdim g.lon g.lat g.depth
    (xs ig) (ys ig) (zs ig) g.sphere_mesh g.zonal_periodic gcode g.z4d tiv g.tdim t0 t0 (t0 + 1)
  let xs1 := Function.update xs ig s.xi
  let ys1 := Function.update ys ig s.yi
  let zs1 := Function.update zs ig s.zi
  if s.err ≠ SUCCESS then ⟨s.err, v0, xs1, ys1, zs1, ts1⟩
  else if interp = LINEAR then
    ⟨SUCCESS,
      if g.zdim = 1 then
        spatial_interpolation_bilinear s.xsi s.eta s.xi s.yi g.xdim (field_slice f tiv)
      else
        spatial_interpolation_trilinear s.xsi s.eta s.zeta s.xi s.yi s.zi g.xdim g.ydim
          (field_slice f tiv),
      xs1, ys1, zs1, ts1⟩
  else if interp = NEAREST then
    ⟨SUCCESS,
      if g.zdim = 1 then
        spatial_interpolation_nearest2D s.xsi s.eta s.xi s.yi g.xdim (field_slice f tiv)
      else
        spatial_interpolation_nearest3D s.xsi s.eta s.zeta s.xi s.yi s.zi g.xdim g.ydim
          (field_slice f tiv),
      xs1, ys1, zs1, ts1⟩
  else ⟨ERROR, v0, xs1, ys1, zs1, ts1⟩

/-- C function temporal_interpolation_structured_grid (parcels.h lines
438-510). -/
def temporal_interpolation_structured_grid (x y z : ℚ) (time : ℚ) (f : CField)
    (gcode : ℤ) (xs ys zs ts : ℕ → ℤ) (v0 : ℚ) (interp : ℤ)
    (sq : ℚ → Option ℚ) : DRes :=
  let g := f.grid
  let ig := f.igrid
  if f.time_periodic = false ∧ f.allow_time_extrapolation = false ∧
      (time < g.time 0 ∨ time > g.time ((g.tdim : ℤ) - 1)) then
    ⟨ERROR_TIME_EXTRAPOLATION, v0, xs, ys, zs, ts⟩
  else
    let r := search_time_index time g.tdim g.time (ts ig) f.time_periodic
    let t := r.2.1
    let tiv := r.2.2
    let ts1 := Function.update ts ig tiv
    if tiv < (g.tdim : ℤ) - 1 ∧ t > g.time tiv then
      tisg_two x y z f gcode xs ys zs ts1 v0 interp sq t tiv
    else tisg_single x y z f gcode xs ys zs ts1 v0 interp sq tiv

/-- C function temporal_interpolation (parcels.h lines 512-528). -/
def temporal_interpolation (x y z : ℚ) (time : ℚ) (f : CField)
    (xs ys zs ts : ℕ → ℤ) (v0 : ℚ) (interp : ℤ) (sq : ℚ → Option ℚ) : DRes :=
  let gcode := f.grid.gtype
  if gcode = RECTILINEAR_Z_GRID ∨ gcode = RECTILINEAR_S_GRID ∨
      gcode = CURVILINEAR_Z_GRID ∨ gcode = CURVILINEAR_S_GRID then
    temporal_interpolation_structured_grid x y z time f gcode xs ys zs ts v0 interp sq
  else ⟨ERROR, v0, xs, ys, zs, ts⟩

/-- Result of a UV query. -/
structure UVRes where
  err : ErrorCode
  valueU : ℚ
  valueV : ℚ
  xs : ℕ → ℤ
  ys : ℕ → ℤ
  zs : ℕ → ℤ
  ts : ℕ → ℤ

/-- C function temporal_interpolationUVrotation (parcels.h lines 542-560).
The C locals u_val .. sinV_val are uninitialized floats; each inner call
receives 0 as the (never read) incoming value, and on an inner error the
outputs *valueU, *valueV are left unwritten, modelled by returning the
incoming vU0, vV0. -/
def temporal_interpolationUVrotation (x y z : ℚ) (time : ℚ)
    (U V cosU sinU cosV sinV : CField) (xs ys zs ts : ℕ → ℤ) (vU0 vV0 : ℚ)
    (interp : ℤ) (sq : ℚ → Option ℚ) : UVRes :=
  let r1 := temporal_interpolation x y z time U xs ys zs ts 0 interp sq
  if r1.err ≠ SUCCESS then ⟨r1.err, vU0, vV0, r1.xs, r1.ys, r1.zs, r1.ts⟩
  else
    let r2 := temporal_interpolation x y z time V r1.xs r1.ys r1.zs r1.ts 0 interp sq
    if r2.err ≠ SUCCESS then ⟨r2.err, vU0, vV0, r2.xs, r2.ys, r2.zs, r2.ts⟩
    else
      let r3 := temporal_interpolation x y z time cosU r2.xs r2.ys r2.zs r2.ts 0 interp sq
      if r3.err ≠ SUCCESS then ⟨r3.err, vU0, vV0, r3.xs, r3.ys, r3.zs, r3.ts⟩
      else
        let r4 := temporal_interpolation x y z time sinU r3.xs r3.ys r3.zs r3.ts 0 interp sq
        if r4.err ≠ SUCCESS then ⟨r4.err, vU0, vV0, r4.xs, r4.ys, r4.zs, r4.ts⟩
        else
          let r5 := temporal_interpolation x y z time cosV r4.xs r4.ys r4.zs r4.ts 0 interp sq
          if r5.err ≠ SUCCESS then ⟨r5.err, vU0, vV0, r5.xs, r5.ys, r5.zs, r5.ts⟩
          else
            let r6 := temporal_interpolation x y z time sinV r5.xs r5.ys r5.zs r5.ts 0 interp sq
            if r6.err ≠ SUCCESS then ⟨r6.err, vU0, vV0, r6.xs, r6.ys, r6.zs, r6.ts⟩
            else
              ⟨SUCCESS, r1.value * r3.value - r2.value * r6.value,
                r1.value * r4.value + r2.value * r5.value, r6.xs, r6.ys, r6.zs, r6.ts⟩

/-- IEEE-style rationals-with-NaN: none models NaN.  Comparisons against
NaN are false, arithmetic propagates NaN.  IEEE division by zero yields an
infinity for a nonzero numerator and NaN for 0/0; this model collapses both
to NaN — the theorems using it only exercise the 0/0 case.  Infinities are
otherwise not modelled. -/
abbrev FpQ := Option ℚ

def fpAdd : FpQ → FpQ → FpQ
  | some a, some b => some (a + b)
  | _, _ => none

def fpSub : FpQ → FpQ → FpQ
  | some a, some b => some (a - b)
  | _, _ => none

def fpMul : FpQ → FpQ → FpQ
  | some a, some b => some (a * b)
  | _, _ => none

def fpDiv : FpQ → FpQ → FpQ
  | some a, some b => if b = 0 then none else some (a / b)
  | _, _ => none

def fpNeg : FpQ → FpQ
  | some a => some (-a)
  | none => none

def fpAbs : FpQ → FpQ
  | some a => some |a|
  | none => none

/-- a < b with NaN compares false. -/
def fpLt : FpQ → FpQ → Bool
  | some a, some b => decide (a < b)
  | _, _ => false

/-- a > b with NaN compares false. -/
def fpGt (a b : FpQ) : Bool := fpLt b a

/-- The C NaN test v != v. -/
def fpIsNaN : FpQ → Bool
  | none => true
  | some _ => false

/-- Result record of the NaN-aware locators. -/
structure SResF where
  err : ErrorCode
  xi : ℤ
  yi : ℤ
  zi : ℤ
  xsi : FpQ
  eta : FpQ
  zeta : FpQ
deriving DecidableEq, Repr

structure VResF where
  err : ErrorCode
  zi : ℤ
  zeta : FpQ
deriving DecidableEq, Repr

/-- NaN-aware model of the shared vertical walk (parcels.h lines 52-58 and
96-101); the depth column stays a plain rational table. -/
def vertical_core_fp (v : ℤ → FpQ) (zdim : ℕ) (z : FpQ) (zi0 : ℤ) : VResF :=
  if fpLt z (v 0) || fpGt z (v ((zdim : ℤ) - 1)) then ⟨ERROR_OUT_OF_BOUNDS, zi0, some 0⟩
  else
    let zi1 := walkDownC (fun j => fpLt z (v j))
      (walkUpC (fun j => fpGt z (v (j + 1))) ((zdim : ℤ) - 1) zi0)
    let zi2 := if zi1 = (zdim : ℤ) - 1 then zi1 - 1 else zi1
    ⟨SUCCESS, zi2, fpDiv (fpSub z (v zi2)) (fpSub (v (zi2 + 1)) (v zi2))⟩

/-- NaN-aware search_indices_vertical_z (parcels.h lines 50-59). -/
def search_indices_vertical_z_fp (z : FpQ) (zdim : ℕ) (zvals : ℤ → ℚ) (zi0 : ℤ) : VResF :=
  vertical_core_fp (fun j => some (zvals j)) zdim z zi0

/-- NaN-aware synthesized S-grid column (parcels.h lines 65-94). -/
def zcol_at_fp (zvals : ℤ → ℚ) (xdim ydim zdim : ℕ) (xi yi : ℤ) (xsi eta : FpQ)
    (z4d : Bool) (ti : ℤ) (tdim : ℕ) (time t0 t1 : FpQ) (zii : ℤ) : FpQ :=
  let one : FpQ := some 1
  if z4d then
    let ti1 := if ti < (tdim : ℤ) - 1 then ti + 1 else ti
    let tab := fun (t k : ℤ) (yy xx : ℤ) =>
      some (zvals (((t * zdim + k) * ydim + yy) * xdim + xx))
    let bil := fun (t : ℤ) =>
      fpAdd (fpAdd (fpMul (fpMul (fpSub one xsi) (fpSub one eta)) (tab t zii yi xi))
          (fpMul (fpMul xsi (fpSub one eta)) (tab t zii yi (xi + 1))))
        (fpAdd (fpMul (fpMul xsi eta) (tab t zii (yi + 1) (xi + 1)))
          (fpMul (fpMul (fpSub one xsi) eta) (tab t zii (yi + 1) xi)))
    let zt0 := bil ti
    let zt1 := bil ti1
    fpAdd zt0 (fpMul (fpSub zt1 zt0) (fpDiv (fpSub time t0) (fpSub t1 t0)))
  else
    let tab := fun (k yy xx : ℤ) => some (zvals ((k * ydim + yy) * xdim + xx))
    fpAdd (fpAdd (fpMul (fpMul (fpSub one xsi) (fpSub one eta)) (tab zii yi xi))
        (fpMul (fpMul xsi (fpSub one eta)) (tab zii yi (xi + 1))))
      (fpAdd (fpMul (fpMul xsi eta) (tab zii (yi + 1) (xi + 1)))
        (fpMul (fpMul (fpSub one xsi) eta) (tab zii (yi + 1) xi)))

/-- NaN-aware search_indices_vertical_s (parcels.h lines 61-103). -/
def search_indices_vertical_s_fp (z : FpQ) (xdim ydim zdim : ℕ) (zvals : ℤ → ℚ)
    (xi yi : ℤ) (zi0 : ℤ) (xsi eta : FpQ) (z4d : Bool) (ti : ℤ) (tdim : ℕ)
    (time t0 t1 : FpQ) : VResF :=
  vertical_core_fp (zcol_at_fp zvals xdim ydim zdim xi yi xsi eta z4d ti tdim time t0 t1)
    zdim z zi0

/-- NaN-aware final range validation (parcels.h lines 220-222 and 323-325).
A NaN coordinate compares false on both sides and passes. -/
def final_checks_fp (xi yi zi : ℤ) (xsi eta zeta : FpQ) : SResF :=
  if fpLt xsi (some 0) || fpGt xsi (some 1) then ⟨ERROR_OUT_OF_BOUNDS, xi, yi, zi, xsi, eta, zeta⟩
  else if fpLt eta (some 0) || fpGt eta (some 1) then ⟨ERROR_OUT_OF_BOUNDS, xi, yi, zi, xsi, eta, zeta⟩
  else if fpLt zeta (some 0) || fpGt zeta (some 1) then ⟨ERROR_OUT_OF_BOUNDS, xi, yi, zi, xsi, eta, zeta⟩
  else ⟨SUCCESS, xi, yi, zi, xsi, eta, zeta⟩

/-- NaN-aware longitude normalization (parcels.h lines 165-170, 180-185). -/
def norm_lon_pair_fp (xvals : ℤ → ℚ) (x : FpQ) (xi : ℤ) : FpQ × FpQ :=
  let a0 : FpQ := some (xvals xi)
  let a1 := if fpLt a0 (fpSub x (some 225)) then fpAdd a0 (some 360) else a0
  let a2 := if fpGt a1 (fpAdd x (some 225)) then fpSub a1 (some 360) else a1
  let b0 : FpQ := some (xvals (xi + 1))
  let b1 := if fpLt b0 (fpSub a2 (some 180)) then fpAdd b0 (some 360) else b0
  let b2 := if fpGt b1 (fpAdd a2 (some 180)) then fpSub b1 (some 360) else b1
  (a2, b2)

/-- NaN-aware spherical longitude search loop (parcels.h lines 172-190). -/
def sphere_x_loop_fp (xvals : ℤ → ℚ) (xdim : ℕ) (x : FpQ) : ℕ → ℤ → ErrorCode × ℤ
  | fuel, xi =>
    let p := norm_lon_pair_fp xvals x xi
    if fpGt p.1 x || fpLt p.2 x then
      match fuel with
      | 0 => (ERROR_OUT_OF_BOUNDS, xi)
      | fuel' + 1 =>
        let xi1 := if fpLt p.2 x then xi + 1 else if fpGt p.1 x then xi - 1 else xi
        sphere_x_loop_fp xvals xdim x fuel' (fix_1d_index xi1 xdim true)
    else (SUCCESS, xi)

/-- NaN-aware y-walk, vertical dispatch and final validation (parcels.h
lines 195-224). -/
def rect_tail_fp (y z : FpQ) (xdim ydim zdim : ℕ) (yvals zvals : ℤ → ℚ) (gcode : ℤ)
    (xi1 : ℤ) (xsi1 : FpQ) (yi0 zi0 : ℤ) (z4d : Bool) (ti : ℤ) (tdim : ℕ)
    (time t0 t1 : FpQ) : SResF :=
  if fpLt y (some (yvals 0)) || fpGt y (some (yvals ((ydim : ℤ) - 1))) then
    ⟨ERROR_OUT_OF_BOUNDS, xi1, yi0, zi0, xsi1, some 0, some 0⟩
  else
    let yi1 := walkDownC (fun j => fpLt y (some (yvals j)))
      (walkUpC (fun j => fpGt y (some (yvals (j + 1)))) ((ydim : ℤ) - 1) yi0)
    let eta1 := fpDiv (fpSub y (some (yvals yi1))) (some (yvals (yi1 + 1) - yvals yi1))
    if 1 < zdim then
      let vres := if gcode = RECTILINEAR_Z_GRID then search_indices_vertical_z_fp z zdim zvals zi0
        else if gcode = RECTILINEAR_S_GRID then
          search_indices_vertical_s_fp z xdim ydim zdim zvals xi1 yi1 zi0 xsi1 eta1 z4d ti tdim
            time t0 t1
        else ⟨ERROR, zi0, some 0⟩
      if vres.err ≠ SUCCESS then ⟨vres.err, xi1, yi1, vres.zi, xsi1, eta1, some 0⟩
      else final_checks_fp xi1 yi1 vres.zi xsi1 eta1 vres.zeta
    else final_checks_fp xi1 yi1 zi0 xsi1 eta1 (some 0)

/-- NaN-aware search_indices_rectilinear (parcels.h lines 148-225).  Note
that the only NaN test in the C function is the final range validation,
whose comparisons a NaN passes. -/
def search_indices_rectilinear_fp (x y z : FpQ) (xdim ydim zdim : ℕ)
    (xvals yvals zvals : ℤ → ℚ) (sphere_mesh zonal_periodic : Bool) (gcode : ℤ)
    (xi0 yi0 zi0 : ℤ) (z4d : Bool) (ti : ℤ) (tdim : ℕ) (time t0 t1 : FpQ) : SResF :=
  if sphere_mesh = false then
    if fpLt x (some (xvals 0)) || fpGt x (some (xvals ((xdim : ℤ) - 1))) then
      ⟨ERROR_OUT_OF_BOUNDS, xi0, yi0, zi0, some 0, some 0, some 0⟩
    else
      let xi1 := walkDownC (fun j => fpLt x (some (xvals j)))
        (walkUpC (fun j => fpGt x (some (xvals (j + 1)))) ((xdim : ℤ) - 1) xi0)
      let xsi1 := fpDiv (fpSub x (some (xvals xi1))) (some (xvals (xi1 + 1) - xvals xi1))
      rect_tail_fp y z xdim ydim zdim yvals zvals gcode xi1 xsi1 yi0 zi0 z4d ti tdim time t0 t1
  else
    if zonal_periodic = false ∧ xvals 0 < xvals ((xdim : ℤ) - 1) ∧
        (fpLt x (some (xvals 0)) || fpGt x (some (xvals ((xdim : ℤ) - 1)))) = true then
      ⟨ERROR_OUT_OF_BOUNDS, xi0, yi0, zi0, some 0, some 0, some 0⟩
    else if zonal_periodic = false ∧ xvals 0 ≥ xvals ((xdim : ℤ) - 1) ∧
        (fpLt x (some (xvals 0)) && fpGt x (some (xvals ((xdim : ℤ) - 1)))) = true then
      ⟨ERROR_OUT_OF_BOUNDS, xi0, yi0, zi0, some 0, some 0, some 0⟩
    else
      let r := sphere_x_loop_fp xvals xdim x 10001 xi0
      if r.1 ≠ SUCCESS then ⟨r.1, r.2, yi0, zi0, some 0, some 0, some 0⟩
      else
        let xi1 := r.2
        let p := norm_lon_pair_fp xvals x xi1
        let xsi1 := fpDiv (fpSub x p.1) (fpSub p.2 p.1)
        rect_tail_fp y z xdim ydim zdim yvals zvals gcode xi1 xsi1 yi0 zi0 z4d ti tdim time t0 t1

/-- NaN-aware state of the curvilinear loop. -/
structure CResF where
  err : ErrorCode
  xi : ℤ
  yi : ℤ
  xsi : FpQ
  eta : FpQ
deriving DecidableEq, Repr

/-- NaN-aware corner longitudes (parcels.h lines 247-256). -/
def curv_xgrid_loc_fp (xg : ℤ → ℚ) (xdim : ℕ) (x : FpQ) (xi yi : ℤ) (sphere : Bool) :
    FpQ × FpQ × FpQ × FpQ :=
  let g := fun (r c : ℤ) => (some (xg (r * xdim + c)) : FpQ)
  let l0 := g yi xi
  let l1 := g yi (xi + 1)
  let l2 := g (yi + 1) (xi + 1)
  let l3 := g (yi + 1) xi
  if sphere then
    let m0a := if fpLt l0 (fpSub x (some 225)) then fpAdd l0 (some 360) else l0
    let m0 := if fpGt m0a (fpAdd x (some 225)) then fpSub m0a (some 360) else m0a
    let adj := fun v =>
      let v1 := if fpLt v (fpSub m0 (some 180)) then fpAdd v (some 360) else v
      if fpGt v1 (fpAdd m0 (some 180)) then fpSub v1 (some 360) else v1
    (m0, adj l1, adj l2, adj l3)
  else (l0, l1, l2, l3)

/-- NaN-aware inverse-bilinear search loop (parcels.h lines 244-297).  sqF
is the C sqrt on this domain; a NaN discriminant (det != det) keeps the
previous eta. -/
def curv_loop_fp (sqF : FpQ → FpQ) (xg yg : ℤ → ℚ) (xdim ydim : ℕ) (x y : FpQ)
    (sphere : Bool) : ℕ → ℤ → ℤ → FpQ → FpQ → CResF
  | fuel, xi, yi, xsi, eta =>
    if ¬(fpLt xsi (some 0) || fpGt xsi (some 1) || fpLt eta (some 0) || fpGt eta (some 1)) = true then
      ⟨SUCCESS, xi, yi, xsi, eta⟩
    else
      match fuel with
      | 0 => ⟨ERROR_OUT_OF_BOUNDS, xi, yi, xsi, eta⟩
      | fuel' + 1 =>
        let xl := curv_xgrid_loc_fp xg xdim x xi yi sphere
        let g := fun (r c : ℤ) => (some (yg (r * xdim + c)) : FpQ)
        let yl0 := g yi xi
        let yl1 := g yi (xi + 1)
        let yl2 := g (yi + 1) (xi + 1)
        let yl3 := g (yi + 1) xi
        let a0 := xl.1
        let a1 := fpAdd (fpNeg xl.1) xl.2.1
        let a2 := fpAdd (fpNeg xl.1) xl.2.2.2
        let a3 := fpSub (fpAdd (fpSub xl.1 xl.2.1) xl.2.2.1) xl.2.2.2
        let b0 := yl0
        let b1 := fpAdd (fpNeg yl0) yl1
        let b2 := fpAdd (fpNeg yl0) yl3
        let b3 := fpSub (fpAdd (fpSub yl0 yl1) yl2) yl3
        let aa := fpSub (fpMul a3 b2) (fpMul a2 b3)
        let bb := fpSub (fpAdd (fpAdd (fpSub (fpMul a3 b0) (fpMul a0 b3))
          (fpSub (fpMul a1 b2) (fpMul a2 b1))) (fpMul x b3)) (fpMul y a3)
        let cc := fpAdd (fpSub (fpMul a1 b0) (fpMul a0 b1)) (fpSub (fpMul x b1) (fpMul y a1))
        let eta1 := if fpLt (fpAbs aa) (some (1 / 1000000000000)) then fpDiv (fpNeg cc) bb
          else
            let det := sqF (fpSub (fpMul bb bb) (fpMul (fpMul (some 4) aa) cc))
            match det with
            | none => eta
            | some d => fpDiv (fpAdd (fpNeg bb) (some d)) (fpMul (some 2) aa)
        let xsi1 := fpDiv (fpSub (fpSub x a0) (fpMul a2 eta1)) (fpAdd a1 (fpMul a3 eta1))
        if (fpLt xsi1 (some 0) && fpLt eta1 (some 0)) = true ∧ xi = 0 ∧ yi = 0 then
          ⟨ERROR_OUT_OF_BOUNDS, xi, yi, xsi1, eta1⟩
        else if (fpGt xsi1 (some 1) && fpGt eta1 (some 1)) = true ∧ xi = (xdim : ℤ) - 1 ∧
            yi = (ydim : ℤ) - 1 then
          ⟨ERROR_OUT_OF_BOUNDS, xi, yi, xsi1, eta1⟩
        else
          let xi1 := if fpLt xsi1 (some 0) then xi - 1 else if fpGt xsi1 (some 1) then xi + 1 else xi
          let yi1 := if fpLt eta1 (some 0) then yi - 1 else if fpGt eta1 (some 1) then yi + 1 else yi
          let p := fix_2d_indices xi1 yi1 xdim ydim sphere
          curv_loop_fp sqF xg yg xdim ydim x y sphere fuel' p.1 p.2 xsi1 eta1

/-- NaN-aware search_indices_curvilinear (parcels.h lines 228-328),
including the explicit NaN rejection of lines 298-301. -/
def search_indices_curvilinear_fp (sqF : FpQ → FpQ) (x y z : FpQ) (xdim ydim zdim : ℕ)
    (xvals yvals zvals : ℤ → ℚ) (sphere_mesh zonal_periodic : Bool) (gcode : ℤ)
    (xi0 yi0 zi0 : ℤ) (z4d : Bool) (ti : ℤ) (tdim : ℕ) (time t0 t1 : FpQ) : SResF :=
  if (zonal_periodic = false ∨ sphere_mesh = false) ∧ xvals 0 < xvals ((xdim : ℤ) - 1) ∧
      (fpLt x (some (xvals 0)) || fpGt x (some (xvals ((xdim : ℤ) - 1)))) = true then
    ⟨ERROR_OUT_OF_BOUNDS, xi0, yi0, zi0, some 0, some 0, some 0⟩
  else if (zonal_periodic = false ∨ sphere_mesh = false) ∧ xvals 0 ≥ xvals ((xdim : ℤ) - 1) ∧
      (fpLt x (some (xvals 0)) && fpGt x (some (xvals ((xdim : ℤ) - 1)))) = true then
    ⟨ERROR_OUT_OF_BOUNDS, xi0, yi0, zi0, some 0, some 0, some 0⟩
  else
    let r := curv_loop_fp sqF xvals yvals xdim ydim x y sphere_mesh 1000001 xi0 yi0
      (some (-1)) (some (-1))
    if r.err ≠ SUCCESS then ⟨r.err, r.xi, r.yi, zi0, r.xsi, r.eta, some 0⟩
    else if fpIsNaN r.xsi || fpIsNaN r.eta then
      ⟨ERROR_OUT_OF_BOUNDS, r.xi, r.yi, zi0, r.xsi, r.eta, some 0⟩
    else if 1 < zdim then
      let vres := if gcode = CURVILINEAR_Z_GRID then search_indices_vertical_z_fp z zdim zvals zi0
        else if gcode = CURVILINEAR_S_GRID then
          search_indices_vertical_s_fp z xdim ydim zdim zvals r.xi r.yi zi0 r.xsi r.eta z4d ti
            tdim time t0 t1
        else ⟨ERROR, zi0, some 0⟩
      if vres.err ≠ SUCCESS then ⟨vres.err, r.xi, r.yi, vres.zi, r.xsi, r.eta, some 0⟩
      else final_checks_fp r.xi r.yi vres.zi r.xsi r.eta vres.zeta
    else final_checks_fp r.xi r.yi zi0 r.xsi r.eta (some 0)

/-- The greatest index below size with tvals at or below t, written as the
spec's contract reads (a scan from the top); 0 when there is none. -/
def specGreatestTimeIdx (tvals : ℤ → ℚ) (t : ℚ) : ℕ → ℤ
  | 0 => 0
  | n + 1 => if tvals (n : ℤ) ≤ t then (n : ℤ) else specGreatestTimeIdx tvals t n

def C10tv : ℤ → ℚ := fun i => if i ≤ 0 then 0 else if i = 1 then 1 else 2

def C10grid : CStructuredGrid :=
  ⟨RECTILINEAR_Z_GRID, 2, 2, 1, 2, false, false, false,
    (fun i => if i ≤ 0 then 0 else 1), (fun i => if i ≤ 0 then 0 else 1),
    (fun _ => 0), (fun i => if i ≤ 0 then 0 else 1)⟩

def C10F : CField := ⟨2, 2, 1, 2, false, false, 0, (fun _ => 0), C10grid⟩

def C3grid : CStructuredGrid :=
  ⟨RECTILINEAR_Z_GRID, 2, 2, 1, 2, false, false, false,
    (fun i => if i ≤ 0 then 0 else 1), (fun i => if i ≤ 0 then 0 else 1),
    (fun _ => 0), (fun i => if i ≤ 0 then 0 else 1)⟩

def C3F : CField := ⟨2, 2, 1, 2, false, false, 0, (fun _ => 0), C3grid⟩

def C1grid : CStructuredGrid :=
  ⟨RECTILINEAR_Z_GRID, 2, 2, 1, 2, false, false, false,
    (fun i => if i ≤ 0 then 0 else 1), (fun i => if i ≤ 0 then 0 else 1),
    (fun _ => 0), (fun i => if i ≤ 0 then 0 else 1)⟩

def C1F : CField := ⟨2, 2, 1, 2, false, false, 0,
  (fun j => if j < 4 then 0 else 1), C1grid⟩

def C4grid : CStructuredGrid :=
  ⟨RECTILINEAR_Z_GRID, 2, 2, 1, 3, false, false, false,
    (fun i => if i ≤ 0 then 0 else 1), (fun i => if i ≤ 0 then 0 else 1),
    (fun _ => 0), (fun i => if i ≤ 0 then 0 else if i = 1 then 1 else 2)⟩

def C4F : CField := ⟨2, 2, 1, 3, false, true, 0,
  (fun j => if j < 4 then 0 else if j < 8 then 1 else 2), C4grid⟩

def C7grid : CStructuredGrid :=
  ⟨RECTILINEAR_Z_GRID, 2, 2, 1, 2, false, false, false,
    (fun i => if i ≤ 0 then 0 else 1), (fun i => if i ≤ 0 then 0 else 1),
    (fun _ => 0), (fun i => if i ≤ 0 then 0 else 1)⟩

def C7field (c : ℚ) : CField := ⟨2, 2, 1, 2, false, false, 0, (fun _ => c), C7grid⟩

def C7bad : CField := ⟨2, 2, 1, 2, false, false, 0, (fun _ => 0),
  ⟨7, 2, 2, 1, 2, false, false, false, (fun i => if i ≤ 0 then 0 else 1),
    (fun i => if i ≤ 0 then 0 else 1), (fun _ => 0), (fun i => if i ≤ 0 then 0 else 1)⟩⟩

def C2ax : ℤ → ℚ := fun i => if i ≤ 0 then 0 else 1

/-- A flat [zdim][ydim][xdim] = [2][2][2] S-grid depth table: level 0 at
depth 0, level 1 at depth 1. -/
def C2Sax : ℤ → ℚ := fun j => if j < 4 then 0 else 1

def C5xg : ℤ → ℚ := fun j => if j = 1 ∨ j = 3 then 1 else 0

def C5yg : ℤ → ℚ := fun j => if j ≤ 1 then 0 else 1

def C5deg : ℤ → ℚ := fun _ => 0

def C6down : ℤ → ℚ := fun i => if i ≤ 0 then 90 else -135

theorem walkUpC_ge (c : ℤ → Bool) (nmax : ℤ) : ∀ i, i ≤ walkUpC c nmax i := by
  have H : ∀ n : ℕ, ∀ i, (nmax - i).toNat = n → i ≤ walkUpC c nmax i := by
    intro n
    induction n using Nat.strong_induction_on with
    | _ n ih =>
      intro i hn
      rw [walkUpC]
      split
      · next h => exact le_trans (by omega) (ih (nmax - (i + 1)).toNat (by omega) (i + 1) rfl)
      · exact le_refl i
  intro i
  exact H _ i rfl

theorem walkUpC_stop (c : ℤ → Bool) (nmax : ℤ) :
    ∀ i, ¬(walkUpC c nmax i < nmax ∧ c (walkUpC c nmax i) = true) := by
  have H : ∀ n : ℕ, ∀ i, (nmax - i).toNat = n →
      ¬(walkUpC c nmax i < nmax ∧ c (walkUpC c nmax i) = true) := by
    intro n
    induction n using Nat.strong_induction_on with
    | _ n ih =>
      intro i hn
      rw [walkUpC]
      split
      · next h => exact ih (nmax - (i + 1)).toNat (by omega) (i + 1) rfl
      · next h => exact h
  intro i
  exact H _ i rfl

/-- If the walk starts at or below m and the condition fails at m, the walk
cannot pass m. -/
theorem walkUpC_le_of (c : ℤ → Bool) (nmax : ℤ) :
    ∀ i m, i ≤ m → c m = false → walkUpC c nmax i ≤ m := by
  have H : ∀ n : ℕ, ∀ i m, (nmax - i).toNat = n → i ≤ m → c m = false →
      walkUpC c nmax i ≤ m := by
    intro n
    induction n using Nat.strong_induction_on with
    | _ n ih =>
      intro i m hn him hcm
      rw [walkUpC]
      split
      · next h =>
        rcases eq_or_lt_of_le him with heq | hlt
        · rw [heq] at h
          rw [hcm] at h
          exact absurd h.2 (by simp)
        · exact ih (nmax - (i + 1)).toNat (by omega) (i + 1) m rfl (by omega) hcm
      · exact him
  intro i m
  exact H _ i m rfl

theorem walkUpC_le_nmax (c : ℤ → Bool) (nmax : ℤ) :
    ∀ i, i ≤ nmax → walkUpC c nmax i ≤ nmax := by
  have H : ∀ n : ℕ, ∀ i, (nmax - i).toNat = n → i ≤ nmax → walkUpC c nmax i ≤ nmax := by
    intro n
    induction n using Nat.strong_induction_on with
    | _ n ih =>
      intro i hn hi
      rw [walkUpC]
      split
      · next h => exact ih (nmax - (i + 1)).toNat (by omega) (i + 1) rfl (by omega)
      · exact hi
  intro i
  exact H _ i rfl

/-- If the condition holds everywhere from the start up to m (exclusive),
the walk reaches at least m. -/
theorem walkUpC_ge_of (c : ℤ → Bool) (nmax : ℤ) :
    ∀ i m, i ≤ m → m ≤ nmax → (∀ j, i ≤ j → j < m → c j = true) →
      m ≤ walkUpC c nmax i := by
  have H : ∀ n : ℕ, ∀ i m, (nmax - i).toNat = n → i ≤ m → m ≤ nmax →
      (∀ j, i ≤ j → j < m → c j = true) → m ≤ walkUpC c nmax i := by
    intro n
    induction n using Nat.strong_induction_on with
    | _ n ih =>
      intro i m hn him hmn hall
      rcases eq_or_lt_of_le him with heq | hlt
      · rw [← heq]
        exact walkUpC_ge c nmax i
      · rw [walkUpC]
        split
        · next h =>
          exact ih (nmax - (i + 1)).toNat (by omega) (i + 1) m rfl (by omega) hmn
            (fun j h1 h2 => hall j (by omega) h2)
        · next h =>
          exfalso
          exact h ⟨by omega, hall i (le_refl i) hlt⟩
  intro i m
  exact H _ i m rfl

theorem walkDownC_le (c : ℤ → Bool) : ∀ i, walkDownC c i ≤ i := by
  have H : ∀ n : ℕ, ∀ i, i.toNat = n → walkDownC c i ≤ i := by
    intro n
    induction n using Nat.strong_induction_on with
    | _ n ih =>
      intro i hn
      rw [walkDownC]
      split
      · next h => exact le_trans (ih (i - 1).toNat (by omega) (i - 1) rfl) (by omega)
      · exact le_refl i
  intro i
  exact H _ i rfl

theorem walkDownC_nonneg (c : ℤ → Bool) : ∀ i, 0 ≤ i → 0 ≤ walkDownC c i := by
  have H : ∀ n : ℕ, ∀ i, i.toNat = n → 0 ≤ i → 0 ≤ walkDownC c i := by
    intro n
    induction n using Nat.strong_induction_on with
    | _ n ih =>
      intro i hn hi
      rw [walkDownC]
      split
      · next h => exact ih (i - 1).toNat (by omega) (i - 1) rfl (by omega)
      · exact hi
  intro i
  exact H _ i rfl

theorem walkDownC_stop (c : ℤ → Bool) :
    ∀ i, ¬(0 < walkDownC c i ∧ c (walkDownC c i) = true) := by
  have H : ∀ n : ℕ, ∀ i, i.toNat = n → ¬(0 < walkDownC c i ∧ c (walkDownC c i) = true) := by
    intro n
    induction n using Nat.strong_induction_on with
    | _ n ih =>
      intro i hn
      rw [walkDownC]
      split
      · next h => exact ih (i - 1).toNat (by omega) (i - 1) rfl
      · next h => exact h
  intro i
  exact H _ i rfl

/-- Either the downward walk did not move, or the condition held one step
above its final position (the step it descended from). -/
theorem walkDownC_last (c : ℤ → Bool) :
    ∀ i, walkDownC c i = i ∨ c (walkDownC c i + 1) = true := by
  have H : ∀ n : ℕ, ∀ i, i.toNat = n → walkDownC c i = i ∨ c (walkDownC c i + 1) = true := by
    intro n
    induction n using Nat.strong_induction_on with
    | _ n ih =>
      intro i hn
      rw [walkDownC]
      split
      · next h =>
        rcases ih (i - 1).toNat (by omega) (i - 1) rfl with heq | hc
        · right
          rw [heq]
          simpa using h.2
        · right
          exact hc
      · left
        rfl
  intro i
  exact H _ i rfl

/-- If the condition holds strictly everywhere above 0 up to the start, the
downward walk lands exactly on 0. -/
theorem walkDownC_eq_zero_of (c : ℤ → Bool) :
    ∀ i, 0 ≤ i → (∀ j, 0 < j → j ≤ i → c j = true) → walkDownC c i = 0 := by
  have H : ∀ n : ℕ, ∀ i, i.toNat = n → 0 ≤ i → (∀ j, 0 < j → j ≤ i → c j = true) →
      walkDownC c i = 0 := by
    intro n
    induction n using Nat.strong_induction_on with
    | _ n ih =>
      intro i hn hi hall
      rw [walkDownC]
      split
      · next h =>
        exact ih (i - 1).toNat (by omega) (i - 1) rfl (by omega)
          (fun j h1 h2 => hall j h1 (by omega))
      · next h =>
        rcases eq_or_lt_of_le hi with heq | hlt
        · omega
        · exfalso
          exact h ⟨hlt, hall i hlt (le_refl i)⟩
  intro i
  exact H _ i rfl

theorem adjInc_pairwise_nat (v : ℤ → ℚ) (n : ℕ) (h : adjInc v n) :
    ∀ b a : ℕ, a < b → b ≤ n - 1 → v (a : ℤ) < v (b : ℤ) := by
  intro b
  induction b with
  | zero => intro a ha _; omega
  | succ k ih =>
    intro a ha hb
    have hk : v (k : ℤ) < v ((k : ℤ) + 1) := h k (by omega)
    have hcast : ((k + 1 : ℕ) : ℤ) = (k : ℤ) + 1 := by push_cast; ring
    rw [hcast]
    rcases Nat.lt_succ_iff_lt_or_eq.mp ha with hlt | heq
    · exact lt_trans (ih a hlt (by omega)) hk
    · subst heq; exact hk

/-- Adjacent strict increase gives pairwise strict increase on the axis. -/
theorem adjInc_pairwise (v : ℤ → ℚ) (n : ℕ) (h : adjInc v n) :
    ∀ i j : ℤ, 0 ≤ i → i < j → j ≤ (n : ℤ) - 1 → v i < v j := by
  intro i j hi hij hj
  have hi' : i = ((i.toNat : ℕ) : ℤ) := by omega
  have hj' : j = ((j.toNat : ℕ) : ℤ) := by omega
  rw [hi', hj']
  exact adjInc_pairwise_nat v n h j.toNat i.toNat (by omega) (by omega)

theorem fix_1d_index_range (xi : ℤ) (xdim : ℕ) (s : Bool) (h : 2 ≤ xdim) :
    0 ≤ fix_1d_index xi xdim s ∧ fix_1d_index xi xdim s ≤ (xdim : ℤ) - 2 := by
  simp only [fix_1d_index]
  cases s <;> split <;> split <;> omega

theorem fix_2d_indices_yi_range (xi yi : ℤ) (xdim ydim : ℕ) (s : Bool) (h : 2 ≤ ydim) :
    0 ≤ (fix_2d_indices xi yi xdim ydim s).2 ∧
      (fix_2d_indices xi yi xdim ydim s).2 ≤ (ydim : ℤ) - 2 := by
  simp only [fix_2d_indices]
  split <;> split <;> dsimp only <;> omega

/-- When the incoming yi is already in range the pole reflection cannot
fire: the clamped xi lands in [0, xdim-2] and yi is returned unchanged. -/
theorem fix_2d_indices_no_mirror (xi yi : ℤ) (xdim ydim : ℕ) (s : Bool)
    (hx : 2 ≤ xdim) (hy0 : 0 ≤ yi) (hy : yi ≤ (ydim : ℤ) - 2) :
    0 ≤ (fix_2d_indices xi yi xdim ydim s).1 ∧
      (fix_2d_indices xi yi xdim ydim s).1 ≤ (xdim : ℤ) - 2 ∧
      (fix_2d_indices xi yi xdim ydim s).2 = yi ∧
      (fix_2d_indices xi yi xdim ydim s).1 = fix_1d_index xi xdim s := by
  have hr := fix_1d_index_range xi xdim s hx
  simp only [fix_2d_indices, if_neg (by omega : ¬yi < 0)]
  rw [if_neg (by omega : ¬yi > (ydim : ℤ) - 2)]
  exact ⟨hr.1, hr.2, rfl, rfl⟩

/-- If additionally the incoming xi is in range, fix_2d_indices is the
identity. -/
theorem fix_2d_indices_id (xi yi : ℤ) (xdim ydim : ℕ) (s : Bool)
    (hx0 : 0 ≤ xi) (hx : xi ≤ (xdim : ℤ) - 2) (hy0 : 0 ≤ yi) (hy : yi ≤ (ydim : ℤ) - 2) :
    fix_2d_indices xi yi xdim ydim s = (xi, yi) := by
  have h1 : fix_1d_index xi xdim s = xi := by
    simp only [fix_1d_index, if_neg (by omega : ¬xi < 0)]
    rw [if_neg (by omega : ¬xi > (xdim : ℤ) - 2)]
  simp only [fix_2d_indices, h1, if_neg (by omega : ¬yi < 0)]
  rw [if_neg (by omega : ¬yi > (ydim : ℤ) - 2)]

theorem vertical_core_err_cases (v : ℤ → ℚ) (zdim : ℕ) (z : ℚ) (zi0 : ℤ) :
    (vertical_core v zdim z zi0).err = SUCCESS ∨
      (vertical_core v zdim z zi0).err = ERROR_OUT_OF_BOUNDS := by
  unfold vertical_core
  split
  · right; rfl
  · left; rfl

theorem vertical_core_oob_iff (v : ℤ → ℚ) (zdim : ℕ) (z : ℚ) (zi0 : ℤ) :
    (vertical_core v zdim z zi0).err = ERROR_OUT_OF_BOUNDS ↔
      (z < v 0 ∨ z > v ((zdim : ℤ) - 1)) := by
  unfold vertical_core
  split
  · next h => exact ⟨fun _ => h, fun _ => rfl⟩
  · next h => exact ⟨fun hc => absurd hc (by simp), fun hc => absurd hc h⟩

/-- On success (z inside the column), the walked zi lies in [0, zdim-2],
the column brackets z at zi, and zeta is the affine coordinate in that
interval.  Needs a valid incoming hint. -/
theorem vertical_core_success (v : ℤ → ℚ) (zdim : ℕ) (z : ℚ) (zi0 : ℤ)
    (_hZ : 2 ≤ zdim) (h0 : 0 ≤ zi0) (h2 : zi0 ≤ (zdim : ℤ) - 2)
    (hin : ¬(z < v 0 ∨ z > v ((zdim : ℤ) - 1))) :
    (vertical_core v zdim z zi0).err = SUCCESS ∧
      0 ≤ (vertical_core v zdim z zi0).zi ∧
      (vertical_core v zdim z zi0).zi ≤ (zdim : ℤ) - 2 ∧
      v (vertical_core v zdim z zi0).zi ≤ z ∧
      z ≤ v ((vertical_core v zdim z zi0).zi + 1) ∧
      (vertical_core v zdim z zi0).zeta =
        (z - v (vertical_core v zdim z zi0).zi) /
          (v ((vertical_core v zdim z zi0).zi + 1) - v (vertical_core v zdim z zi0).zi) := by
  have hv0 : v 0 ≤ z := by push_neg at hin; exact hin.1
  have hvE : z ≤ v ((zdim : ℤ) - 1) := by push_neg at hin; exact hin.2
  set cup := fun j : ℤ => decide (z > v (j + 1)) with hcup
  set cdn := fun j : ℤ => decide (z < v j) with hcdn
  set up := walkUpC cup ((zdim : ℤ) - 1) zi0 with hup
  set dn := walkDownC cdn up with hdn
  have hup_le : up ≤ (zdim : ℤ) - 2 := by
    apply walkUpC_le_of cup ((zdim : ℤ) - 1) zi0 ((zdim : ℤ) - 2) h2
    simp only [hcup, decide_eq_false_iff_not]
    have hidx : (zdim : ℤ) - 2 + 1 = (zdim : ℤ) - 1 := by ring
    rw [hidx]
    exact not_lt.mpr hvE
  have hup_ge : zi0 ≤ up := walkUpC_ge cup ((zdim : ℤ) - 1) zi0
  have hdn_le : dn ≤ up := walkDownC_le cdn up
  have hdn_ge : 0 ≤ dn := walkDownC_nonneg cdn up (by omega)
  have hne : ¬(dn = (zdim : ℤ) - 1) := by omega
  have hres : vertical_core v zdim z zi0 =
      ⟨SUCCESS, dn, (z - v dn) / (v (dn + 1) - v dn)⟩ := by
    unfold vertical_core
    rw [if_neg hin]
    simp only [← hcup, ← hcdn, ← hup, ← hdn, if_neg hne]
  rw [hres]
  dsimp only
  refine ⟨rfl, hdn_ge, by omega, ?_, ?_, rfl⟩
  · by_cases hd0 : 0 < dn
    · have hnc : ¬(cdn dn = true) := fun hc => walkDownC_stop cdn up ⟨hd0, hc⟩
      simp only [hcdn, decide_eq_true_eq] at hnc
      exact le_of_not_lt hnc
    · have hdeq : dn = 0 := by omega
      rw [hdeq]
      exact hv0
  · rcases walkDownC_last cdn up with heq | hc
    · have hnc : ¬(cup up = true) := by
        intro hc
        exact walkUpC_stop cup ((zdim : ℤ) - 1) zi0 ⟨by omega, hc⟩
      simp only [hcup, decide_eq_true_eq] at hnc
      rw [hdn, heq]
      exact le_of_not_lt hnc
    · simp only [hcdn, decide_eq_true_eq] at hc
      exact le_of_lt hc

theorem final_checks_err_cases (xi yi zi : ℤ) (a b c : ℚ) :
    (final_checks xi yi zi a b c).err = SUCCESS ∨
      (final_checks xi yi zi a b c).err = ERROR_OUT_OF_BOUNDS := by
  unfold final_checks
  split
  · right; rfl
  split
  · right; rfl
  split
  · right; rfl
  · left; rfl

theorem final_checks_success (xi yi zi : ℤ) (a b c : ℚ)
    (h : (final_checks xi yi zi a b c).err = SUCCESS) :
    final_checks xi yi zi a b c = ⟨SUCCESS, xi, yi, zi, a, b, c⟩ ∧
      0 ≤ a ∧ a ≤ 1 ∧ 0 ≤ b ∧ b ≤ 1 ∧ 0 ≤ c ∧ c ≤ 1 := by
  unfold final_checks at h ⊢
  split at h
  · exact absurd h (by simp)
  split at h
  · exact absurd h (by simp)
  split at h
  · exact absurd h (by simp)
  next h1 h2 h3 =>
    push_neg at h1 h2 h3
    exact ⟨by rw [if_neg (by push_neg; exact h1), if_neg (by push_neg; exact h2),
      if_neg (by push_neg; exact h3)], h1.1, h1.2, h2.1, h2.2, h3.1, h3.2⟩

/-- Properties of the rectilinear axis walk pattern (up on w > v[i+1], down
on w < v[i]) used for the x, y and z axes: starting from a valid hint, with
w inside [v 0, v (n-1)], the final index is in [0, n-2] and brackets w. -/
theorem axis_walk_props (v : ℤ → ℚ) (n : ℕ) (w : ℚ) (i0 : ℤ)
    (h0 : 0 ≤ i0) (h2 : i0 ≤ (n : ℤ) - 2) (hlo : v 0 ≤ w) (hhi : w ≤ v ((n : ℤ) - 1)) :
    0 ≤ walkDownC (fun j => decide (w < v j))
        (walkUpC (fun j => decide (w > v (j + 1))) ((n : ℤ) - 1) i0) ∧
      walkDownC (fun j => decide (w < v j))
        (walkUpC (fun j => decide (w > v (j + 1))) ((n : ℤ) - 1) i0) ≤ (n : ℤ) - 2 ∧
      v (walkDownC (fun j => decide (w < v j))
        (walkUpC (fun j => decide (w > v (j + 1))) ((n : ℤ) - 1) i0)) ≤ w ∧
      w ≤ v (walkDownC (fun j => decide (w < v j))
        (walkUpC (fun j => decide (w > v (j + 1))) ((n : ℤ) - 1) i0) + 1) := by
  set cup := fun j : ℤ => decide (w > v (j + 1)) with hcup
  set cdn := fun j : ℤ => decide (w < v j) with hcdn
  set up := walkUpC cup ((n : ℤ) - 1) i0 with hup
  set dn := walkDownC cdn up with hdn
  have hup_le : up ≤ (n : ℤ) - 2 := by
    apply walkUpC_le_of cup ((n : ℤ) - 1) i0 ((n : ℤ) - 2) h2
    simp only [hcup, decide_eq_false_iff_not]
    have hidx : (n : ℤ) - 2 + 1 = (n : ℤ) - 1 := by ring
    rw [hidx]
    exact not_lt.mpr hhi
  have hup_ge : i0 ≤ up := walkUpC_ge cup ((n : ℤ) - 1) i0
  have hdn_le : dn ≤ up := walkDownC_le cdn up
  have hdn_ge : 0 ≤ dn := walkDownC_nonneg cdn up (by omega)
  refine ⟨hdn_ge, by omega, ?_, ?_⟩
  · by_cases hd0 : 0 < dn
    · have hnc : ¬(cdn dn = true) := fun hc => walkDownC_stop cdn up ⟨hd0, hc⟩
      simp only [hcdn, decide_eq_true_eq] at hnc
      exact le_of_not_lt hnc
    · have hdeq : dn = 0 := by omega
      rw [hdeq]
      exact hlo
  · rcases walkDownC_last cdn up with heq | hc
    · have hnc : ¬(cup up = true) := by
        intro hc
        exact walkUpC_stop cup ((n : ℤ) - 1) i0 ⟨by omega, hc⟩
      simp only [hcup, decide_eq_true_eq] at hnc
      rw [hdn, heq]
      exact le_of_not_lt hnc
    · simp only [hcdn, decide_eq_true_eq] at hc
      exact le_of_lt hc

theorem sphere_x_loop_errs (xvals : ℤ → ℚ) (xdim : ℕ) (x : ℚ) :
    ∀ fuel xi, (sphere_x_loop xvals xdim x fuel xi).1 = SUCCESS ∨
      (sphere_x_loop xvals xdim x fuel xi).1 = ERROR_OUT_OF_BOUNDS := by
  intro fuel
  induction fuel with
  | zero =>
    intro xi
    rw [sphere_x_loop]
    split
    · right; rfl
    · left; rfl
  | succ n ih =>
    intro xi
    rw [sphere_x_loop]
    split
    · exact ih _
    · left; rfl

theorem sphere_x_loop_range (xvals : ℤ → ℚ) (xdim : ℕ) (x : ℚ) (hx : 2 ≤ xdim) :
    ∀ fuel xi, 0 ≤ xi → xi ≤ (xdim : ℤ) - 2 →
      0 ≤ (sphere_x_loop xvals xdim x fuel xi).2 ∧
        (sphere_x_loop xvals xdim x fuel xi).2 ≤ (xdim : ℤ) - 2 := by
  intro fuel
  induction fuel with
  | zero =>
    intro xi hx0 hx2
    rw [sphere_x_loop]
    split
    · exact ⟨hx0, hx2⟩
    · exact ⟨hx0, hx2⟩
  | succ n ih =>
    intro xi hx0 hx2
    rw [sphere_x_loop]
    split
    · exact ih _ (fix_1d_index_range _ xdim true hx).1 (fix_1d_index_range _ xdim true hx).2
    · exact ⟨hx0, hx2⟩

/-- When the spherical longitude loop returns SUCCESS, the normalized
longitudes of the final cell bracket x (the loop exit test of parcels.h
line 174/186). -/
theorem sphere_x_loop_success_brackets (xvals : ℤ → ℚ) (xdim : ℕ) (x : ℚ) :
    ∀ fuel xi, (sphere_x_loop xvals xdim x fuel xi).1 = SUCCESS →
      (norm_lon_pair xvals x ((sphere_x_loop xvals xdim x fuel xi).2)).1 ≤ x ∧
        x ≤ (norm_lon_pair xvals x ((sphere_x_loop xvals xdim x fuel xi).2)).2 := by
  intro fuel
  induction fuel with
  | zero =>
    intro xi hs
    rw [sphere_x_loop] at hs ⊢
    try dsimp only at hs ⊢
    by_cases hc : (norm_lon_pair xvals x xi).1 > x ∨ (norm_lon_pair xvals x xi).2 < x
    · rw [if_pos hc] at hs
      exact absurd hs (by simp)
    · rw [if_neg hc] at hs ⊢
      push_neg at hc
      exact hc
  | succ n ih =>
    intro xi hs
    rw [sphere_x_loop] at hs ⊢
    try dsimp only at hs ⊢
    by_cases hc : (norm_lon_pair xvals x xi).1 > x ∨ (norm_lon_pair xvals x xi).2 < x
    · rw [if_pos hc] at hs ⊢
      exact ih _ hs
    · rw [if_neg hc] at hs ⊢
      push_neg at hc
      exact hc

theorem curv_loop_stop_eq (sq : ℚ → Option ℚ) (xg yg : ℤ → ℚ) (xdim ydim : ℕ)
    (x y : ℚ) (sphere : Bool) (fuel : ℕ) (xi yi : ℤ) (a b : ℚ)
    (hnot : ¬(a < 0 ∨ a > 1 ∨ b < 0 ∨ b > 1)) :
    curv_loop sq xg yg xdim ydim x y sphere fuel xi yi a b = ⟨SUCCESS, xi, yi, a, b⟩ := by
  rw [curv_loop.eq_def]
  dsimp only
  rw [if_pos hnot]

theorem curv_loop_zero_eq (sq : ℚ → Option ℚ) (xg yg : ℤ → ℚ) (xdim ydim : ℕ)
    (x y : ℚ) (sphere : Bool) (xi yi : ℤ) (a b : ℚ)
    (hcond : a < 0 ∨ a > 1 ∨ b < 0 ∨ b > 1) :
    curv_loop sq xg yg xdim ydim x y sphere 0 xi yi a b =
      ⟨ERROR_OUT_OF_BOUNDS, xi, yi, a, b⟩ := by
  rw [curv_loop.eq_def]
  dsimp only
  rw [if_neg (not_not_intro hcond)]

theorem curv_loop_succ_eq (sq : ℚ → Option ℚ) (xg yg : ℤ → ℚ) (xdim ydim : ℕ)
    (x y : ℚ) (sphere : Bool) (n : ℕ) (xi yi : ℤ) (a b : ℚ)
    (hcond : a < 0 ∨ a > 1 ∨ b < 0 ∨ b > 1) :
    curv_loop sq xg yg xdim ydim x y sphere (n + 1) xi yi a b =
      (if (curv_body sq xg yg xdim x y sphere xi yi b).1 < 0 ∧
          (curv_body sq xg yg xdim x y sphere xi yi b).2 < 0 ∧ xi = 0 ∧ yi = 0 then
        ⟨ERROR_OUT_OF_BOUNDS, xi, yi, (curv_body sq xg yg xdim x y sphere xi yi b).1,
          (curv_body sq xg yg xdim x y sphere xi yi b).2⟩
      else if (curv_body sq xg yg xdim x y sphere xi yi b).1 > 1 ∧
          (curv_body sq xg yg xdim x y sphere xi yi b).2 > 1 ∧ xi = (xdim : ℤ) - 1 ∧
          yi = (ydim : ℤ) - 1 then
        ⟨ERROR_OUT_OF_BOUNDS, xi, yi, (curv_body sq xg yg xdim x y sphere xi yi b).1,
          (curv_body sq xg yg xdim x y sphere xi yi b).2⟩
      else
        curv_loop sq xg yg xdim ydim x y sphere n
          (fix_2d_indices
            (if (curv_body sq xg yg xdim x y sphere xi yi b).1 < 0 then xi - 1
              else if (curv_body sq xg yg xdim x y sphere xi yi b).1 > 1 then xi + 1 else xi)
            (if (curv_body sq xg yg xdim x y sphere xi yi b).2 < 0 then yi - 1
              else if (curv_body sq xg yg xdim x y sphere xi yi b).2 > 1 then yi + 1 else yi)
            xdim ydim sphere).1
          (fix_2d_indices
            (if (curv_body sq xg yg xdim x y sphere xi yi b).1 < 0 then xi - 1
              else if (curv_body sq xg yg xdim x y sphere xi yi b).1 > 1 then xi + 1 else xi)
            (if (curv_body sq xg yg xdim x y sphere xi yi b).2 < 0 then yi - 1
              else if (curv_body sq xg yg xdim x y sphere xi yi b).2 > 1 then yi + 1 else yi)
            xdim ydim sphere).2
          (curv_body sq xg yg xdim x y sphere xi yi b).1
          (curv_body sq xg yg xdim x y sphere xi yi b).2) := by
  rw [curv_loop.eq_def]
  dsimp only
  rw [if_neg (not_not_intro hcond)]

theorem curv_loop_errs (sq : ℚ → Option ℚ) (xg yg : ℤ → ℚ) (xdim ydim : ℕ)
    (x y : ℚ) (sphere : Bool) :
    ∀ fuel (xi yi : ℤ) (a b : ℚ),
      (curv_loop sq xg yg xdim ydim x y sphere fuel xi yi a b).err = SUCCESS ∨
      (curv_loop sq xg yg xdim ydim x y sphere fuel xi yi a b).err = ERROR_OUT_OF_BOUNDS := by
  intro fuel
  induction fuel with
  | zero =>
    intro xi yi a b
    by_cases hc : (a < 0 ∨ a > 1 ∨ b < 0 ∨ b > 1)
    · rw [curv_loop_zero_eq sq xg yg xdim ydim x y sphere xi yi a b hc]
      right; rfl
    · rw [curv_loop_stop_eq sq xg yg xdim ydim x y sphere 0 xi yi a b hc]
      left; rfl
  | succ n ih =>
    intro xi yi a b
    by_cases hc : (a < 0 ∨ a > 1 ∨ b < 0 ∨ b > 1)
    · rw [curv_loop_succ_eq sq xg yg xdim ydim x y sphere n xi yi a b hc]
      split
      · right; rfl
      split
      · right; rfl
      · exact ih _ _ _ _
    · rw [curv_loop_stop_eq sq xg yg xdim ydim x y sphere (n + 1) xi yi a b hc]
      left; rfl

/-- Index and coordinate bounds of the curvilinear loop on a successful
exit, from any state whose yi is in range and whose (xsi, eta) still fail
the exit test (as at the initial (-1, -1)). -/
theorem curv_loop_success (sq : ℚ → Option ℚ) (xg yg : ℤ → ℚ) (xdim ydim : ℕ)
    (x y : ℚ) (sphere : Bool) (hx : 2 ≤ xdim) (hy : 2 ≤ ydim) :
    ∀ fuel (xi yi : ℤ) (a b : ℚ), 0 ≤ yi → yi ≤ (ydim : ℤ) - 2 →
      (a < 0 ∨ a > 1 ∨ b < 0 ∨ b > 1) →
      (curv_loop sq xg yg xdim ydim x y sphere fuel xi yi a b).err = SUCCESS →
      0 ≤ (curv_loop sq xg yg xdim ydim x y sphere fuel xi yi a b).xi ∧
        (curv_loop sq xg yg xdim ydim x y sphere fuel xi yi a b).xi ≤ (xdim : ℤ) - 2 ∧
        0 ≤ (curv_loop sq xg yg xdim ydim x y sphere fuel xi yi a b).yi ∧
        (curv_loop sq xg yg xdim ydim x y sphere fuel xi yi a b).yi ≤ (ydim : ℤ) - 2 ∧
        0 ≤ (curv_loop sq xg yg xdim ydim x y sphere fuel xi yi a b).xsi ∧
        (curv_loop sq xg yg xdim ydim x y sphere fuel xi yi a b).xsi ≤ 1 ∧
        0 ≤ (curv_loop sq xg yg xdim ydim x y sphere fuel xi yi a b).eta ∧
        (curv_loop sq xg yg xdim ydim x y sphere fuel xi yi a b).eta ≤ 1 ∧
        ∃ xp ep, fix_1d_index xp xdim sphere =
            (curv_loop sq xg yg xdim ydim x y sphere fuel xi yi a b).xi ∧
          (curv_loop sq xg yg xdim ydim x y sphere fuel xi yi a b).xsi =
            (curv_body sq xg yg xdim x y sphere xp
              (curv_loop sq xg yg xdim ydim x y sphere fuel xi yi a b).yi ep).1 ∧
          (curv_loop sq xg yg xdim ydim x y sphere fuel xi yi a b).eta =
            (curv_body sq xg yg xdim x y sphere xp
              (curv_loop sq xg yg xdim ydim x y sphere fuel xi yi a b).yi ep).2 := by
  intro fuel
  induction fuel with
  | zero =>
    intro xi yi a b hy0 hy2 hcond hsucc
    rw [curv_loop_zero_eq sq xg yg xdim ydim x y sphere xi yi a b hcond] at hsucc
    exact absurd hsucc (by simp)
  | succ n ih =>
    intro xi yi a b hy0 hy2 hcond hsucc
    rw [curv_loop_succ_eq sq xg yg xdim ydim x y sphere n xi yi a b hcond] at hsucc ⊢
    split at hsucc
    · exact absurd hsucc (by simp)
    split at hsucc
    · exact absurd hsucc (by simp)
    next hcn1 hcn2 =>
      rw [if_neg hcn1, if_neg hcn2]
      set q := curv_body sq xg yg xdim x y sphere xi yi b with hq
      set xi1 := (if q.1 < 0 then xi - 1 else if q.1 > 1 then xi + 1 else xi) with hxi1
      set yi1 := (if q.2 < 0 then yi - 1 else if q.2 > 1 then yi + 1 else yi) with hyi1
      by_cases hc2 : (q.1 < 0 ∨ q.1 > 1 ∨ q.2 < 0 ∨ q.2 > 1)
      · have hyr := fix_2d_indices_yi_range xi1 yi1 xdim ydim sphere hy
        exact ih (fix_2d_indices xi1 yi1 xdim ydim sphere).1
          (fix_2d_indices xi1 yi1 xdim ydim sphere).2 q.1 q.2 hyr.1 hyr.2 hc2 hsucc
      · push_neg at hc2
        obtain ⟨hq1a, hq1b, hq2a, hq2b⟩ := hc2
        have hxi1e : xi1 = xi := by
          rw [hxi1, if_neg (not_lt.mpr hq1a), if_neg (not_lt.mpr hq1b)]
        have hyi1e : yi1 = yi := by
          rw [hyi1, if_neg (not_lt.mpr hq2a), if_neg (not_lt.mpr hq2b)]
        have hnm := fix_2d_indices_no_mirror xi1 yi1 xdim ydim sphere hx
          (by rw [hyi1e]; exact hy0) (by rw [hyi1e]; exact hy2)
        have hstop : curv_loop sq xg yg xdim ydim x y sphere n
            (fix_2d_indices xi1 yi1 xdim ydim sphere).1
            (fix_2d_indices xi1 yi1 xdim ydim sphere).2 q.1 q.2 =
            ⟨SUCCESS, (fix_2d_indices xi1 yi1 xdim ydim sphere).1,
              (fix_2d_indices xi1 yi1 xdim ydim sphere).2, q.1, q.2⟩ :=
          curv_loop_stop_eq sq xg yg xdim ydim x y sphere n _ _ q.1 q.2
            (by push_neg; exact ⟨hq1a, hq1b, hq2a, hq2b⟩)
        rw [hstop]
        refine ⟨hnm.1, hnm.2.1, ?_, ?_, hq1a, hq1b, hq2a, hq2b, xi, b, ?_, ?_, ?_⟩
        · rw [hnm.2.2.1, hyi1e]; exact hy0
        · rw [hnm.2.2.1, hyi1e]; exact hy2
        · rw [hnm.2.2.2, hxi1e]
        · rw [hnm.2.2.1, hyi1e, ← hq]
        · rw [hnm.2.2.1, hyi1e, ← hq]

theorem vertical_core_ne_TE (v : ℤ → ℚ) (n : ℕ) (z : ℚ) (zi0 : ℤ) :
    (vertical_core v n z zi0).err ≠ ERROR_TIME_EXTRAPOLATION := by
  rcases vertical_core_err_cases v n z zi0 with h | h <;> rw [h] <;> simp

theorem final_checks_ne_TE (xi yi zi : ℤ) (a b c : ℚ) :
    (final_checks xi yi zi a b c).err ≠ ERROR_TIME_EXTRAPOLATION := by
  rcases final_checks_err_cases xi yi zi a b c with h | h <;> rw [h] <;> simp

theorem rt_aux_ne_TE (vres : VRes) (hne : vres.err ≠ ERROR_TIME_EXTRAPOLATION)
    (xi yi : ℤ) (a b : ℚ) :
    (if vres.err ≠ SUCCESS then
        ({ err := vres.err, xi := xi, yi := yi, zi := vres.zi, xsi := a, eta := b,
           zeta := 0 } : SRes)
      else final_checks xi yi vres.zi a b vres.zeta).err ≠ ERROR_TIME_EXTRAPOLATION := by
  split
  · exact hne
  · exact final_checks_ne_TE _ _ _ _ _ _

theorem rect_vdisp_ne_TE (z : ℚ) (xdim ydim zdim : ℕ) (zvals : ℤ → ℚ) (gcode : ℤ)
    (xi1 yi1 : ℤ) (xsi1 eta1 : ℚ) (zi0 : ℤ) (z4d : Bool) (ti : ℤ) (tdim : ℕ)
    (time t0 t1 : ℚ) :
    (if gcode = RECTILINEAR_Z_GRID then search_indices_vertical_z z zdim zvals zi0
      else if gcode = RECTILINEAR_S_GRID then
        search_indices_vertical_s z xdim ydim zdim zvals xi1 yi1 zi0 xsi1 eta1 z4d ti tdim
          time t0 t1
      else ⟨ERROR, zi0, 0⟩).err ≠ ERROR_TIME_EXTRAPOLATION := by
  split
  · exact vertical_core_ne_TE _ _ _ _
  · split
    · exact vertical_core_ne_TE _ _ _ _
    · simp

theorem rect_tail_ne_TE (y z : ℚ) (xdim ydim zdim : ℕ) (yvals zvals : ℤ → ℚ)
    (gcode : ℤ) (xi1 : ℤ) (xsi1 : ℚ) (yi0 zi0 : ℤ) (z4d : Bool) (ti : ℤ) (tdim : ℕ)
    (time t0 t1 : ℚ) :
    (rect_tail y z xdim ydim zdim yvals zvals gcode xi1 xsi1 yi0 zi0 z4d ti tdim
      time t0 t1).err ≠ ERROR_TIME_EXTRAPOLATION := by
  unfold rect_tail
  split
  · simp
  · split
    · exact rt_aux_ne_TE _ (rect_vdisp_ne_TE z xdim ydim zdim zvals gcode xi1 _ xsi1 _ zi0
        z4d ti tdim time t0 t1) xi1 _ xsi1 _
    · exact final_checks_ne_TE _ _ _ _ _ _

theorem curv_vdisp_ne_TE (z : ℚ) (xdim ydim zdim : ℕ) (zvals : ℤ → ℚ) (gcode : ℤ)
    (xi1 yi1 : ℤ) (xsi1 eta1 : ℚ) (zi0 : ℤ) (z4d : Bool) (ti : ℤ) (tdim : ℕ)
    (time t0 t1 : ℚ) :
    (if gcode = CURVILINEAR_Z_GRID then search_indices_vertical_z z zdim zvals zi0
      else if gcode = CURVILINEAR_S_GRID then
        search_indices_vertical_s z xdim ydim zdim zvals xi1 yi1 zi0 xsi1 eta1 z4d ti tdim
          time t0 t1
      else ⟨ERROR, zi0, 0⟩).err ≠ ERROR_TIME_EXTRAPOLATION := by
  split
  · exact vertical_core_ne_TE _ _ _ _
  · split
    · exact vertical_core_ne_TE _ _ _ _
    · simp

theorem search_indices_rectilinear_ne_TE (x y z : ℚ) (xdim ydim zdim : ℕ)
    (xvals yvals zvals : ℤ → ℚ) (sphere_mesh zonal_periodic : Bool) (gcode : ℤ)
    (xi0 yi0 zi0 : ℤ) (z4d : Bool) (ti : ℤ) (tdim : ℕ) (time t0 t1 : ℚ) :
    (search_indices_rectilinear x y z xdim ydim zdim xvals yvals zvals sphere_mesh
      zonal_periodic gcode xi0 yi0 zi0 z4d ti tdim time t0 t1).err ≠
      ERROR_TIME_EXTRAPOLATION := by
  unfold search_indices_rectilinear
  split
  · split
    · simp
    · dsimp only
      exact rect_tail_ne_TE _ _ _ _ _ _ _ _ _ _ _ _ _ _ _ _ _ _
  · split
    · simp
    split
    · simp
    · dsimp only
      split
      · next h =>
        rcases sphere_x_loop_errs xvals xdim x 10001 xi0 with hs | hs
        · exact absurd hs h
        · rw [hs]; simp
      · exact rect_tail_ne_TE _ _ _ _ _ _ _ _ _ _ _ _ _ _ _ _ _ _

theorem search_indices_curvilinear_ne_TE (sq : ℚ → Option ℚ) (x y z : ℚ)
    (xdim ydim zdim : ℕ) (xvals yvals zvals : ℤ → ℚ) (sphere_mesh zonal_periodic : Bool)
    (gcode : ℤ) (xi0 yi0 zi0 : ℤ) (z4d : Bool) (ti : ℤ) (tdim : ℕ) (time t0 t1 : ℚ) :
    (search_indices_curvilinear sq x y z xdim ydim zdim xvals yvals zvals sphere_mesh
      zonal_periodic gcode xi0 yi0 zi0 z4d ti tdim time t0 t1).err ≠
      ERROR_TIME_EXTRAPOLATION := by
  unfold search_indices_curvilinear
  split
  · simp
  split
  · simp
  · dsimp only
    split
    · next h =>
      rcases curv_loop_errs sq xvals yvals xdim ydim x y sphere_mesh 1000001 xi0 yi0
        (-1) (-1) with hs | hs
      · exact absurd hs h
      · rw [hs]; simp
    · split
      · simp
      · split
        · apply rt_aux_ne_TE
          apply curv_vdisp_ne_TE
        · apply final_checks_ne_TE

theorem search_indices_ne_TE (sq : ℚ → Option ℚ) (x y z : ℚ) (xdim ydim zdim : ℕ)
    (xvals yvals zvals : ℤ → ℚ) (xi0 yi0 zi0 : ℤ) (sphere_mesh zonal_periodic : Bool)
    (gcode : ℤ) (z4d : Bool) (ti : ℤ) (tdim : ℕ) (time t0 t1 : ℚ) :
    (search_indices sq x y z xdim ydim zdim xvals yvals zvals xi0 yi0 zi0 sphere_mesh
      zonal_periodic gcode z4d ti tdim time t0 t1).err ≠ ERROR_TIME_EXTRAPOLATION := by
  unfold search_indices
  split
  · apply search_indices_rectilinear_ne_TE
  split
  · apply search_indices_curvilinear_ne_TE
  · simp

theorem vertical_core_success_of_err (v : ℤ → ℚ) (zdim : ℕ) (z : ℚ) (zi0 : ℤ)
    (hZ : 2 ≤ zdim) (h0 : 0 ≤ zi0) (h2 : zi0 ≤ (zdim : ℤ) - 2)
    (herr : (vertical_core v zdim z zi0).err = SUCCESS) :
    (vertical_core v zdim z zi0).err = SUCCESS ∧
      0 ≤ (vertical_core v zdim z zi0).zi ∧
      (vertical_core v zdim z zi0).zi ≤ (zdim : ℤ) - 2 ∧
      v (vertical_core v zdim z zi0).zi ≤ z ∧
      z ≤ v ((vertical_core v zdim z zi0).zi + 1) ∧
      (vertical_core v zdim z zi0).zeta =
        (z - v (vertical_core v zdim z zi0).zi) /
          (v ((vertical_core v zdim z zi0).zi + 1) - v (vertical_core v zdim z zi0).zi) := by
  have hin : ¬(z < v 0 ∨ z > v ((zdim : ℤ) - 1)) := by
    intro hout
    have hoob := (vertical_core_oob_iff v zdim z zi0).mpr hout
    rw [herr] at hoob
    exact absurd hoob (by simp)
  exact vertical_core_success v zdim z zi0 hZ h0 h2 hin

/-- On a successful return of rect_tail: the x data is passed through, the
y walk brackets y with yi in range, the normalized coordinates lie in the
unit cube, and for a 3D query the vertical index is in range (with the z
bracketing on a Z grid); a 2D query leaves zi untouched. -/
theorem rect_tail_success (y z : ℚ) (xdim ydim zdim : ℕ) (yvals zvals : ℤ → ℚ)
    (gcode : ℤ) (xi1 : ℤ) (xsi1 : ℚ) (yi0 zi0 : ℤ) (z4d : Bool) (ti : ℤ) (tdim : ℕ)
    (time t0 t1 : ℚ)
    (_hY : 2 ≤ ydim) (hy0 : 0 ≤ yi0) (hy2 : yi0 ≤ (ydim : ℤ) - 2)
    (hz : 2 ≤ zdim → 0 ≤ zi0 ∧ zi0 ≤ (zdim : ℤ) - 2)
    (hsucc : (rect_tail y z xdim ydim zdim yvals zvals gcode xi1 xsi1 yi0 zi0 z4d ti tdim
      time t0 t1).err = SUCCESS) :
    ∃ yiv ziv etav zetav,
      rect_tail y z xdim ydim zdim yvals zvals gcode xi1 xsi1 yi0 zi0 z4d ti tdim time t0 t1 =
        ⟨SUCCESS, xi1, yiv, ziv, xsi1, etav, zetav⟩ ∧
      0 ≤ yiv ∧ yiv ≤ (ydim : ℤ) - 2 ∧ yvals yiv ≤ y ∧ y ≤ yvals (yiv + 1) ∧
      0 ≤ xsi1 ∧ xsi1 ≤ 1 ∧ 0 ≤ etav ∧ etav ≤ 1 ∧ 0 ≤ zetav ∧ zetav ≤ 1 ∧
      (1 < zdim → 0 ≤ ziv ∧ ziv ≤ (zdim : ℤ) - 2 ∧
        (gcode = RECTILINEAR_Z_GRID → zvals ziv ≤ z ∧ z ≤ zvals (ziv + 1)) ∧
        (gcode = RECTILINEAR_S_GRID →
          zcol_at zvals xdim ydim zdim xi1 yiv xsi1 etav z4d ti tdim time t0 t1 ziv ≤ z ∧
          z ≤ zcol_at zvals xdim ydim zdim xi1 yiv xsi1 etav z4d ti tdim time t0 t1
            (ziv + 1))) ∧
      (¬1 < zdim → ziv = zi0) := by
  unfold rect_tail at hsucc ⊢
  split at hsucc
  · exact absurd hsucc (by simp)
  next hyb =>
    rw [if_neg hyb]
    push_neg at hyb
    dsimp only at hsucc ⊢
    set yiv := walkDownC (fun j => decide (y < yvals j))
      (walkUpC (fun j => decide (y > yvals (j + 1))) ((ydim : ℤ) - 1) yi0) with hyiv
    set etav := (y - yvals yiv) / (yvals (yiv + 1) - yvals yiv) with hetav
    have hyw := axis_walk_props yvals ydim y yi0 hy0 hy2 hyb.1 hyb.2
    rw [← hyiv] at hyw
    split at hsucc
    · next hzd =>
      rw [if_pos hzd]
      have hzv := hz (by omega)
      by_cases hg0 : gcode = RECTILINEAR_Z_GRID
      · rw [if_pos hg0] at hsucc ⊢
        by_cases hverr : (search_indices_vertical_z z zdim zvals zi0).err ≠ SUCCESS
        · rw [if_pos hverr] at hsucc
          exact absurd hsucc hverr
        · rw [if_neg hverr] at hsucc ⊢
          push_neg at hverr
          have hfc := final_checks_success _ _ _ _ _ _ hsucc
          have hv := vertical_core_success_of_err zvals zdim z zi0 (by omega) hzv.1 hzv.2 hverr
          refine ⟨yiv, _, etav, _, hfc.1, hyw.1, hyw.2.1, hyw.2.2.1, hyw.2.2.2,
            hfc.2.1, hfc.2.2.1, hfc.2.2.2.1, hfc.2.2.2.2.1, hfc.2.2.2.2.2.1,
            hfc.2.2.2.2.2.2, ?_, fun hc => absurd hzd hc⟩
          intro _
          exact ⟨hv.2.1, hv.2.2.1, fun _ => ⟨hv.2.2.2.1, hv.2.2.2.2.1⟩,
            fun hg => absurd (hg0.symm.trans hg) (by decide)⟩
      · rw [if_neg hg0] at hsucc ⊢
        by_cases hg1 : gcode = RECTILINEAR_S_GRID
        · rw [if_pos hg1] at hsucc ⊢
          by_cases hverr : (search_indices_vertical_s z xdim ydim zdim zvals xi1 yiv zi0
              xsi1 etav z4d ti tdim time t0 t1).err ≠ SUCCESS
          · rw [if_pos hverr] at hsucc
            exact absurd hsucc hverr
          · rw [if_neg hverr] at hsucc ⊢
            push_neg at hverr
            have hfc := final_checks_success _ _ _ _ _ _ hsucc
            have hv := vertical_core_success_of_err
              (zcol_at zvals xdim ydim zdim xi1 yiv xsi1 etav z4d ti tdim time t0 t1)
              zdim z zi0 (by omega) hzv.1 hzv.2 hverr
            refine ⟨yiv, _, etav, _, hfc.1, hyw.1, hyw.2.1, hyw.2.2.1, hyw.2.2.2,
              hfc.2.1, hfc.2.2.1, hfc.2.2.2.1, hfc.2.2.2.2.1, hfc.2.2.2.2.2.1,
              hfc.2.2.2.2.2.2, ?_, fun hc => absurd hzd hc⟩
            intro _
            exact ⟨hv.2.1, hv.2.2.1, fun hg => absurd hg hg0,
              fun _ => ⟨hv.2.2.2.1, hv.2.2.2.2.1⟩⟩
        · rw [if_neg hg1] at hsucc
          simp at hsucc
    · next hzd =>
      rw [if_neg hzd]
      have hfc := final_checks_success _ _ _ _ _ _ hsucc
      exact ⟨yiv, zi0, etav, 0, hfc.1, hyw.1, hyw.2.1, hyw.2.2.1, hyw.2.2.2,
        hfc.2.1, hfc.2.2.1, hfc.2.2.2.1, hfc.2.2.2.2.1, hfc.2.2.2.2.2.1,
        hfc.2.2.2.2.2.2, fun hc => absurd hc hzd, fun _ => rfl⟩

/-- On a successful return of search_indices_rectilinear: xi is in range
(bracketing x on a flat mesh), yi is in range and brackets y, the
normalized coordinates lie in the unit cube, and the vertical index is in
range for a 3D query (bracketing z on a Z grid). -/
theorem search_indices_rectilinear_success (x y z : ℚ) (xdim ydim zdim : ℕ)
    (xvals yvals zvals : ℤ → ℚ) (sphere_mesh zonal_periodic : Bool) (gcode : ℤ)
    (xi0 yi0 zi0 : ℤ) (z4d : Bool) (ti : ℤ) (tdim : ℕ) (time t0 t1 : ℚ)
    (hX : 2 ≤ xdim) (hY : 2 ≤ ydim)
    (hx0 : 0 ≤ xi0) (hx2 : xi0 ≤ (xdim : ℤ) - 2)
    (hy0 : 0 ≤ yi0) (hy2 : yi0 ≤ (ydim : ℤ) - 2)
    (hz : 2 ≤ zdim → 0 ≤ zi0 ∧ zi0 ≤ (zdim : ℤ) - 2)
    (hsucc : (search_indices_rectilinear x y z xdim ydim zdim xvals yvals zvals sphere_mesh
      zonal_periodic gcode xi0 yi0 zi0 z4d ti tdim time t0 t1).err = SUCCESS) :
    ∃ xiv yiv ziv av bv cv,
      search_indices_rectilinear x y z xdim ydim zdim xvals yvals zvals sphere_mesh
        zonal_periodic gcode xi0 yi0 zi0 z4d ti tdim time t0 t1 =
        ⟨SUCCESS, xiv, yiv, ziv, av, bv, cv⟩ ∧
      0 ≤ xiv ∧ xiv ≤ (xdim : ℤ) - 2 ∧
      (sphere_mesh = false → xvals xiv ≤ x ∧ x ≤ xvals (xiv + 1)) ∧
      (sphere_mesh = true →
        (norm_lon_pair xvals x xiv).1 ≤ x ∧ x ≤ (norm_lon_pair xvals x xiv).2) ∧
      0 ≤ yiv ∧ yiv ≤ (ydim : ℤ) - 2 ∧ yvals yiv ≤ y ∧ y ≤ yvals (yiv + 1) ∧
      0 ≤ av ∧ av ≤ 1 ∧ 0 ≤ bv ∧ bv ≤ 1 ∧ 0 ≤ cv ∧ cv ≤ 1 ∧
      (1 < zdim → 0 ≤ ziv ∧ ziv ≤ (zdim : ℤ) - 2 ∧
        (gcode = RECTILINEAR_Z_GRID → zvals ziv ≤ z ∧ z ≤ zvals (ziv + 1)) ∧
        (gcode = RECTILINEAR_S_GRID →
          zcol_at zvals xdim ydim zdim xiv yiv av bv z4d ti tdim time t0 t1 ziv ≤ z ∧
          z ≤ zcol_at zvals xdim ydim zdim xiv yiv av bv z4d ti tdim time t0 t1
            (ziv + 1))) ∧
      (¬1 < zdim → ziv = zi0) := by
  unfold search_indices_rectilinear at hsucc ⊢
  split at hsucc
  · next hsp =>
    rw [if_pos hsp]
    split at hsucc
    · exact absurd hsucc (by simp)
    next hxb =>
      rw [if_neg hxb]
      push_neg at hxb
      dsimp only at hsucc ⊢
      have hxw := axis_walk_props xvals xdim x xi0 hx0 hx2 hxb.1 hxb.2
      obtain ⟨yiv, ziv, etav, zetav, heq, hprops⟩ := rect_tail_success y z xdim ydim zdim
        yvals zvals gcode _ _ yi0 zi0 z4d ti tdim time t0 t1 hY hy0 hy2 hz hsucc
      exact ⟨_, yiv, ziv, _, etav, zetav, heq, hxw.1, hxw.2.1,
        fun _ => ⟨hxw.2.2.1, hxw.2.2.2⟩,
        fun ht => absurd (hsp.symm.trans ht) (by decide), hprops⟩
  · next hsp =>
    rw [if_neg hsp]
    have hsp' : sphere_mesh = true := by
      cases sphere_mesh
      · exact absurd rfl hsp
      · rfl
    split at hsucc
    · exact absurd hsucc (by simp)
    next hc1 =>
      rw [if_neg hc1]
      split at hsucc
      · exact absurd hsucc (by simp)
      next hc2 =>
        rw [if_neg hc2]
        dsimp only at hsucc ⊢
        split at hsucc
        · next hlerr => exact absurd hsucc hlerr
        next hlerr =>
          push_neg at hlerr
          rw [if_neg (by rw [hlerr]; simp :
            ¬(sphere_x_loop xvals xdim x 10001 xi0).1 ≠ SUCCESS)]
          have hxr := sphere_x_loop_range xvals xdim x hX 10001 xi0 hx0 hx2
          obtain ⟨yiv, ziv, etav, zetav, heq, hprops⟩ := rect_tail_success y z xdim ydim zdim
            yvals zvals gcode _ _ yi0 zi0 z4d ti tdim time t0 t1 hY hy0 hy2 hz hsucc
          exact ⟨_, yiv, ziv, _, etav, zetav, heq, hxr.1, hxr.2,
            fun hcf => absurd hcf (by rw [hsp']; simp),
            fun _ => sphere_x_loop_success_brackets xvals xdim x 10001 xi0 hlerr, hprops⟩

/-- On a successful return of search_indices_curvilinear: xi and yi are in
range, the normalized coordinates lie in the unit cube, and the vertical
index is in range for a 3D query (bracketing z on a Z grid). -/
theorem search_indices_curvilinear_success (sq : ℚ → Option ℚ) (x y z : ℚ)
    (xdim ydim zdim : ℕ) (xvals yvals zvals : ℤ → ℚ) (sphere_mesh zonal_periodic : Bool)
    (gcode : ℤ) (xi0 yi0 zi0 : ℤ) (z4d : Bool) (ti : ℤ) (tdim : ℕ) (time t0 t1 : ℚ)
    (hX : 2 ≤ xdim) (hY : 2 ≤ ydim)
    (hy0 : 0 ≤ yi0) (hy2 : yi0 ≤ (ydim : ℤ) - 2)
    (hz : 2 ≤ zdim → 0 ≤ zi0 ∧ zi0 ≤ (zdim : ℤ) - 2)
    (hsucc : (search_indices_curvilinear sq x y z xdim ydim zdim xvals yvals zvals
      sphere_mesh zonal_periodic gcode xi0 yi0 zi0 z4d ti tdim time t0 t1).err = SUCCESS) :
    ∃ xiv yiv ziv av bv cv,
      search_indices_curvilinear sq x y z xdim ydim zdim xvals yvals zvals sphere_mesh
        zonal_periodic gcode xi0 yi0 zi0 z4d ti tdim time t0 t1 =
        ⟨SUCCESS, xiv, yiv, ziv, av, bv, cv⟩ ∧
      0 ≤ xiv ∧ xiv ≤ (xdim : ℤ) - 2 ∧ 0 ≤ yiv ∧ yiv ≤ (ydim : ℤ) - 2 ∧
      0 ≤ av ∧ av ≤ 1 ∧ 0 ≤ bv ∧ bv ≤ 1 ∧ 0 ≤ cv ∧ cv ≤ 1 ∧
      (∃ xp ep, fix_1d_index xp xdim sphere_mesh = xiv ∧
        av = (curv_body sq xvals yvals xdim x y sphere_mesh xp yiv ep).1 ∧
        bv = (curv_body sq xvals yvals xdim x y sphere_mesh xp yiv ep).2) ∧
      (1 < zdim → 0 ≤ ziv ∧ ziv ≤ (zdim : ℤ) - 2 ∧
        (gcode = CURVILINEAR_Z_GRID → zvals ziv ≤ z ∧ z ≤ zvals (ziv + 1)) ∧
        (gcode = CURVILINEAR_S_GRID →
          zcol_at zvals xdim ydim zdim xiv yiv av bv z4d ti tdim time t0 t1 ziv ≤ z ∧
          z ≤ zcol_at zvals xdim ydim zdim xiv yiv av bv z4d ti tdim time t0 t1
            (ziv + 1))) ∧
      (¬1 < zdim → ziv = zi0) := by
  unfold search_indices_curvilinear at hsucc ⊢
  split at hsucc
  · exact absurd hsucc (by simp)
  next hc1 =>
    rw [if_neg hc1]
    split at hsucc
    · exact absurd hsucc (by simp)
    next hc2 =>
      rw [if_neg hc2]
      dsimp only at hsucc ⊢
      split at hsucc
      · next hlerr => exact absurd hsucc hlerr
      next hlerr =>
        push_neg at hlerr
        rw [if_neg (by rw [hlerr]; simp :
          ¬(curv_loop sq xvals yvals xdim ydim x y sphere_mesh 1000001 xi0 yi0 (-1)
            (-1)).err ≠ SUCCESS)]
        have hlp := curv_loop_success sq xvals yvals xdim ydim x y sphere_mesh hX hY
          1000001 xi0 yi0 (-1) (-1) hy0 hy2 (by left; norm_num) hlerr
        split at hsucc
        · exact absurd hsucc (by simp)
        next hnan =>
          rw [if_neg hnan]
          split at hsucc
          · next hzd =>
            rw [if_pos hzd]
            have hzv := hz (by omega)
            by_cases hg0 : gcode = CURVILINEAR_Z_GRID
            · rw [if_pos hg0] at hsucc ⊢
              by_cases hverr : (search_indices_vertical_z z zdim zvals zi0).err ≠ SUCCESS
              · rw [if_pos hverr] at hsucc
                exact absurd hsucc hverr
              · rw [if_neg hverr] at hsucc ⊢
                push_neg at hverr
                have hfc := final_checks_success _ _ _ _ _ _ hsucc
                have hv := vertical_core_success_of_err zvals zdim z zi0 (by omega)
                  hzv.1 hzv.2 hverr
                refine ⟨_, _, _, _, _, _, hfc.1, hlp.1, hlp.2.1, hlp.2.2.1, hlp.2.2.2.1,
                  hfc.2.1, hfc.2.2.1, hfc.2.2.2.1, hfc.2.2.2.2.1, hfc.2.2.2.2.2.1,
                  hfc.2.2.2.2.2.2, hlp.2.2.2.2.2.2.2.2, ?_, fun hc => absurd hzd hc⟩
                intro _
                exact ⟨hv.2.1, hv.2.2.1, fun _ => ⟨hv.2.2.2.1, hv.2.2.2.2.1⟩,
                  fun hg => absurd (hg0.symm.trans hg) (by decide)⟩
            · rw [if_neg hg0] at hsucc ⊢
              by_cases hg1 : gcode = CURVILINEAR_S_GRID
              · rw [if_pos hg1] at hsucc ⊢
                by_cases hverr : (search_indices_vertical_s z xdim ydim zdim zvals
                    (curv_loop sq xvals yvals xdim ydim x y sphere_mesh 1000001 xi0 yi0
                      (-1) (-1)).xi
                    (curv_loop sq xvals yvals xdim ydim x y sphere_mesh 1000001 xi0 yi0
                      (-1) (-1)).yi zi0
                    (curv_loop sq xvals yvals xdim ydim x y sphere_mesh 1000001 xi0 yi0
                      (-1) (-1)).xsi
                    (curv_loop sq xvals yvals xdim ydim x y sphere_mesh 1000001 xi0 yi0
                      (-1) (-1)).eta z4d ti tdim time t0 t1).err ≠ SUCCESS
                · rw [if_pos hverr] at hsucc
                  exact absurd hsucc hverr
                · rw [if_neg hverr] at hsucc ⊢
                  push_neg at hverr
                  have hfc := final_checks_success _ _ _ _ _ _ hsucc
                  have hv := vertical_core_success_of_err _ zdim z zi0 (by omega)
                    hzv.1 hzv.2 hverr
                  refine ⟨_, _, _, _, _, _, hfc.1, hlp.1, hlp.2.1, hlp.2.2.1, hlp.2.2.2.1,
                    hfc.2.1, hfc.2.2.1, hfc.2.2.2.1, hfc.2.2.2.2.1, hfc.2.2.2.2.2.1,
                    hfc.2.2.2.2.2.2, hlp.2.2.2.2.2.2.2.2, ?_, fun hc => absurd hzd hc⟩
                  intro _
                  exact ⟨hv.2.1, hv.2.2.1, fun hg => absurd hg hg0,
                    fun _ => ⟨hv.2.2.2.1, hv.2.2.2.2.1⟩⟩
              · rw [if_neg hg1] at hsucc
                simp at hsucc
          · next hzd =>
            rw [if_neg hzd]
            have hfc := final_checks_success _ _ _ _ _ _ hsucc
            exact ⟨_, _, zi0, _, _, 0, hfc.1, hlp.1, hlp.2.1, hlp.2.2.1, hlp.2.2.2.1,
              hfc.2.1, hfc.2.2.1, hfc.2.2.2.1, hfc.2.2.2.2.1, hfc.2.2.2.2.2.1,
              hfc.2.2.2.2.2.2, hlp.2.2.2.2.2.2.2.2, fun hc => absurd hc hzd,
              fun _ => rfl⟩

theorem walkDownC_eq_self_of (c : ℤ → Bool) (i : ℤ) (h : c i = false) :
    walkDownC c i = i := by
  rw [walkDownC]
  rw [dif_neg (by rw [h]; simp)]

theorem walkUpC_eq_self_of (c : ℤ → Bool) (nmax i : ℤ) (h : c i = false) :
    walkUpC c nmax i = i := by
  rw [walkUpC]
  rw [dif_neg (by rw [h]; simp)]

theorem specGreatestTimeIdx_spec (tv : ℤ → ℚ) (t : ℚ) :
    ∀ size : ℕ, 1 ≤ size → tv 0 ≤ t →
      0 ≤ specGreatestTimeIdx tv t size ∧
      specGreatestTimeIdx tv t size ≤ (size : ℤ) - 1 ∧
      tv (specGreatestTimeIdx tv t size) ≤ t ∧
      ∀ i : ℤ, 0 ≤ i → i ≤ (size : ℤ) - 1 → tv i ≤ t → i ≤ specGreatestTimeIdx tv t size := by
  intro size
  induction size with
  | zero => intro h; omega
  | succ n ih =>
    intro _ hge
    rw [specGreatestTimeIdx]
    split
    · next hn =>
      refine ⟨by omega, by push_cast; omega, hn, ?_⟩
      intro i _ hi _
      push_cast at hi ⊢
      omega
    · next hn =>
      rcases Nat.eq_zero_or_pos n with h0 | hpos
      · subst h0
        simp only [Nat.cast_zero] at hn
        exact absurd hge hn
      · have hih := ih (by omega) hge
        refine ⟨hih.1, by push_cast; omega, hih.2.2.1, ?_⟩
        intro i hi0 hi1 hit
        rcases eq_or_lt_of_le hi1 with heq | hlt
        · exfalso
          apply hn
          rw [show ((n : ℤ)) = i by push_cast at heq ⊢; omega]
          exact hit
        · exact hih.2.2.2 i hi0 (by push_cast at hlt ⊢; omega) hit

/-- The up-then-down walk of search_time_index lands on the greatest index
with tvals at or below t, from any hint at most size-1 (negative hints
work too: they are below the result). -/
theorem time_walk_greatest (tv : ℤ → ℚ) (size : ℕ) (t : ℚ) (h : ℤ)
    (hmono : ∀ i j : ℤ, 0 ≤ i → i < j → j ≤ (size : ℤ) - 1 → tv i < tv j)
    (hS : 1 ≤ size) (h0 : 0 ≤ h) (h1 : h ≤ (size : ℤ) - 1) (hge : tv 0 ≤ t) :
    walkDownC (fun i => decide (t < tv i))
        (walkUpC (fun i => decide (tv (i + 1) ≤ t)) ((size : ℤ) - 1) h) =
      specGreatestTimeIdx tv t size := by
  set cup := fun i : ℤ => decide (tv (i + 1) ≤ t) with hcup
  set cdn := fun i : ℤ => decide (t < tv i) with hcdn
  set up := walkUpC cup ((size : ℤ) - 1) h with hup
  set dn := walkDownC cdn up with hdn
  have hup_ge : h ≤ up := walkUpC_ge cup ((size : ℤ) - 1) h
  have hup_le : up ≤ (size : ℤ) - 1 := walkUpC_le_nmax cup ((size : ℤ) - 1) h h1
  have hdn_le : dn ≤ up := walkDownC_le cdn up
  have hdn_ge : 0 ≤ dn := walkDownC_nonneg cdn up (by omega)
  have hdnt : tv dn ≤ t := by
    by_cases hd0 : 0 < dn
    · have hnc : ¬(cdn dn = true) := fun hc => walkDownC_stop cdn up ⟨hd0, hc⟩
      simp only [hcdn, decide_eq_true_eq] at hnc
      exact le_of_not_lt hnc
    · have hdeq : dn = 0 := by omega
      rw [hdeq]
      exact hge
  have hmax : ∀ i : ℤ, 0 ≤ i → i ≤ (size : ℤ) - 1 → tv i ≤ t → i ≤ dn := by
    intro i hi0 hi1 hit
    by_contra hcon
    push_neg at hcon
    have hnext : t < tv (dn + 1) := by
      rcases walkDownC_last cdn up with heq | hc
      · have hupn : up < (size : ℤ) - 1 := by omega
        have hnc : ¬(cup up = true) := fun hc => walkUpC_stop cup ((size : ℤ) - 1) h ⟨hupn, hc⟩
        simp only [hcup, decide_eq_true_eq] at hnc
        rw [hdn, heq]
        exact lt_of_not_le hnc
      · simp only [hcdn, decide_eq_true_eq] at hc
        exact hc
    have hle : tv (dn + 1) ≤ tv i := by
      rcases eq_or_lt_of_le (by omega : dn + 1 ≤ i) with heq | hlt
      · rw [heq]
      · exact le_of_lt (hmono (dn + 1) i (by omega) hlt hi1)
    linarith
  have hspec := specGreatestTimeIdx_spec tv t size hS hge
  have h1' : dn ≤ specGreatestTimeIdx tv t size := hspec.2.2.2 dn hdn_ge (by omega) hdnt
  have h2' : specGreatestTimeIdx tv t size ≤ dn := hmax _ hspec.1 hspec.2.1 hspec.2.2.1
  omega

theorem search_time_index_aux_success :
    ∀ (fuel : ℕ) (t : ℚ) (size : ℕ) (tv : ℤ → ℚ) (ti0 : ℤ) (per : Bool),
      (search_time_index_aux fuel t size tv ti0 per).1 = SUCCESS := by
  intro fuel
  induction fuel with
  | zero =>
    intro t size tv ti0 per
    rw [search_time_index_aux]
    rw [if_neg (by simp), if_neg (by simp)]
  | succ n ih =>
    intro t size tv ti0 per
    rw [search_time_index_aux]
    split
    · exact ih _ _ _ _ _
    split
    · exact ih _ _ _ _ _
    · rfl

theorem reduce_in_range (a T t : ℚ) (hT : 0 < T) :
    a ≤ t - (⌊(t - a) / T⌋ : ℚ) * T ∧ t - (⌊(t - a) / T⌋ : ℚ) * T < a + T := by
  have hTne : T ≠ 0 := ne_of_gt hT
  have key : t - (⌊(t - a) / T⌋ : ℚ) * T = a + T * Int.fract ((t - a) / T) := by
    rw [Int.fract]
    rw [mul_sub]
    rw [mul_div_cancel₀ _ hTne]
    ring
  constructor
  · rw [key]
    have h1 := Int.fract_nonneg ((t - a) / T)
    nlinarith
  · rw [key]
    have h2 := Int.fract_lt_one ((t - a) / T)
    nlinarith

theorem sti_no_reduce (t : ℚ) (size : ℕ) (tv : ℤ → ℚ) (ti0 : ℤ) (per : Bool)
    (hnlo : ¬(per = true ∧ t < tv 0)) (hnhi : ¬(per = true ∧ t > tv ((size : ℤ) - 1))) :
    search_time_index t size tv ti0 per =
      (SUCCESS, t, walkDownC (fun i => decide (t < tv i))
        (walkUpC (fun i => decide (tv (i + 1) ≤ t)) ((size : ℤ) - 1)
          (if ti0 < 0 then 0 else ti0))) := by
  unfold search_time_index
  rw [search_time_index_aux]
  rw [if_neg (by intro hc; exact hnlo ⟨hc.1, hc.2.1⟩)]
  rw [if_neg (by intro hc; exact hnhi ⟨hc.1, hc.2.1⟩)]

theorem sti_reduce_hi (t : ℚ) (size : ℕ) (tv : ℤ → ℚ) (ti0 : ℤ)
    (hhi : t > tv ((size : ℤ) - 1)) (hT : tv 0 < tv ((size : ℤ) - 1)) :
    search_time_index t size tv ti0 true =
      (SUCCESS,
        t - (⌊(t - tv 0) / (tv ((size : ℤ) - 1) - tv 0)⌋ : ℚ) * (tv ((size : ℤ) - 1) - tv 0),
        walkDownC (fun i => decide ((t - (⌊(t - tv 0) / (tv ((size : ℤ) - 1) - tv 0)⌋ : ℚ) *
            (tv ((size : ℤ) - 1) - tv 0)) < tv i))
          (walkUpC (fun i => decide (tv (i + 1) ≤ t - (⌊(t - tv 0) / (tv ((size : ℤ) - 1) -
            tv 0)⌋ : ℚ) * (tv ((size : ℤ) - 1) - tv 0))) ((size : ℤ) - 1) 0)) := by
  have hrng := reduce_in_range (tv 0) (tv ((size : ℤ) - 1) - tv 0) t (by linarith)
  unfold search_time_index
  rw [search_time_index_aux]
  rw [if_neg (by intro hc; linarith [hc.2.1])]
  rw [if_pos ⟨rfl, hhi, by norm_num⟩]
  have h21 : (2 : ℕ) - 1 = 1 := rfl
  rw [h21]
  rw [search_time_index_aux]
  rw [if_neg (by intro hc; linarith [hc.2.1, hrng.1])]
  rw [if_neg (by intro hc; have := hc.2.1; have := hrng.2; simp only [gt_iff_lt] at this ⊢; linarith)]
  rw [if_neg (by omega : ¬(0 : ℤ) < 0)]

theorem sti_reduce_lo (t : ℚ) (size : ℕ) (tv : ℤ → ℚ) (ti0 : ℤ)
    (hS : 1 ≤ size) (hlo : t < tv 0) (hT : tv 0 < tv ((size : ℤ) - 1)) :
    search_time_index t size tv ti0 true =
      (SUCCESS,
        t - (⌊(t - tv 0) / (tv ((size : ℤ) - 1) - tv 0)⌋ : ℚ) * (tv ((size : ℤ) - 1) - tv 0),
        walkDownC (fun i => decide ((t - (⌊(t - tv 0) / (tv ((size : ℤ) - 1) - tv 0)⌋ : ℚ) *
            (tv ((size : ℤ) - 1) - tv 0)) < tv i))
          (walkUpC (fun i => decide (tv (i + 1) ≤ t - (⌊(t - tv 0) / (tv ((size : ℤ) - 1) -
            tv 0)⌋ : ℚ) * (tv ((size : ℤ) - 1) - tv 0))) ((size : ℤ) - 1) ((size : ℤ) - 1))) := by
  have hrng := reduce_in_range (tv 0) (tv ((size : ℤ) - 1) - tv 0) t (by linarith)
  unfold search_time_index
  rw [search_time_index_aux]
  rw [if_pos ⟨rfl, hlo, by norm_num⟩]
  have h21 : (2 : ℕ) - 1 = 1 := rfl
  rw [h21]
  rw [search_time_index_aux]
  rw [if_neg (by intro hc; linarith [hc.2.1, hrng.1])]
  rw [if_neg (by intro hc; have := hc.2.1; have := hrng.2; simp only [gt_iff_lt] at this ⊢; linarith)]
  rw [if_neg (by omega : ¬(size : ℤ) - 1 < 0)]

/-- Full evaluation of search_time_index on a strictly increasing axis with
tvals 0 at or below t: it returns SUCCESS, a working time t' (t itself, or t
reduced by whole periods when periodic and above the last sample), and the
greatest index with tvals at or below t'. -/
theorem sti_eval (tv : ℤ → ℚ) (size : ℕ) (t : ℚ) (ti0 : ℤ) (per : Bool)
    (hmono : ∀ i j : ℤ, 0 ≤ i → i < j → j ≤ (size : ℤ) - 1 → tv i < tv j)
    (hS : 1 ≤ size) (hhint : ti0 ≤ (size : ℤ) - 1) (hge : tv 0 ≤ t)
    (hper2 : per = true → 2 ≤ size) :
    ∃ t', search_time_index t size tv ti0 per = (SUCCESS, t', specGreatestTimeIdx tv t' size) ∧
      tv 0 ≤ t' ∧
      (¬(per = true ∧ t > tv ((size : ℤ) - 1)) → t' = t) ∧
      (per = true ∧ t > tv ((size : ℤ) - 1) →
        t' = t - (⌊(t - tv 0) / (tv ((size : ℤ) - 1) - tv 0)⌋ : ℚ) *
          (tv ((size : ℤ) - 1) - tv 0) ∧ t' ≤ tv ((size : ℤ) - 1)) := by
  by_cases hcase : per = true ∧ t > tv ((size : ℤ) - 1)
  · obtain ⟨hp, hhi⟩ := hcase
    subst hp
    have hS2 := hper2 rfl
    have hT : tv 0 < tv ((size : ℤ) - 1) := hmono 0 ((size : ℤ) - 1) (le_refl 0) (by omega)
      (le_refl _)
    have heq := sti_reduce_hi t size tv ti0 hhi hT
    have hrng := reduce_in_range (tv 0) (tv ((size : ℤ) - 1) - tv 0) t (by linarith)
    have hwalk := time_walk_greatest tv size
      (t - (⌊(t - tv 0) / (tv ((size : ℤ) - 1) - tv 0)⌋ : ℚ) * (tv ((size : ℤ) - 1) - tv 0)) 0
      hmono hS (le_refl 0) (by omega) hrng.1
    refine ⟨_, ?_, hrng.1, fun hn => absurd ⟨rfl, hhi⟩ hn, fun _ => ⟨rfl, by linarith [hrng.2]⟩⟩
    rw [heq, hwalk]
  · have heq := sti_no_reduce t size tv ti0 per
      (by intro hc; linarith [hc.2]) hcase
    have hcl : 0 ≤ (if ti0 < 0 then 0 else ti0) ∧ (if ti0 < 0 then 0 else ti0) ≤ (size : ℤ) - 1 := by
      split <;> omega
    have hwalk := time_walk_greatest tv size t (if ti0 < 0 then 0 else ti0) hmono hS
      hcl.1 hcl.2 hge
    exact ⟨t, by rw [heq, hwalk], hge, fun _ => rfl, fun hc => absurd hc hcase⟩

/-- Shifting a query time by a whole number of periods: the locator reduces
t + k·T back to t, except at the boundary t + k·T = tvals (size-1), which
is excluded.  The result is hint-independent. -/
theorem sti_shift_eval (tv : ℤ → ℚ) (size : ℕ) (t : ℚ) (k : ℤ) (ti0 : ℤ)
    (hmono : ∀ i j : ℤ, 0 ≤ i → i < j → j ≤ (size : ℤ) - 1 → tv i < tv j)
    (hS2 : 2 ≤ size) (hhint : ti0 ≤ (size : ℤ) - 1)
    (hge : tv 0 ≤ t) (hlt : t < tv ((size : ℤ) - 1))
    (hne : t + (k : ℚ) * (tv ((size : ℤ) - 1) - tv 0) ≠ tv ((size : ℤ) - 1)) :
    search_time_index (t + (k : ℚ) * (tv ((size : ℤ) - 1) - tv 0)) size tv ti0 true =
      (SUCCESS, t, specGreatestTimeIdx tv t size) := by
  have hT0 : tv 0 < tv ((size : ℤ) - 1) :=
    hmono 0 ((size : ℤ) - 1) (le_refl 0) (by omega) (le_refl _)
  set T := tv ((size : ℤ) - 1) - tv 0 with hTdef
  have hT : (0 : ℚ) < T := by rw [hTdef]; linarith
  have hTne : T ≠ 0 := ne_of_gt hT
  have hdivshift : (t + (k : ℚ) * T - tv 0) / T = (t - tv 0) / T + (k : ℚ) := by
    rw [show t + (k : ℚ) * T - tv 0 = (t - tv 0) + (k : ℚ) * T by ring]
    rw [add_div, mul_div_assoc, div_self hTne, mul_one]
  have hfr : ⌊(t - tv 0) / T⌋ = 0 := by
    rw [Int.floor_eq_zero_iff]
    constructor
    · exact div_nonneg (by linarith) (le_of_lt hT)
    · rw [div_lt_one hT]
      rw [hTdef]
      linarith
  have hfloor : ⌊(t + (k : ℚ) * T - tv 0) / T⌋ = k := by
    rw [hdivshift, Int.floor_add_int, hfr, zero_add]
  have hred : t + (k : ℚ) * T - (⌊(t + (k : ℚ) * T - tv 0) / T⌋ : ℚ) * T = t := by
    rw [hfloor]
    ring
  rcases lt_trichotomy k 0 with hk | hk | hk
  · have hklt : (k : ℚ) ≤ -1 := by exact_mod_cast (by omega : k ≤ -1)
    have hlo : t + (k : ℚ) * T < tv 0 := by
      have h1 : t + (k : ℚ) * T ≤ t - T := by nlinarith
      have h2 : t - T < tv 0 := by rw [hTdef]; linarith
      linarith
    have heq := sti_reduce_lo (t + (k : ℚ) * T) size tv ti0 (by omega) hlo hT0
    rw [← hTdef] at heq
    rw [heq, hred]
    rw [time_walk_greatest tv size t ((size : ℤ) - 1) hmono (by omega) (by omega)
      (le_refl _) hge]
  · subst hk
    have ht0 : t + ((0 : ℤ) : ℚ) * T = t := by push_cast; ring
    rw [ht0]
    have heq := sti_no_reduce t size tv ti0 true
      (fun hc => absurd hc.2 (not_lt.mpr hge))
      (fun hc => absurd hc.2 (not_lt.mpr (le_of_lt hlt)))
    rw [heq]
    have hcl : 0 ≤ (if ti0 < 0 then 0 else ti0) ∧
        (if ti0 < 0 then 0 else ti0) ≤ (size : ℤ) - 1 := by
      split <;> omega
    rw [time_walk_greatest tv size t _ hmono (by omega) hcl.1 hcl.2 hge]
  · have hkge : (1 : ℚ) ≤ (k : ℚ) := by exact_mod_cast (by omega : 1 ≤ k)
    have hhi : t + (k : ℚ) * T > tv ((size : ℤ) - 1) := by
      have h1 : t + T ≤ t + (k : ℚ) * T := by nlinarith
      have h2 : tv ((size : ℤ) - 1) ≤ t + T := by rw [hTdef]; linarith
      rcases lt_or_eq_of_le (le_trans h2 h1) with hl | he
      · exact hl
      · exact absurd he.symm hne
    have heq := sti_reduce_hi (t + (k : ℚ) * T) size tv ti0 hhi hT0
    rw [← hTdef] at heq
    rw [heq, hred]
    rw [time_walk_greatest tv size t 0 hmono (by omega) (le_refl 0) (by omega) hge]

/-- C9: For a Z-grid vertical column zvals[0..zdim-1] (monotone increasing)
and every valid hint zi in [0, zdim-2], search_indices_vertical_z returns
ERROR_OUT_OF_BOUNDS exactly when z < zvals 0 or z > zvals (zdim-1);
otherwise it returns SUCCESS with zi bracketing z in [0, zdim-2] and
zeta = (z - zvals zi) / (zvals (zi+1) - zvals zi); in particular
z = zvals 0 yields zeta = 0 and z = zvals (zdim-1) yields zeta = 1. -/
theorem C9_vertical_z_contract (z : ℚ) (zdim : ℕ) (zvals : ℤ → ℚ) (zi0 : ℤ)
    (hmono : ∀ i j : ℤ, 0 ≤ i → i < j → j ≤ (zdim : ℤ) - 1 → zvals i < zvals j)
    (hZ : 2 ≤ zdim) (h0 : 0 ≤ zi0) (h2 : zi0 ≤ (zdim : ℤ) - 2) :
    ((search_indices_vertical_z z zdim zvals zi0).err = ERROR_OUT_OF_BOUNDS ↔
      (z < zvals 0 ∨ z > zvals ((zdim : ℤ) - 1))) ∧
    (¬(z < zvals 0 ∨ z > zvals ((zdim : ℤ) - 1)) →
      (search_indices_vertical_z z zdim zvals zi0).err = SUCCESS ∧
      0 ≤ (search_indices_vertical_z z zdim zvals zi0).zi ∧
      (search_indices_vertical_z z zdim zvals zi0).zi ≤ (zdim : ℤ) - 2 ∧
      zvals (search_indices_vertical_z z zdim zvals zi0).zi ≤ z ∧
      z ≤ zvals ((search_indices_vertical_z z zdim zvals zi0).zi + 1) ∧
      (search_indices_vertical_z z zdim zvals zi0).zeta =
        (z - zvals (search_indices_vertical_z z zdim zvals zi0).zi) /
          (zvals ((search_indices_vertical_z z zdim zvals zi0).zi + 1) -
            zvals (search_indices_vertical_z z zdim zvals zi0).zi)) ∧
    (z = zvals 0 → (search_indices_vertical_z z zdim zvals zi0).zeta = 0) ∧
    (z = zvals ((zdim : ℤ) - 1) → (search_indices_vertical_z z zdim zvals zi0).zeta = 1) := by
  have h01 : zvals 0 < zvals ((zdim : ℤ) - 1) :=
    hmono 0 ((zdim : ℤ) - 1) (le_refl 0) (by omega) (le_refl _)
  refine ⟨vertical_core_oob_iff zvals zdim z zi0, ?_, ?_, ?_⟩
  · intro hin
    exact vertical_core_success zvals zdim z zi0 hZ h0 h2 hin
  · intro hz0
    have hin : ¬(z < zvals 0 ∨ z > zvals ((zdim : ℤ) - 1)) := by
      push_neg
      exact ⟨le_of_eq hz0.symm, by rw [hz0]; linarith⟩
    have hs := vertical_core_success zvals zdim z zi0 hZ h0 h2 hin
    have hzi0 : (vertical_core zvals zdim z zi0).zi = 0 := by
      by_contra hne
      have hgt : 0 < (vertical_core zvals zdim z zi0).zi := by
        rcases hs.2.1.lt_or_eq with hl | he
        · exact hl
        · exact absurd he.symm hne
      have := hmono 0 _ (le_refl 0) hgt (by omega)
      rw [← hz0] at this
      linarith [hs.2.2.2.1]
    show (vertical_core zvals zdim z zi0).zeta = 0
    rw [hs.2.2.2.2.2, hzi0, ← hz0, sub_self, zero_div]
  · intro hzE
    have hin : ¬(z < zvals 0 ∨ z > zvals ((zdim : ℤ) - 1)) := by
      push_neg
      exact ⟨by rw [hzE]; linarith, le_of_eq hzE⟩
    have hs := vertical_core_success zvals zdim z zi0 hZ h0 h2 hin
    have hup : zvals ((vertical_core zvals zdim z zi0).zi + 1) ≤ zvals ((zdim : ℤ) - 1) := by
      rcases eq_or_lt_of_le (by omega : (vertical_core zvals zdim z zi0).zi + 1 ≤ (zdim : ℤ) - 1)
        with he | hl
      · rw [he]
      · exact le_of_lt (hmono _ _ (by omega) hl (le_refl _))
    have heqz : zvals ((vertical_core zvals zdim z zi0).zi + 1) = z :=
      le_antisymm (hup.trans (le_of_eq hzE.symm)) hs.2.2.2.2.1
    have hlt : zvals (vertical_core zvals zdim z zi0).zi <
        zvals ((vertical_core zvals zdim z zi0).zi + 1) :=
      hmono _ _ hs.2.1 (by omega) (by omega)
    show (vertical_core zvals zdim z zi0).zeta = 1
    rw [hs.2.2.2.2.2, heqz]
    have hzlt : zvals (vertical_core zvals zdim z zi0).zi < z := by
      nth_rewrite 2 [← heqz]
      exact hlt
    exact div_self (by linarith)

theorem C9_vertical_z_contract_witness :
    (search_indices_vertical_z (1 / 2) 3
      (fun i : ℤ => if i ≤ 0 then (0 : ℚ) else if i = 1 then 1 else 2) 0).err = SUCCESS ∧
    (search_indices_vertical_z 5 3
      (fun i : ℤ => if i ≤ 0 then (0 : ℚ) else if i = 1 then 1 else 2) 0).err =
      ERROR_OUT_OF_BOUNDS := by
  constructor
  · exact ((C9_vertical_z_contract (1 / 2) 3
      (fun i : ℤ => if i ≤ 0 then (0 : ℚ) else if i = 1 then 1 else 2) 0
      (adjInc_pairwise _ 3 (by with_unfolding_all decide)) (by with_unfolding_all decide) (by with_unfolding_all decide) (by with_unfolding_all decide)).2.1
      (by with_unfolding_all decide)).1
  · exact (C9_vertical_z_contract 5 3
      (fun i : ℤ => if i ≤ 0 then (0 : ℚ) else if i = 1 then 1 else 2) 0
      (adjInc_pairwise _ 3 (by with_unfolding_all decide)) (by with_unfolding_all decide) (by with_unfolding_all decide) (by with_unfolding_all decide)).1.mpr
      (by with_unfolding_all decide)

/-- C8: on a strictly increasing time axis with tvals 0 at or below t,
search_time_index sets ti to the greatest index with tvals ti at or below
the (possibly periodically reduced) working time t'; a negative hint is
clamped to 0 first (hhint admits negative hints), and any hint at most
size-1 yields the same result. -/
theorem C8_search_time_index_greatest (tv : ℤ → ℚ) (size : ℕ) (t : ℚ) (ti0 : ℤ) (per : Bool)
    (hmono : ∀ i j : ℤ, 0 ≤ i → i < j → j ≤ (size : ℤ) - 1 → tv i < tv j)
    (hS : 1 ≤ size) (hhint : ti0 ≤ (size : ℤ) - 1) (hge : tv 0 ≤ t)
    (hper2 : per = true → 2 ≤ size) :
    ∃ t', search_time_index t size tv ti0 per = (SUCCESS, t', specGreatestTimeIdx tv t' size) ∧
      tv 0 ≤ t' ∧ (per = false → t' = t) ∧
      tv (specGreatestTimeIdx tv t' size) ≤ t' ∧
      (∀ i : ℤ, 0 ≤ i → i ≤ (size : ℤ) - 1 → tv i ≤ t' →
        i ≤ specGreatestTimeIdx tv t' size) ∧
      (∀ h2 : ℤ, h2 ≤ (size : ℤ) - 1 →
        search_time_index t size tv h2 per = search_time_index t size tv ti0 per) := by
  obtain ⟨t', heq, hge', hnr, hr⟩ := sti_eval tv size t ti0 per hmono hS hhint hge hper2
  have hspec := specGreatestTimeIdx_spec tv t' size hS hge'
  refine ⟨t', heq, hge', ?_, hspec.2.2.1, hspec.2.2.2, ?_⟩
  · intro hpf
    exact hnr (by rw [hpf]; simp)
  · intro h2 hh2
    obtain ⟨t2, heq2, hge2, hnr2, hr2⟩ := sti_eval tv size t h2 per hmono hS hh2 hge hper2
    rw [heq, heq2]
    by_cases hc : per = true ∧ t > tv ((size : ℤ) - 1)
    · rw [(hr2 hc).1, (hr hc).1]
    · rw [hnr2 hc, hnr hc]

theorem C8_search_time_index_greatest_witness :
    search_time_index (3 / 2) 3
      (fun i : ℤ => if i ≤ 0 then (0 : ℚ) else if i = 1 then 1 else 2) (-5) false =
      (SUCCESS, 3 / 2, 1) := by
  obtain ⟨t', heq, _, hpf, _⟩ := C8_search_time_index_greatest
    (fun i : ℤ => if i ≤ 0 then (0 : ℚ) else if i = 1 then 1 else 2) 3 (3 / 2) (-5) false
    (adjInc_pairwise _ 3 (by with_unfolding_all decide)) (by with_unfolding_all decide) (by with_unfolding_all decide) (by with_unfolding_all decide)
    (by intro h; exact absurd h (by with_unfolding_all decide))
  rw [heq, hpf rfl]
  with_unfolding_all decide

theorem tisg_two_ne_TE (x y z : ℚ) (f : CField) (gcode : ℤ) (xs ys zs ts1 : ℕ → ℤ)
    (v0 : ℚ) (interp : ℤ) (sq : ℚ → Option ℚ) (t : ℚ) (tiv : ℤ) :
    (tisg_two x y z f gcode xs ys zs ts1 v0 interp sq t tiv).err ≠
      ERROR_TIME_EXTRAPOLATION := by
  unfold tisg_two
  dsimp only
  split
  · apply search_indices_ne_TE
  · split
    · intro hc; cases hc
    · split
      · intro hc; cases hc
      · intro hc; cases hc

theorem tisg_single_ne_TE (x y z : ℚ) (f : CField) (gcode : ℤ) (xs ys zs ts1 : ℕ → ℤ)
    (v0 : ℚ) (interp : ℤ) (sq : ℚ → Option ℚ) (tiv : ℤ) :
    (tisg_single x y z f gcode xs ys zs ts1 v0 interp sq tiv).err ≠
      ERROR_TIME_EXTRAPOLATION := by
  unfold tisg_single
  dsimp only
  split
  · apply search_indices_ne_TE
  · split
    · intro hc; cases hc
    · split
      · intro hc; cases hc
      · intro hc; cases hc

/-- The driver returns ERROR_TIME_EXTRAPOLATION only from its own
pre-check (parcels.h lines 447-450); no callee produces that code. -/
theorem tisg_TE_only_precheck (x y z time : ℚ) (f : CField) (gcode : ℤ)
    (xs ys zs ts : ℕ → ℤ) (v0 : ℚ) (interp : ℤ) (sq : ℚ → Option ℚ) :
    (temporal_interpolation_structured_grid x y z time f gcode xs ys zs ts v0 interp sq).err =
      ERROR_TIME_EXTRAPOLATION →
    f.time_periodic = false ∧ f.allow_time_extrapolation = false ∧
      (time < f.grid.time 0 ∨ time > f.grid.time ((f.grid.tdim : ℤ) - 1)) := by
  unfold temporal_interpolation_structured_grid
  dsimp only
  split
  · next h => exact fun _ => h
  · split
    · intro hc
      exact absurd hc (tisg_two_ne_TE _ _ _ _ _ _ _ _ _ _ _ _ _ _)
    · intro hc
      exact absurd hc (tisg_single_ne_TE _ _ _ _ _ _ _ _ _ _ _ _ _)

/-- The out-of-range behaviour of the walk branch of search_time_index:
below the axis the walk drops to 0, above it climbs to size-1. -/
theorem sti_extrapolation_ends (t : ℚ) (size : ℕ) (tv : ℤ → ℚ) (ti0 : ℤ)
    (hmono : ∀ i j : ℤ, 0 ≤ i → i < j → j ≤ (size : ℤ) - 1 → tv i < tv j)
    (_hS : 1 ≤ size) (h0 : 0 ≤ ti0) (h1 : ti0 ≤ (size : ℤ) - 1) :
    (t < tv 0 → search_time_index t size tv ti0 false = (SUCCESS, t, 0)) ∧
    (t > tv ((size : ℤ) - 1) →
      search_time_index t size tv ti0 false = (SUCCESS, t, (size : ℤ) - 1)) := by
  have heq := sti_no_reduce t size tv ti0 false (by simp) (by simp)
  rw [if_neg (by omega : ¬ti0 < 0)] at heq
  constructor
  · intro hlo
    rw [heq]
    have hup1 : ti0 ≤ walkUpC (fun i => decide (tv (i + 1) ≤ t)) ((size : ℤ) - 1) ti0 :=
      walkUpC_ge _ _ _
    have hup2 : walkUpC (fun i => decide (tv (i + 1) ≤ t)) ((size : ℤ) - 1) ti0 ≤
        (size : ℤ) - 1 := walkUpC_le_nmax _ _ _ h1
    have hdn : walkDownC (fun i => decide (t < tv i))
        (walkUpC (fun i => decide (tv (i + 1) ≤ t)) ((size : ℤ) - 1) ti0) = 0 := by
      apply walkDownC_eq_zero_of _ _ (by omega)
      intro j hj0 hjle
      have hjlt : t < tv j := by
        rcases eq_or_lt_of_le (by omega : (0 : ℤ) ≤ j) with he | hl
        · rw [← he]; exact hlo
        · exact lt_trans hlo (hmono 0 j (le_refl 0) hl (by omega))
      exact decide_eq_true hjlt
    rw [hdn]
  · intro hhi
    rw [heq]
    have hup : walkUpC (fun i => decide (tv (i + 1) ≤ t)) ((size : ℤ) - 1) ti0 =
        (size : ℤ) - 1 := by
      have hge := walkUpC_ge_of (fun i => decide (tv (i + 1) ≤ t)) ((size : ℤ) - 1)
        ti0 ((size : ℤ) - 1) h1 (le_refl _) ?_
      · have hle := walkUpC_le_nmax (fun i => decide (tv (i + 1) ≤ t)) ((size : ℤ) - 1) ti0 h1
        omega
      · intro j hj1 hj2
        have hle : tv (j + 1) ≤ t := by
          rcases eq_or_lt_of_le (by omega : j + 1 ≤ (size : ℤ) - 1) with he | hl
          · rw [he]; linarith
          · exact le_of_lt (lt_trans (hmono (j + 1) ((size : ℤ) - 1) (by omega) hl
              (le_refl _)) hhi)
        exact decide_eq_true hle
    rw [hup]
    rw [walkDownC_eq_self_of _ _ (by simp only [decide_eq_false_iff_not, not_lt]; linarith)]

/-- C10: search_time_index returns SUCCESS on every input, so the time
locator itself cannot signal out-of-range; ERROR_TIME_EXTRAPOLATION can
only arise from the driver pre-check of
temporal_interpolation_structured_grid; and in the non-periodic walk (the
extrapolation-allowed path) a t below tvals 0 yields ti = 0 while a t above
tvals (tdim-1) yields ti = tdim-1, silently. -/
theorem C10_time_locator_total :
    (∀ (t : ℚ) (size : ℕ) (tv : ℤ → ℚ) (ti0 : ℤ) (per : Bool),
      (search_time_index t size tv ti0 per).1 = SUCCESS) ∧
    (∀ (x y z time : ℚ) (f : CField) (gcode : ℤ) (xs ys zs ts : ℕ → ℤ) (v0 : ℚ)
      (interp : ℤ) (sq : ℚ → Option ℚ),
      (temporal_interpolation_structured_grid x y z time f gcode xs ys zs ts v0 interp
        sq).err = ERROR_TIME_EXTRAPOLATION →
      f.time_periodic = false ∧ f.allow_time_extrapolation = false ∧
        (time < f.grid.time 0 ∨ time > f.grid.time ((f.grid.tdim : ℤ) - 1))) ∧
    (∀ (t : ℚ) (size : ℕ) (tv : ℤ → ℚ) (ti0 : ℤ),
      (∀ i j : ℤ, 0 ≤ i → i < j → j ≤ (size : ℤ) - 1 → tv i < tv j) →
      1 ≤ size → 0 ≤ ti0 → ti0 ≤ (size : ℤ) - 1 →
      (t < tv 0 → search_time_index t size tv ti0 false = (SUCCESS, t, 0)) ∧
      (t > tv ((size : ℤ) - 1) →
        search_time_index t size tv ti0 false = (SUCCESS, t, (size : ℤ) - 1))) := by
  refine ⟨?_, ?_, ?_⟩
  · intro t size tv ti0 per
    exact search_time_index_aux_success 2 t size tv ti0 per
  · intro x y z time f gcode xs ys zs ts v0 interp sq
    exact tisg_TE_only_precheck x y z time f gcode xs ys zs ts v0 interp sq
  · intro t size tv ti0 hmono hS h0 h1
    exact sti_extrapolation_ends t size tv ti0 hmono hS h0 h1

theorem C10_time_locator_total_witness :
    (search_time_index 5 3 C10tv (-2) false).1 = SUCCESS ∧
    (C10F.time_periodic = false ∧ C10F.allow_time_extrapolation = false ∧
      ((5 : ℚ) < C10F.grid.time 0 ∨ (5 : ℚ) > C10F.grid.time ((C10F.grid.tdim : ℤ) - 1))) ∧
    search_time_index (-1) 3 C10tv 1 false = (SUCCESS, -1, 0) ∧
    search_time_index 7 3 C10tv 1 false = (SUCCESS, 7, 2) := by
  have hb := (C10_time_locator_total.2.2 (-1) 3 C10tv 1
    (adjInc_pairwise _ 3 (by with_unfolding_all decide)) (by decide) (by decide)
    (by decide)).1 (by with_unfolding_all decide)
  have hc := (C10_time_locator_total.2.2 7 3 C10tv 1
    (adjInc_pairwise _ 3 (by with_unfolding_all decide)) (by decide) (by decide)
    (by decide)).2 (by with_unfolding_all decide)
  refine ⟨C10_time_locator_total.1 5 3 C10tv (-2) false,
    C10_time_locator_total.2.1 0 0 0 5 C10F 0 (fun _ => 0) (fun _ => 0) (fun _ => 0)
      (fun _ => 0) 0 0 (fun _ => none) (by with_unfolding_all decide), hb, hc⟩

/-- C3: temporal_interpolation (on the four structured-grid types) returns
ERROR_TIME_EXTRAPOLATION exactly when the field is non-periodic,
allow_time_extrapolation is false, and t lies strictly outside
[tvals 0, tvals (tdim-1)]; in particular a query with t exactly equal to
tvals (tdim-1) (extrapolation disabled, non-periodic, strictly increasing
axis) passes the pre-check and takes the single-sample branch with located
time index tdim-1. -/
theorem C3_TE_iff_and_boundary (x y z time : ℚ) (f : CField)
    (xs ys zs ts : ℕ → ℤ) (v0 : ℚ) (interp : ℤ) (sq : ℚ → Option ℚ)
    (hg : f.grid.gtype = RECTILINEAR_Z_GRID ∨ f.grid.gtype = RECTILINEAR_S_GRID ∨
      f.grid.gtype = CURVILINEAR_Z_GRID ∨ f.grid.gtype = CURVILINEAR_S_GRID) :
    ((temporal_interpolation x y z time f xs ys zs ts v0 interp sq).err =
        ERROR_TIME_EXTRAPOLATION ↔
      f.time_periodic = false ∧ f.allow_time_extrapolation = false ∧
        (time < f.grid.time 0 ∨ time > f.grid.time ((f.grid.tdim : ℤ) - 1))) ∧
    ((∀ i j : ℤ, 0 ≤ i → i < j → j ≤ (f.grid.tdim : ℤ) - 1 →
        f.grid.time i < f.grid.time j) →
      1 ≤ f.grid.tdim → ts f.igrid ≤ (f.grid.tdim : ℤ) - 1 →
      f.time_periodic = false → f.allow_time_extrapolation = false →
      time = f.grid.time ((f.grid.tdim : ℤ) - 1) →
      temporal_interpolation x y z time f xs ys zs ts v0 interp sq =
        tisg_single x y z f f.grid.gtype xs ys zs
          (Function.update ts f.igrid ((f.grid.tdim : ℤ) - 1)) v0 interp sq
          ((f.grid.tdim : ℤ) - 1)) := by
  constructor
  · constructor
    · intro hTE
      unfold temporal_interpolation at hTE
      rw [if_pos hg] at hTE
      exact tisg_TE_only_precheck x y z time f f.grid.gtype xs ys zs ts v0 interp sq hTE
    · intro hcond
      unfold temporal_interpolation
      rw [if_pos hg]
      unfold temporal_interpolation_structured_grid
      dsimp only
      rw [if_pos hcond]
  · intro hmono hS hhint hper hallow ht
    have h0E : f.grid.time 0 ≤ f.grid.time ((f.grid.tdim : ℤ) - 1) := by
      rcases eq_or_lt_of_le (by omega : (0 : ℤ) ≤ (f.grid.tdim : ℤ) - 1) with he | hl
      · rw [← he]
      · exact le_of_lt (hmono 0 _ (le_refl 0) hl (le_refl _))
    have hprecheck : ¬(f.time_periodic = false ∧ f.allow_time_extrapolation = false ∧
        (time < f.grid.time 0 ∨ time > f.grid.time ((f.grid.tdim : ℤ) - 1))) := by
      intro hc
      rcases hc.2.2 with hlo | hhi
      · rw [ht] at hlo; linarith
      · rw [ht] at hhi; exact absurd hhi (lt_irrefl _)
    have hcl : 0 ≤ (if ts f.igrid < 0 then 0 else ts f.igrid) ∧
        (if ts f.igrid < 0 then 0 else ts f.igrid) ≤ (f.grid.tdim : ℤ) - 1 := by
      split <;> omega
    have hge : f.grid.time 0 ≤ time := by rw [ht]; exact h0E
    have hsti : search_time_index time f.grid.tdim f.grid.time (ts f.igrid)
        f.time_periodic = (SUCCESS, time,
          specGreatestTimeIdx f.grid.time time f.grid.tdim) := by
      rw [hper]
      rw [sti_no_reduce time f.grid.tdim f.grid.time (ts f.igrid) false (by simp) (by simp)]
      rw [time_walk_greatest f.grid.time f.grid.tdim time _ hmono hS hcl.1 hcl.2 hge]
    have hspec := specGreatestTimeIdx_spec f.grid.time time f.grid.tdim hS hge
    have hmax : (f.grid.tdim : ℤ) - 1 ≤ specGreatestTimeIdx f.grid.time time f.grid.tdim :=
      hspec.2.2.2 _ (by omega) (le_refl _) (le_of_eq ht.symm)
    have hspeceq : specGreatestTimeIdx f.grid.time time f.grid.tdim =
        (f.grid.tdim : ℤ) - 1 := by omega
    unfold temporal_interpolation
    rw [if_pos hg]
    unfold temporal_interpolation_structured_grid
    dsimp only
    rw [if_neg hprecheck, hsti, hspeceq]
    dsimp only
    rw [if_neg (by intro hc; exact absurd hc.1 (lt_irrefl _))]

theorem C3_TE_iff_and_boundary_witness :
    (temporal_interpolation 0 0 0 5 C3F (fun _ => 0) (fun _ => 0) (fun _ => 0)
      (fun _ => 0) 0 0 (fun _ => none)).err = ERROR_TIME_EXTRAPOLATION ∧
    temporal_interpolation 0 0 0 (C3F.grid.time ((C3F.grid.tdim : ℤ) - 1)) C3F
      (fun _ => 0) (fun _ => 0) (fun _ => 0) (fun _ => 0) 0 0 (fun _ => none) =
      tisg_single 0 0 0 C3F C3F.grid.gtype (fun _ => 0) (fun _ => 0) (fun _ => 0)
        (Function.update (fun _ => 0) C3F.igrid ((C3F.grid.tdim : ℤ) - 1)) 0 0
        (fun _ => none) ((C3F.grid.tdim : ℤ) - 1) := by
  constructor
  · exact (C3_TE_iff_and_boundary 0 0 0 5 C3F (fun _ => 0) (fun _ => 0) (fun _ => 0)
      (fun _ => 0) 0 0 (fun _ => none) (by with_unfolding_all decide)).1.mpr
      (by with_unfolding_all decide)
  · exact (C3_TE_iff_and_boundary 0 0 0 (C3F.grid.time ((C3F.grid.tdim : ℤ) - 1)) C3F
      (fun _ => 0) (fun _ => 0) (fun _ => 0) (fun _ => 0) 0 0 (fun _ => none)
      (by with_unfolding_all decide)).2
      (adjInc_pairwise _ 2 (by with_unfolding_all decide))
      (by decide) (by with_unfolding_all decide)
      (by decide) (by decide) rfl

/-- C1: past the extrapolation pre-check, the driver dispatches on the
located time index: when ti < tdim-1 and t > tvals ti it takes the
two-sample branch (which locates once with the real interval
(tvals ti, tvals (ti+1)), evaluates the spatial kernel on slices ti and
ti+1 and returns f0 + (f1 - f0)*(t - t0)/(t1 - t0)), otherwise the
single-sample branch (which locates once with the synthetic interval
(t0, t0+1) and returns one spatial interpolation on slice ti). -/
theorem C1_driver_time_branches :
    (∀ (x y z time : ℚ) (f : CField) (gcode : ℤ) (xs ys zs ts : ℕ → ℤ) (v0 : ℚ)
       (interp : ℤ) (sq : ℚ → Option ℚ),
      ¬(f.time_periodic = false ∧ f.allow_time_extrapolation = false ∧
        (time < f.grid.time 0 ∨ time > f.grid.time ((f.grid.tdim : ℤ) - 1))) →
      (((search_time_index time f.grid.tdim f.grid.time (ts f.igrid)
            f.time_periodic).2.2 < (f.grid.tdim : ℤ) - 1 ∧
        (search_time_index time f.grid.tdim f.grid.time (ts f.igrid)
            f.time_periodic).2.1 >
          f.grid.time (search_time_index time f.grid.tdim f.grid.time (ts f.igrid)
            f.time_periodic).2.2) →
        temporal_interpolation_structured_grid x y z time f gcode xs ys zs ts v0 interp sq =
          tisg_two x y z f gcode xs ys zs
            (Function.update ts f.igrid (search_time_index time f.grid.tdim f.grid.time
              (ts f.igrid) f.time_periodic).2.2) v0 interp sq
            (search_time_index time f.grid.tdim f.grid.time (ts f.igrid)
              f.time_periodic).2.1
            (search_time_index time f.grid.tdim f.grid.time (ts f.igrid)
              f.time_periodic).2.2) ∧
      (¬((search_time_index time f.grid.tdim f.grid.time (ts f.igrid)
            f.time_periodic).2.2 < (f.grid.tdim : ℤ) - 1 ∧
        (search_time_index time f.grid.tdim f.grid.time (ts f.igrid)
            f.time_periodic).2.1 >
          f.grid.time (search_time_index time f.grid.tdim f.grid.time (ts f.igrid)
            f.time_periodic).2.2) →
        temporal_interpolation_structured_grid x y z time f gcode xs ys zs ts v0 interp sq =
          tisg_single x y z f gcode xs ys zs
            (Function.update ts f.igrid (search_time_index time f.grid.tdim f.grid.time
              (ts f.igrid) f.time_periodic).2.2) v0 interp sq
            (search_time_index time f.grid.tdim f.grid.time (ts f.igrid)
              f.time_periodic).2.2)) ∧
    (∀ (x y z t : ℚ) (f : CField) (gcode : ℤ) (xs ys zs ts1 : ℕ → ℤ) (v0 : ℚ)
       (sq : ℚ → Option ℚ) (tiv : ℤ) (S : SRes),
      search_indices sq x y z f.grid.xdim f.grid.ydim f.grid.zdim f.grid.lon f.grid.lat
        f.grid.depth (xs f.igrid) (ys f.igrid) (zs f.igrid) f.grid.sphere_mesh
        f.grid.zonal_periodic gcode f.grid.z4d tiv f.grid.tdim t (f.grid.time tiv)
        (f.grid.time (tiv + 1)) = S →
      S.err = SUCCESS →
      tisg_two x y z f gcode xs ys zs ts1 v0 LINEAR sq t tiv =
        ⟨SUCCESS,
          (if f.grid.zdim = 1 then
            spatial_interpolation_bilinear S.xsi S.eta S.xi S.yi f.grid.xdim
              (field_slice f tiv)
          else
            spatial_interpolation_trilinear S.xsi S.eta S.zeta S.xi S.yi S.zi f.grid.xdim
              f.grid.ydim (field_slice f tiv)) +
          ((if f.grid.zdim = 1 then
            spatial_interpolation_bilinear S.xsi S.eta S.xi S.yi f.grid.xdim
              (field_slice f (tiv + 1))
          else
            spatial_interpolation_trilinear S.xsi S.eta S.zeta S.xi S.yi S.zi f.grid.xdim
              f.grid.ydim (field_slice f (tiv + 1))) -
          (if f.grid.zdim = 1 then
            spatial_interpolation_bilinear S.xsi S.eta S.xi S.yi f.grid.xdim
              (field_slice f tiv)
          else
            spatial_interpolation_trilinear S.xsi S.eta S.zeta S.xi S.yi S.zi f.grid.xdim
              f.grid.ydim (field_slice f tiv))) *
          ((t - f.grid.time tiv) / (f.grid.time (tiv + 1) - f.grid.time tiv)),
          Function.update xs f.igrid S.xi, Function.update ys f.igrid S.yi,
          Function.update zs f.igrid S.zi, ts1⟩) ∧
    (∀ (x y z : ℚ) (f : CField) (gcode : ℤ) (xs ys zs ts1 : ℕ → ℤ) (v0 : ℚ)
       (sq : ℚ → Option ℚ) (tiv : ℤ) (S : SRes),
      search_indices sq x y z f.grid.xdim f.grid.ydim f.grid.zdim f.grid.lon f.grid.lat
        f.grid.depth (xs f.igrid) (ys f.igrid) (zs f.igrid) f.grid.sphere_mesh
        f.grid.zonal_periodic gcode f.grid.z4d tiv f.grid.tdim (f.grid.time tiv)
        (f.grid.time tiv) (f.grid.time tiv + 1) = S →
      S.err = SUCCESS →
      tisg_single x y z f gcode xs ys zs ts1 v0 LINEAR sq tiv =
        ⟨SUCCESS,
          (if f.grid.zdim = 1 then
            spatial_interpolation_bilinear S.xsi S.eta S.xi S.yi f.grid.xdim
              (field_slice f tiv)
          else
            spatial_interpolation_trilinear S.xsi S.eta S.zeta S.xi S.yi S.zi f.grid.xdim
              f.grid.ydim (field_slice f tiv)),
          Function.update xs f.igrid S.xi, Function.update ys f.igrid S.yi,
          Function.update zs f.igrid S.zi, ts1⟩) := by
  refine ⟨?_, ?_, ?_⟩
  · intro x y z time f gcode xs ys zs ts v0 interp sq hpre
    constructor
    · intro hcond
      unfold temporal_interpolation_structured_grid
      dsimp only
      rw [if_neg hpre, if_pos hcond]
    · intro hcond
      unfold temporal_interpolation_structured_grid
      dsimp only
      rw [if_neg hpre, if_neg hcond]
  · intro x y z t f gcode xs ys zs ts1 v0 sq tiv S hS hserr
    unfold tisg_two
    dsimp only
    rw [hS]
    rw [if_neg (not_not_intro hserr), if_pos rfl]
  · intro x y z f gcode xs ys zs ts1 v0 sq tiv S hS hserr
    unfold tisg_single
    dsimp only
    rw [hS]
    rw [if_neg (not_not_intro hserr), if_pos rfl]

theorem C1_driver_time_branches_witness :
    (temporal_interpolation_structured_grid 0 0 0 (1 / 2) C1F 0 (fun _ => 0) (fun _ => 0)
      (fun _ => 0) (fun _ => 0) 0 LINEAR (fun _ => none)).value = 1 / 2 ∧
    (temporal_interpolation_structured_grid 0 0 0 (1 / 2) C1F 0 (fun _ => 0) (fun _ => 0)
      (fun _ => 0) (fun _ => 0) 0 LINEAR (fun _ => none)).err = SUCCESS ∧
    (temporal_interpolation_structured_grid 0 0 0 0 C1F 0 (fun _ => 0) (fun _ => 0)
      (fun _ => 0) (fun _ => 0) 0 LINEAR (fun _ => none)).value = 0 ∧
    (tisg_two 0 0 0 C1F 0 (fun _ => 0) (fun _ => 0) (fun _ => 0) (fun _ => 0) 0 LINEAR
      (fun _ => none) (1 / 2) 0).value = 1 / 2 ∧
    (tisg_single 0 0 0 C1F 0 (fun _ => 0) (fun _ => 0) (fun _ => 0) (fun _ => 0) 0 LINEAR
      (fun _ => none) 0).value = 0 := by
  have h2 := (C1_driver_time_branches.1 0 0 0 (1 / 2) C1F 0 (fun _ => 0) (fun _ => 0)
    (fun _ => 0) (fun _ => 0) 0 LINEAR (fun _ => none) (by with_unfolding_all decide)).1
    (by with_unfolding_all decide)
  have h1 := (C1_driver_time_branches.1 0 0 0 0 C1F 0 (fun _ => 0) (fun _ => 0)
    (fun _ => 0) (fun _ => 0) 0 LINEAR (fun _ => none) (by with_unfolding_all decide)).2
    (by with_unfolding_all decide)
  have h3 := C1_driver_time_branches.2.1 0 0 0 (1 / 2) C1F 0 (fun _ => 0) (fun _ => 0)
    (fun _ => 0) (fun _ => 0) 0 (fun _ => none) 0 ⟨SUCCESS, 0, 0, 0, 0, 0, 0⟩
    (by with_unfolding_all decide) rfl
  have h4 := C1_driver_time_branches.2.2 0 0 0 C1F 0 (fun _ => 0) (fun _ => 0)
    (fun _ => 0) (fun _ => 0) 0 (fun _ => none) 0 ⟨SUCCESS, 0, 0, 0, 0, 0, 0⟩
    (by with_unfolding_all decide) rfl
  refine ⟨?_, ?_, ?_, ?_, ?_⟩
  · rw [h2]; with_unfolding_all decide
  · rw [h2]; with_unfolding_all decide
  · rw [h1]; with_unfolding_all decide
  · rw [h3]; with_unfolding_all decide
  · rw [h4]; with_unfolding_all decide

/-- C4 (amended): for a time_periodic field with strictly increasing time
axis and period T = tvals (tdim-1) - tvals 0, a query at t + k*T returns
the same result as a query at t, provided t lies in [tvals 0, tvals (tdim-1))
and the shifted time does not land exactly on tvals (tdim-1) (there the
strict > check skips the reduction); and for t strictly outside
[tvals 0, tvals (tdim-1)] the locator hands the caller the reduced time
t - floor((t - tvals 0)/T)*T. -/
theorem C4_periodic_shift (x y z t : ℚ) (k : ℤ) (f : CField) (gcode : ℤ)
    (xs ys zs ts : ℕ → ℤ) (v0 : ℚ) (interp : ℤ) (sq : ℚ → Option ℚ)
    (hper : f.time_periodic = true)
    (hmono : ∀ i j : ℤ, 0 ≤ i → i < j → j ≤ (f.grid.tdim : ℤ) - 1 →
      f.grid.time i < f.grid.time j)
    (hS2 : 2 ≤ f.grid.tdim) (hhint : ts f.igrid ≤ (f.grid.tdim : ℤ) - 1)
    (hge : f.grid.time 0 ≤ t) (hlt : t < f.grid.time ((f.grid.tdim : ℤ) - 1))
    (hne : t + (k : ℚ) * (f.grid.time ((f.grid.tdim : ℤ) - 1) - f.grid.time 0) ≠
      f.grid.time ((f.grid.tdim : ℤ) - 1)) :
    temporal_interpolation_structured_grid x y z
        (t + (k : ℚ) * (f.grid.time ((f.grid.tdim : ℤ) - 1) - f.grid.time 0)) f gcode
        xs ys zs ts v0 interp sq =
      temporal_interpolation_structured_grid x y z t f gcode xs ys zs ts v0 interp sq ∧
    (∀ (u : ℚ) (ti0 : ℤ),
      (u > f.grid.time ((f.grid.tdim : ℤ) - 1) →
        (search_time_index u f.grid.tdim f.grid.time ti0 true).2.1 =
          u - (⌊(u - f.grid.time 0) /
              (f.grid.time ((f.grid.tdim : ℤ) - 1) - f.grid.time 0)⌋ : ℚ) *
            (f.grid.time ((f.grid.tdim : ℤ) - 1) - f.grid.time 0)) ∧
      (u < f.grid.time 0 →
        (search_time_index u f.grid.tdim f.grid.time ti0 true).2.1 =
          u - (⌊(u - f.grid.time 0) /
              (f.grid.time ((f.grid.tdim : ℤ) - 1) - f.grid.time 0)⌋ : ℚ) *
            (f.grid.time ((f.grid.tdim : ℤ) - 1) - f.grid.time 0))) := by
  have hT0 : f.grid.time 0 < f.grid.time ((f.grid.tdim : ℤ) - 1) :=
    hmono 0 _ (le_refl 0) (by omega) (le_refl _)
  constructor
  · have hstiA := sti_shift_eval f.grid.time f.grid.tdim t k (ts f.igrid) hmono hS2
      hhint hge hlt hne
    have hcl : 0 ≤ (if ts f.igrid < 0 then 0 else ts f.igrid) ∧
        (if ts f.igrid < 0 then 0 else ts f.igrid) ≤ (f.grid.tdim : ℤ) - 1 := by
      split <;> omega
    have hstiB : search_time_index t f.grid.tdim f.grid.time (ts f.igrid) true =
        (SUCCESS, t, specGreatestTimeIdx f.grid.time t f.grid.tdim) := by
      rw [sti_no_reduce t f.grid.tdim f.grid.time (ts f.igrid) true
        (fun hc => absurd hc.2 (not_lt.mpr hge))
        (fun hc => absurd hc.2 (not_lt.mpr (le_of_lt hlt)))]
      rw [time_walk_greatest f.grid.time f.grid.tdim t _ hmono (by omega) hcl.1 hcl.2 hge]
    unfold temporal_interpolation_structured_grid
    dsimp only
    rw [hper]
    have hno : ∀ P : Prop, ¬((true : Bool) = false ∧ P) := fun P hc => by
      exact absurd hc.1 (by decide)
    rw [if_neg (hno _), if_neg (hno _)]
    rw [hstiA, hstiB]
  · intro u ti0
    constructor
    · intro hhi
      rw [sti_reduce_hi u f.grid.tdim f.grid.time ti0 hhi hT0]
    · intro hlo
      rw [sti_reduce_lo u f.grid.tdim f.grid.time ti0 (by omega) hlo hT0]

theorem C4_periodic_shift_witness :
    temporal_interpolation_structured_grid 0 0 0
        ((1 / 2 : ℚ) + ((1 : ℤ) : ℚ) * (C4F.grid.time ((C4F.grid.tdim : ℤ) - 1) -
          C4F.grid.time 0)) C4F 0 (fun _ => 0) (fun _ => 0) (fun _ => 0) (fun _ => 0) 0
        LINEAR (fun _ => none) =
      temporal_interpolation_structured_grid 0 0 0 (1 / 2) C4F 0 (fun _ => 0) (fun _ => 0)
        (fun _ => 0) (fun _ => 0) 0 LINEAR (fun _ => none) ∧
    (search_time_index 7 C4F.grid.tdim C4F.grid.time 0 true).2.1 = 1 := by
  have h := C4_periodic_shift 0 0 0 (1 / 2) 1 C4F 0 (fun _ => 0) (fun _ => 0) (fun _ => 0)
    (fun _ => 0) 0 LINEAR (fun _ => none) rfl
    (adjInc_pairwise _ 3 (by with_unfolding_all decide)) (by decide) (by decide)
    (by with_unfolding_all decide) (by with_unfolding_all decide)
    (by with_unfolding_all decide)
  refine ⟨h.1, ?_⟩
  rw [(h.2 7 0).1 (by with_unfolding_all decide)]
  with_unfolding_all decide

/-- The unamended C4 fails at the period boundary: with time axis {0,1,2}
(period T = 2, time_periodic), the query at t = 0 and the query at
t + 1*T = 2 return different values and different located time indices —
the strict > check skips the reduction at t + k*T = tvals (tdim-1). -/
theorem C4_periodic_shift_counterexample :
    C4F.time_periodic = true ∧
    (0 : ℚ) + ((1 : ℤ) : ℚ) * (C4F.grid.time ((C4F.grid.tdim : ℤ) - 1) -
      C4F.grid.time 0) = 2 ∧
    (temporal_interpolation_structured_grid 0 0 0 2 C4F 0 (fun _ => 0) (fun _ => 0)
      (fun _ => 0) (fun _ => 0) 0 LINEAR (fun _ => none)).err = SUCCESS ∧
    (temporal_interpolation_structured_grid 0 0 0 0 C4F 0 (fun _ => 0) (fun _ => 0)
      (fun _ => 0) (fun _ => 0) 0 LINEAR (fun _ => none)).err = SUCCESS ∧
    (temporal_interpolation_structured_grid 0 0 0 2 C4F 0 (fun _ => 0) (fun _ => 0)
      (fun _ => 0) (fun _ => 0) 0 LINEAR (fun _ => none)).value ≠
      (temporal_interpolation_structured_grid 0 0 0 0 C4F 0 (fun _ => 0) (fun _ => 0)
        (fun _ => 0) (fun _ => 0) 0 LINEAR (fun _ => none)).value ∧
    (temporal_interpolation_structured_grid 0 0 0 2 C4F 0 (fun _ => 0) (fun _ => 0)
      (fun _ => 0) (fun _ => 0) 0 LINEAR (fun _ => none)).ts 0 ≠
      (temporal_interpolation_structured_grid 0 0 0 0 C4F 0 (fun _ => 0) (fun _ => 0)
        (fun _ => 0) (fun _ => 0) 0 LINEAR (fun _ => none)).ts 0 := by
  refine ⟨rfl, by with_unfolding_all decide, ?_, ?_, ?_, ?_⟩
  · with_unfolding_all decide
  · with_unfolding_all decide
  · with_unfolding_all decide
  · with_unfolding_all decide

/-- C7: temporal_interpolationUVrotation chains six queries (U, V, cosU,
sinU, cosV, sinV) at the same point, threading the cursor arrays; on full
success it writes exactly u*cosU - v*sinV and u*sinU + v*cosV (the U output
mixes cosU with sinV), and the first non-SUCCESS code is returned unchanged
with the outputs left unwritten. -/
theorem C7_uv_rotation (x y z time : ℚ) (U V cosU sinU cosV sinV : CField)
    (xs ys zs ts : ℕ → ℤ) (vU0 vV0 : ℚ) (interp : ℤ) (sq : ℚ → Option ℚ)
    (r1 r2 r3 r4 r5 r6 : DRes)
    (h1 : temporal_interpolation x y z time U xs ys zs ts 0 interp sq = r1)
    (h2 : temporal_interpolation x y z time V r1.xs r1.ys r1.zs r1.ts 0 interp sq = r2)
    (h3 : temporal_interpolation x y z time cosU r2.xs r2.ys r2.zs r2.ts 0 interp sq = r3)
    (h4 : temporal_interpolation x y z time sinU r3.xs r3.ys r3.zs r3.ts 0 interp sq = r4)
    (h5 : temporal_interpolation x y z time cosV r4.xs r4.ys r4.zs r4.ts 0 interp sq = r5)
    (h6 : temporal_interpolation x y z time sinV r5.xs r5.ys r5.zs r5.ts 0 interp sq = r6) :
    (r1.err = SUCCESS → r2.err = SUCCESS → r3.err = SUCCESS → r4.err = SUCCESS →
      r5.err = SUCCESS → r6.err = SUCCESS →
      temporal_interpolationUVrotation x y z time U V cosU sinU cosV sinV xs ys zs ts
          vU0 vV0 interp sq =
        ⟨SUCCESS, r1.value * r3.value - r2.value * r6.value,
          r1.value * r4.value + r2.value * r5.value, r6.xs, r6.ys, r6.zs, r6.ts⟩) ∧
    (r1.err ≠ SUCCESS →
      temporal_interpolationUVrotation x y z time U V cosU sinU cosV sinV xs ys zs ts
          vU0 vV0 interp sq = ⟨r1.err, vU0, vV0, r1.xs, r1.ys, r1.zs, r1.ts⟩) ∧
    (r1.err = SUCCESS → r2.err ≠ SUCCESS →
      temporal_interpolationUVrotation x y z time U V cosU sinU cosV sinV xs ys zs ts
          vU0 vV0 interp sq = ⟨r2.err, vU0, vV0, r2.xs, r2.ys, r2.zs, r2.ts⟩) ∧
    (r1.err = SUCCESS → r2.err = SUCCESS → r3.err ≠ SUCCESS →
      temporal_interpolationUVrotation x y z time U V cosU sinU cosV sinV xs ys zs ts
          vU0 vV0 interp sq = ⟨r3.err, vU0, vV0, r3.xs, r3.ys, r3.zs, r3.ts⟩) ∧
    (r1.err = SUCCESS → r2.err = SUCCESS → r3.err = SUCCESS → r4.err ≠ SUCCESS →
      temporal_interpolationUVrotation x y z time U V cosU sinU cosV sinV xs ys zs ts
          vU0 vV0 interp sq = ⟨r4.err, vU0, vV0, r4.xs, r4.ys, r4.zs, r4.ts⟩) ∧
    (r1.err = SUCCESS → r2.err = SUCCESS → r3.err = SUCCESS → r4.err = SUCCESS →
      r5.err ≠ SUCCESS →
      temporal_interpolationUVrotation x y z time U V cosU sinU cosV sinV xs ys zs ts
          vU0 vV0 interp sq = ⟨r5.err, vU0, vV0, r5.xs, r5.ys, r5.zs, r5.ts⟩) ∧
    (r1.err = SUCCESS → r2.err = SUCCESS → r3.err = SUCCESS → r4.err = SUCCESS →
      r5.err = SUCCESS → r6.err ≠ SUCCESS →
      temporal_interpolationUVrotation x y z time U V cosU sinU cosV sinV xs ys zs ts
          vU0 vV0 interp sq = ⟨r6.err, vU0, vV0, r6.xs, r6.ys, r6.zs, r6.ts⟩) := by
  refine ⟨?_, ?_, ?_, ?_, ?_, ?_, ?_⟩
  · intro e1 e2 e3 e4 e5 e6
    unfold temporal_interpolationUVrotation
    dsimp only
    rw [h1, if_neg (not_not_intro e1), h2, if_neg (not_not_intro e2), h3,
      if_neg (not_not_intro e3), h4, if_neg (not_not_intro e4), h5,
      if_neg (not_not_intro e5), h6, if_neg (not_not_intro e6)]
  · intro e1
    unfold temporal_interpolationUVrotation
    dsimp only
    rw [h1, if_pos e1]
  · intro e1 e2
    unfold temporal_interpolationUVrotation
    dsimp only
    rw [h1, if_neg (not_not_intro e1), h2, if_pos e2]
  · intro e1 e2 e3
    unfold temporal_interpolationUVrotation
    dsimp only
    rw [h1, if_neg (not_not_intro e1), h2, if_neg (not_not_intro e2), h3, if_pos e3]
  · intro e1 e2 e3 e4
    unfold temporal_interpolationUVrotation
    dsimp only
    rw [h1, if_neg (not_not_intro e1), h2, if_neg (not_not_intro e2), h3,
      if_neg (not_not_intro e3), h4, if_pos e4]
  · intro e1 e2 e3 e4 e5
    unfold temporal_interpolationUVrotation
    dsimp only
    rw [h1, if_neg (not_not_intro e1), h2, if_neg (not_not_intro e2), h3,
      if_neg (not_not_intro e3), h4, if_neg (not_not_intro e4), h5, if_pos e5]
  · intro e1 e2 e3 e4 e5 e6
    unfold temporal_interpolationUVrotation
    dsimp only
    rw [h1, if_neg (not_not_intro e1), h2, if_neg (not_not_intro e2), h3,
      if_neg (not_not_intro e3), h4, if_neg (not_not_intro e4), h5,
      if_neg (not_not_intro e5), h6, if_pos e6]

theorem C7_uv_rotation_witness :
    (temporal_interpolationUVrotation 0 0 0 0 (C7field 3) (C7field 4) (C7field 5)
      (C7field 6) (C7field 7) (C7field 8) (fun _ => 0) (fun _ => 0) (fun _ => 0)
      (fun _ => 0) 99 98 LINEAR (fun _ => none)).valueU = -17 ∧
    (temporal_interpolationUVrotation 0 0 0 0 (C7field 3) (C7field 4) (C7field 5)
      (C7field 6) (C7field 7) (C7field 8) (fun _ => 0) (fun _ => 0) (fun _ => 0)
      (fun _ => 0) 99 98 LINEAR (fun _ => none)).valueV = 46 ∧
    (temporal_interpolationUVrotation 0 0 0 0 (C7field 3) (C7field 4) (C7field 5)
      (C7field 6) (C7field 7) (C7field 8) (fun _ => 0) (fun _ => 0) (fun _ => 0)
      (fun _ => 0) 99 98 LINEAR (fun _ => none)).err = SUCCESS ∧
    (temporal_interpolationUVrotation 0 0 0 0 (C7field 3) (C7field 4) (C7field 5)
      C7bad (C7field 7) (C7field 8) (fun _ => 0) (fun _ => 0) (fun _ => 0)
      (fun _ => 0) 99 98 LINEAR (fun _ => none)).err = ERROR ∧
    (temporal_interpolationUVrotation 0 0 0 0 (C7field 3) (C7field 4) (C7field 5)
      C7bad (C7field 7) (C7field 8) (fun _ => 0) (fun _ => 0) (fun _ => 0)
      (fun _ => 0) 99 98 LINEAR (fun _ => none)).valueU = 99 := by
  have hok := (C7_uv_rotation 0 0 0 0 (C7field 3) (C7field 4) (C7field 5) (C7field 6)
    (C7field 7) (C7field 8) (fun _ => 0) (fun _ => 0) (fun _ => 0) (fun _ => 0) 99 98
    LINEAR (fun _ => none) _ _ _ _ _ _ rfl rfl rfl rfl rfl rfl).1
    (by with_unfolding_all decide) (by with_unfolding_all decide)
    (by with_unfolding_all decide) (by with_unfolding_all decide)
    (by with_unfolding_all decide) (by with_unfolding_all decide)
  have hbad := ((C7_uv_rotation 0 0 0 0 (C7field 3) (C7field 4) (C7field 5) C7bad
    (C7field 7) (C7field 8) (fun _ => 0) (fun _ => 0) (fun _ => 0) (fun _ => 0) 99 98
    LINEAR (fun _ => none) _ _ _ _ _ _ rfl rfl rfl rfl rfl rfl).2.2.2.2.1)
    (by with_unfolding_all decide) (by with_unfolding_all decide)
    (by with_unfolding_all decide) (by with_unfolding_all decide)
  refine ⟨?_, ?_, ?_, ?_, ?_⟩
  · rw [hok]; with_unfolding_all decide
  · rw [hok]; with_unfolding_all decide
  · rw [hok]
  · rw [hbad]; with_unfolding_all decide
  · rw [hbad]

/-- C2 (amended): a successful query on any of the four grid types returns
cursor indices with xi in [0, xdim-2] and yi in [0, ydim-2] and normalized
coordinates in the unit cube, and the cursor identifies the containing
cell in the form each topology admits: on rectilinear grids y is bracketed
by the yi cell, x by the xi cell on a flat mesh and, on a sphere, by the
normalized longitudes of the xi cell; on curvilinear grids (xsi, eta) are
the inverse-bilinear coordinates the loop computed for the cell it last
examined, whose x-index the final fix-up maps to xi (the identity whenever
it is already in range, including after the pole mirror); the vertical
index brackets z in zvals on a Z grid and in the synthesized column on an
S grid.  The only correction: zi in [0, zdim-2] requires zdim >= 2 (with an
in-range incoming hint) — when zdim = 1 the vertical stage is skipped and
zi keeps its incoming cursor value. -/
theorem C2_success_invariants (sq : ℚ → Option ℚ) (x y z : ℚ) (xdim ydim zdim : ℕ)
    (xvals yvals zvals : ℤ → ℚ) (xi0 yi0 zi0 : ℤ) (sphere_mesh zonal_periodic : Bool)
    (gcode : ℤ) (z4d : Bool) (ti : ℤ) (tdim : ℕ) (time t0 t1 : ℚ)
    (hg : gcode = RECTILINEAR_Z_GRID ∨ gcode = RECTILINEAR_S_GRID ∨
      gcode = CURVILINEAR_Z_GRID ∨ gcode = CURVILINEAR_S_GRID)
    (hX : 2 ≤ xdim) (hY : 2 ≤ ydim)
    (hx0 : 0 ≤ xi0) (hx2 : xi0 ≤ (xdim : ℤ) - 2)
    (hy0 : 0 ≤ yi0) (hy2 : yi0 ≤ (ydim : ℤ) - 2)
    (hz : 2 ≤ zdim → 0 ≤ zi0 ∧ zi0 ≤ (zdim : ℤ) - 2)
    (hsucc : (search_indices sq x y z xdim ydim zdim xvals yvals zvals xi0 yi0 zi0
      sphere_mesh zonal_periodic gcode z4d ti tdim time t0 t1).err = SUCCESS) :
    ∃ xiv yiv ziv av bv cv,
      search_indices sq x y z xdim ydim zdim xvals yvals zvals xi0 yi0 zi0 sphere_mesh
        zonal_periodic gcode z4d ti tdim time t0 t1 = ⟨SUCCESS, xiv, yiv, ziv, av, bv, cv⟩ ∧
      0 ≤ xiv ∧ xiv ≤ (xdim : ℤ) - 2 ∧ 0 ≤ yiv ∧ yiv ≤ (ydim : ℤ) - 2 ∧
      0 ≤ av ∧ av ≤ 1 ∧ 0 ≤ bv ∧ bv ≤ 1 ∧ 0 ≤ cv ∧ cv ≤ 1 ∧
      ((gcode = RECTILINEAR_Z_GRID ∨ gcode = RECTILINEAR_S_GRID) →
        (yvals yiv ≤ y ∧ y ≤ yvals (yiv + 1)) ∧
        (sphere_mesh = false → xvals xiv ≤ x ∧ x ≤ xvals (xiv + 1)) ∧
        (sphere_mesh = true →
          (norm_lon_pair xvals x xiv).1 ≤ x ∧ x ≤ (norm_lon_pair xvals x xiv).2)) ∧
      ((gcode = CURVILINEAR_Z_GRID ∨ gcode = CURVILINEAR_S_GRID) →
        ∃ xp ep, fix_1d_index xp xdim sphere_mesh = xiv ∧
          av = (curv_body sq xvals yvals xdim x y sphere_mesh xp yiv ep).1 ∧
          bv = (curv_body sq xvals yvals xdim x y sphere_mesh xp yiv ep).2) ∧
      (1 < zdim → 0 ≤ ziv ∧ ziv ≤ (zdim : ℤ) - 2 ∧
        ((gcode = RECTILINEAR_Z_GRID ∨ gcode = CURVILINEAR_Z_GRID) →
          zvals ziv ≤ z ∧ z ≤ zvals (ziv + 1)) ∧
        ((gcode = RECTILINEAR_S_GRID ∨ gcode = CURVILINEAR_S_GRID) →
          zcol_at zvals xdim ydim zdim xiv yiv av bv z4d ti tdim time t0 t1 ziv ≤ z ∧
          z ≤ zcol_at zvals xdim ydim zdim xiv yiv av bv z4d ti tdim time t0 t1
            (ziv + 1))) ∧
      (¬1 < zdim → ziv = zi0) := by
  by_cases hr : gcode = RECTILINEAR_Z_GRID ∨ gcode = RECTILINEAR_S_GRID
  · unfold search_indices at hsucc ⊢
    rw [if_pos hr] at hsucc ⊢
    obtain ⟨xiv, yiv, ziv, av, bv, cv, heq, hxa, hxb, hxbrf, hxbrt, hya, hyb, hybr1,
      hybr2, ha0, ha1, hb0, hb1, hc0, hc1, hzr, hz1⟩ :=
      search_indices_rectilinear_success x y z xdim ydim zdim xvals yvals zvals
        sphere_mesh zonal_periodic gcode xi0 yi0 zi0 z4d ti tdim time t0 t1
        hX hY hx0 hx2 hy0 hy2 hz hsucc
    refine ⟨xiv, yiv, ziv, av, bv, cv, heq, hxa, hxb, hya, hyb, ha0, ha1, hb0, hb1,
      hc0, hc1, fun _ => ⟨⟨hybr1, hybr2⟩, hxbrf, hxbrt⟩, ?_, ?_, hz1⟩
    · intro hgc
      exfalso
      rcases hr with h | h <;> rcases hgc with g | g <;> rw [h] at g <;>
        exact absurd g (by decide)
    · intro hzd
      obtain ⟨hza, hzb, hzbrZ, hzbrS⟩ := hzr hzd
      refine ⟨hza, hzb, ?_, ?_⟩
      · intro hgz
        rcases hgz with h | h
        · exact hzbrZ h
        · exfalso
          rcases hr with h' | h' <;> rw [h'] at h <;> exact absurd h (by decide)
      · intro hgs
        rcases hgs with h | h
        · exact hzbrS h
        · exfalso
          rcases hr with h' | h' <;> rw [h'] at h <;> exact absurd h (by decide)
  · have hc : gcode = CURVILINEAR_Z_GRID ∨ gcode = CURVILINEAR_S_GRID := by
      rcases hg with h | h | h | h
      · exact absurd (Or.inl h) hr
      · exact absurd (Or.inr h) hr
      · exact Or.inl h
      · exact Or.inr h
    unfold search_indices at hsucc ⊢
    rw [if_neg hr, if_pos hc] at hsucc ⊢
    obtain ⟨xiv, yiv, ziv, av, bv, cv, heq, hxa, hxb, hya, hyb, ha0, ha1, hb0, hb1,
      hc0, hc1, hfix, hzr, hz1⟩ :=
      search_indices_curvilinear_success sq x y z xdim ydim zdim xvals yvals zvals
        sphere_mesh zonal_periodic gcode xi0 yi0 zi0 z4d ti tdim time t0 t1
        hX hY hy0 hy2 hz hsucc
    refine ⟨xiv, yiv, ziv, av, bv, cv, heq, hxa, hxb, hya, hyb, ha0, ha1, hb0, hb1,
      hc0, hc1, fun hgr => absurd hgr hr, fun _ => hfix, ?_, hz1⟩
    intro hzd
    obtain ⟨hza, hzb, hzbrZ, hzbrS⟩ := hzr hzd
    refine ⟨hza, hzb, ?_, ?_⟩
    · intro hgz
      rcases hgz with h | h
      · exfalso
        rcases hc with h' | h' <;> rw [h'] at h <;> exact absurd h (by decide)
      · exact hzbrZ h
    · intro hgs
      rcases hgs with h | h
      · exfalso
        rcases hc with h' | h' <;> rw [h'] at h <;> exact absurd h (by decide)
      · exact hzbrS h

theorem C2_success_invariants_witness :
    (∃ xiv yiv ziv av bv cv,
      search_indices (fun _ => none) 0 0 0 2 2 2 C2ax C2ax C2ax 0 0 0 false false
        RECTILINEAR_Z_GRID false 0 2 0 0 1 = ⟨SUCCESS, xiv, yiv, ziv, av, bv, cv⟩ ∧
      0 ≤ xiv ∧ xiv ≤ (2 : ℤ) - 2 ∧ 0 ≤ yiv ∧ yiv ≤ (2 : ℤ) - 2 ∧
      0 ≤ av ∧ av ≤ 1 ∧ 0 ≤ bv ∧ bv ≤ 1 ∧ 0 ≤ cv ∧ cv ≤ 1 ∧
      ((RECTILINEAR_Z_GRID = RECTILINEAR_Z_GRID ∨
          RECTILINEAR_Z_GRID = RECTILINEAR_S_GRID) →
        (C2ax yiv ≤ 0 ∧ 0 ≤ C2ax (yiv + 1)) ∧
        ((false : Bool) = false → C2ax xiv ≤ 0 ∧ 0 ≤ C2ax (xiv + 1)) ∧
        ((false : Bool) = true →
          (norm_lon_pair C2ax 0 xiv).1 ≤ 0 ∧ 0 ≤ (norm_lon_pair C2ax 0 xiv).2)) ∧
      ((RECTILINEAR_Z_GRID = CURVILINEAR_Z_GRID ∨
          RECTILINEAR_Z_GRID = CURVILINEAR_S_GRID) →
        ∃ xp ep, fix_1d_index xp 2 false = xiv ∧
          av = (curv_body (fun _ => none) C2ax C2ax 2 0 0 false xp yiv ep).1 ∧
          bv = (curv_body (fun _ => none) C2ax C2ax 2 0 0 false xp yiv ep).2) ∧
      (1 < 2 → 0 ≤ ziv ∧ ziv ≤ (2 : ℤ) - 2 ∧
        ((RECTILINEAR_Z_GRID = RECTILINEAR_Z_GRID ∨
            RECTILINEAR_Z_GRID = CURVILINEAR_Z_GRID) →
          C2ax ziv ≤ 0 ∧ 0 ≤ C2ax (ziv + 1)) ∧
        ((RECTILINEAR_Z_GRID = RECTILINEAR_S_GRID ∨
            RECTILINEAR_Z_GRID = CURVILINEAR_S_GRID) →
          zcol_at C2ax 2 2 2 xiv yiv av bv false 0 2 0 0 1 ziv ≤ 0 ∧
          0 ≤ zcol_at C2ax 2 2 2 xiv yiv av bv false 0 2 0 0 1 (ziv + 1))) ∧
      (¬1 < 2 → ziv = 0)) ∧
    (∃ xiv yiv ziv av bv cv,
      search_indices (fun _ => none) (1 / 2) 0 0 2 2 1 C2ax C2ax C2ax 0 0 0 true false
        RECTILINEAR_Z_GRID false 0 2 0 0 1 = ⟨SUCCESS, xiv, yiv, ziv, av, bv, cv⟩ ∧
      (norm_lon_pair C2ax (1 / 2) xiv).1 ≤ 1 / 2 ∧
      1 / 2 ≤ (norm_lon_pair C2ax (1 / 2) xiv).2) ∧
    (∃ xiv yiv ziv av bv cv,
      search_indices (fun _ => none) 0 0 0 2 2 2 C2ax C2ax C2Sax 0 0 0 false false
        RECTILINEAR_S_GRID false 0 2 0 0 1 = ⟨SUCCESS, xiv, yiv, ziv, av, bv, cv⟩ ∧
      zcol_at C2Sax 2 2 2 xiv yiv av bv false 0 2 0 0 1 ziv ≤ 0 ∧
      0 ≤ zcol_at C2Sax 2 2 2 xiv yiv av bv false 0 2 0 0 1 (ziv + 1)) ∧
    (∃ xiv yiv ziv av bv cv,
      search_indices (fun _ => none) (1 / 2) (1 / 2) 0 2 2 1 C5xg C5yg C2ax 0 0 0 false
        false CURVILINEAR_Z_GRID false 0 2 0 0 1 = ⟨SUCCESS, xiv, yiv, ziv, av, bv, cv⟩ ∧
      ∃ xp ep, fix_1d_index xp 2 false = xiv ∧
        av = (curv_body (fun _ => none) C5xg C5yg 2 (1 / 2) (1 / 2) false xp yiv ep).1 ∧
        bv = (curv_body (fun _ => none) C5xg C5yg 2 (1 / 2) (1 / 2) false xp yiv ep).2) := by
  refine ⟨?_, ?_, ?_, ?_⟩
  · exact C2_success_invariants (fun _ => none) 0 0 0 2 2 2 C2ax C2ax C2ax 0 0 0 false
      false RECTILINEAR_Z_GRID false 0 2 0 0 1 (Or.inl rfl) (by decide) (by decide)
      (by decide) (by decide) (by decide) (by decide) (fun _ => ⟨by decide, by decide⟩)
      (by with_unfolding_all decide)
  · obtain ⟨xiv, yiv, ziv, av, bv, cv, heq, _, _, _, _, _, _, _, _, _, _, hrect, _, _, _⟩ :=
      C2_success_invariants (fun _ => none) (1 / 2) 0 0 2 2 1 C2ax C2ax C2ax 0 0 0 true
        false RECTILINEAR_Z_GRID false 0 2 0 0 1 (Or.inl rfl) (by decide) (by decide)
        (by decide) (by decide) (by decide) (by decide) (fun h => absurd h (by decide))
        (by with_unfolding_all decide)
    exact ⟨xiv, yiv, ziv, av, bv, cv, heq, (hrect (Or.inl rfl)).2.2 rfl⟩
  · obtain ⟨xiv, yiv, ziv, av, bv, cv, heq, _, _, _, _, _, _, _, _, _, _, _, _, hzgrp, _⟩ :=
      C2_success_invariants (fun _ => none) 0 0 0 2 2 2 C2ax C2ax C2Sax 0 0 0 false
        false RECTILINEAR_S_GRID false 0 2 0 0 1 (Or.inr (Or.inl rfl)) (by decide)
        (by decide) (by decide) (by decide) (by decide) (by decide)
        (fun _ => ⟨by decide, by decide⟩) (by with_unfolding_all decide)
    exact ⟨xiv, yiv, ziv, av, bv, cv, heq, (hzgrp (by decide)).2.2.2 (Or.inl rfl)⟩
  · obtain ⟨xiv, yiv, ziv, av, bv, cv, heq, _, _, _, _, _, _, _, _, _, _, _, hcurv, _, _⟩ :=
      C2_success_invariants (fun _ => none) (1 / 2) (1 / 2) 0 2 2 1 C5xg C5yg C2ax 0 0 0
        false false CURVILINEAR_Z_GRID false 0 2 0 0 1 (Or.inr (Or.inr (Or.inl rfl)))
        (by decide) (by decide) (by decide) (by decide) (by decide) (by decide)
        (fun h => absurd h (by decide)) (by with_unfolding_all decide)
    exact ⟨xiv, yiv, ziv, av, bv, cv, heq, hcurv (Or.inl rfl)⟩

/-- The unamended C2 fails for 2D fields: with zdim = 1 a successful query
keeps the incoming zi (here 5), which violates zi in [0, zdim-2] (an empty
interval when zdim = 1). -/
theorem C2_success_invariants_counterexample :
    (search_indices (fun _ => none) 0 0 0 2 2 1 C2ax C2ax C2ax 0 0 5 false false
      RECTILINEAR_Z_GRID false 0 2 0 0 1).err = SUCCESS ∧
    (search_indices (fun _ => none) 0 0 0 2 2 1 C2ax C2ax C2ax 0 0 5 false false
      RECTILINEAR_Z_GRID false 0 2 0 0 1).zi = 5 ∧
    ¬(0 ≤ (search_indices (fun _ => none) 0 0 0 2 2 1 C2ax C2ax C2ax 0 0 5 false false
        RECTILINEAR_Z_GRID false 0 2 0 0 1).zi ∧
      (search_indices (fun _ => none) 0 0 0 2 2 1 C2ax C2ax C2ax 0 0 5 false false
        RECTILINEAR_Z_GRID false 0 2 0 0 1).zi ≤ (1 : ℤ) - 2) := by
  refine ⟨?_, ?_, ?_⟩
  · with_unfolding_all decide
  · with_unfolding_all decide
  · with_unfolding_all decide

theorem final_checks_fp_fields (xi yi zi : ℤ) (a b c : FpQ) :
    (final_checks_fp xi yi zi a b c).xsi = a ∧ (final_checks_fp xi yi zi a b c).eta = b := by
  unfold final_checks_fp
  split
  · exact ⟨rfl, rfl⟩
  split
  · exact ⟨rfl, rfl⟩
  split
  · exact ⟨rfl, rfl⟩
  · exact ⟨rfl, rfl⟩

/-- C5 (amended): the curvilinear locator detects NaN in the derived xsi or
eta (the xsi != xsi test of parcels.h lines 298-301) and never returns
SUCCESS with a NaN coordinate; the rectilinear locator has no such check
and its final range validation is passed by NaN (see the counterexample
with a degenerate zero-width cell). -/
theorem C5_nan_rejection (sqF : FpQ → FpQ) (x y z : FpQ) (xdim ydim zdim : ℕ)
    (xvals yvals zvals : ℤ → ℚ) (sphere_mesh zonal_periodic : Bool) (gcode : ℤ)
    (xi0 yi0 zi0 : ℤ) (z4d : Bool) (ti : ℤ) (tdim : ℕ) (time t0 t1 : FpQ)
    (hsucc : (search_indices_curvilinear_fp sqF x y z xdim ydim zdim xvals yvals zvals
      sphere_mesh zonal_periodic gcode xi0 yi0 zi0 z4d ti tdim time t0 t1).err = SUCCESS) :
    fpIsNaN (search_indices_curvilinear_fp sqF x y z xdim ydim zdim xvals yvals zvals
      sphere_mesh zonal_periodic gcode xi0 yi0 zi0 z4d ti tdim time t0 t1).xsi = false ∧
    fpIsNaN (search_indices_curvilinear_fp sqF x y z xdim ydim zdim xvals yvals zvals
      sphere_mesh zonal_periodic gcode xi0 yi0 zi0 z4d ti tdim time t0 t1).eta = false := by
  unfold search_indices_curvilinear_fp at hsucc ⊢
  split at hsucc
  · exact absurd hsucc (by simp)
  next h1 =>
    split at hsucc
    · exact absurd hsucc (by simp)
    next h2 =>
      rw [if_neg h1, if_neg h2]
      dsimp only at hsucc ⊢
      set r := curv_loop_fp sqF xvals yvals xdim ydim x y sphere_mesh 1000001 xi0 yi0
        (some (-1)) (some (-1)) with hr
      split at hsucc
      · next herr => exact absurd hsucc herr
      next herr =>
        push_neg at herr
        rw [if_neg (by rw [herr]; simp : ¬r.err ≠ SUCCESS)]
        split at hsucc
        · exact absurd hsucc (by simp)
        next hnan =>
          rw [if_neg hnan]
          have hn : fpIsNaN r.xsi = false ∧ fpIsNaN r.eta = false := by
            simp only [Bool.or_eq_true, not_or, Bool.not_eq_true] at hnan
            exact hnan
          by_cases hzd : 1 < zdim
          · rw [if_pos hzd] at hsucc ⊢
            by_cases hg0 : gcode = CURVILINEAR_Z_GRID
            · rw [if_pos hg0] at hsucc ⊢
              by_cases hverr : (search_indices_vertical_z_fp z zdim zvals zi0).err ≠ SUCCESS
              · rw [if_pos hverr] at hsucc
                exact absurd hsucc hverr
              · rw [if_neg hverr] at hsucc ⊢
                rw [(final_checks_fp_fields _ _ _ _ _ _).1,
                  (final_checks_fp_fields _ _ _ _ _ _).2]
                exact hn
            · rw [if_neg hg0] at hsucc ⊢
              by_cases hg1 : gcode = CURVILINEAR_S_GRID
              · rw [if_pos hg1] at hsucc ⊢
                by_cases hverr : (search_indices_vertical_s_fp z xdim ydim zdim zvals r.xi
                    r.yi zi0 r.xsi r.eta z4d ti tdim time t0 t1).err ≠ SUCCESS
                · rw [if_pos hverr] at hsucc
                  exact absurd hsucc hverr
                · rw [if_neg hverr] at hsucc ⊢
                  rw [(final_checks_fp_fields _ _ _ _ _ _).1,
                    (final_checks_fp_fields _ _ _ _ _ _).2]
                  exact hn
              · rw [if_neg hg1] at hsucc
                have hv : ((⟨ERROR, zi0, some 0⟩ : VResF)).err ≠ SUCCESS :=
                  fun hc => ErrorCode.noConfusion hc
                rw [if_pos hv] at hsucc
                exact absurd hsucc hv
          · rw [if_neg hzd] at hsucc ⊢
            rw [(final_checks_fp_fields _ _ _ _ _ _).1, (final_checks_fp_fields _ _ _ _ _ _).2]
            exact hn

theorem C5_nan_rejection_witness :
    fpIsNaN (search_indices_curvilinear_fp (fun _ => none) (some (1 / 2)) (some (1 / 2))
      (some 0) 2 2 1 C5xg C5yg C2ax false false CURVILINEAR_Z_GRID 0 0 0 false 0 2
      (some 0) (some 0) (some 1)).xsi = false ∧
    fpIsNaN (search_indices_curvilinear_fp (fun _ => none) (some (1 / 2)) (some (1 / 2))
      (some 0) 2 2 1 C5xg C5yg C2ax false false CURVILINEAR_Z_GRID 0 0 0 false 0 2
      (some 0) (some 0) (some 1)).eta = false :=
  C5_nan_rejection (fun _ => none) (some (1 / 2)) (some (1 / 2)) (some 0) 2 2 1 C5xg C5yg
    C2ax false false CURVILINEAR_Z_GRID 0 0 0 false 0 2 (some 0) (some 0) (some 1)
    (by with_unfolding_all decide)

/-- The unamended C5 fails on the rectilinear path: a degenerate zero-width
cell (all longitudes equal) yields xsi = 0/0, a NaN, and the query still
returns SUCCESS because the rectilinear locator never tests for NaN. -/
theorem C5_nan_rejection_counterexample :
    (search_indices_rectilinear_fp (some 0) (some 0) (some 0) 2 2 1 C5deg C2ax C2ax
      false false RECTILINEAR_Z_GRID 0 0 0 false 0 2 (some 0) (some 0) (some 1)).err =
      SUCCESS ∧
    fpIsNaN (search_indices_rectilinear_fp (some 0) (some 0) (some 0) 2 2 1 C5deg C2ax
      C2ax false false RECTILINEAR_Z_GRID 0 0 0 false 0 2 (some 0) (some 0)
      (some 1)).xsi = true := by
  constructor
  · with_unfolding_all decide
  · with_unfolding_all decide

/-- C6 (amended): on a spherical mesh with zonal_periodic false,
search_indices_rectilinear rejects immediately with OUT_OF_BOUNDS when the
longitude ends are ascending and x < xvals 0 or x > xvals (xdim-1); when
the ends are descending the immediate rejection fires only for x < xvals 0
AND x > xvals (xdim-1) (the C code uses && there), which admits some
queries outside the extent (see the counterexample). -/
theorem C6_sphere_zonal_reject (x y z : ℚ) (xdim ydim zdim : ℕ)
    (xvals yvals zvals : ℤ → ℚ) (gcode : ℤ) (xi0 yi0 zi0 : ℤ) (z4d : Bool) (ti : ℤ)
    (tdim : ℕ) (time t0 t1 : ℚ) :
    (xvals 0 < xvals ((xdim : ℤ) - 1) → (x < xvals 0 ∨ x > xvals ((xdim : ℤ) - 1)) →
      (search_indices_rectilinear x y z xdim ydim zdim xvals yvals zvals true false gcode
        xi0 yi0 zi0 z4d ti tdim time t0 t1).err = ERROR_OUT_OF_BOUNDS) ∧
    (xvals 0 ≥ xvals ((xdim : ℤ) - 1) → x < xvals 0 → x > xvals ((xdim : ℤ) - 1) →
      (search_indices_rectilinear x y z xdim ydim zdim xvals yvals zvals true false gcode
        xi0 yi0 zi0 z4d ti tdim time t0 t1).err = ERROR_OUT_OF_BOUNDS) := by
  constructor
  · intro hasc hout
    unfold search_indices_rectilinear
    rw [if_neg (by simp : ¬(true : Bool) = false)]
    rw [if_pos ⟨rfl, hasc, hout⟩]
  · intro hge hlo hhi
    unfold search_indices_rectilinear
    rw [if_neg (by simp : ¬(true : Bool) = false)]
    rw [if_neg (fun hc => absurd hc.2.1 (not_lt.mpr hge))]
    rw [if_pos ⟨rfl, hge, hlo, hhi⟩]

theorem C6_sphere_zonal_reject_witness :
    (search_indices_rectilinear 5 0 0 2 2 1 C2ax C2ax C2ax true false
      RECTILINEAR_Z_GRID 0 0 0 false 0 2 0 0 1).err = ERROR_OUT_OF_BOUNDS ∧
    (search_indices_rectilinear 0 0 0 2 2 1 C6down C2ax C2ax true false
      RECTILINEAR_Z_GRID 0 0 0 false 0 2 0 0 1).err = ERROR_OUT_OF_BOUNDS := by
  constructor
  · exact (C6_sphere_zonal_reject 5 0 0 2 2 1 C2ax C2ax C2ax RECTILINEAR_Z_GRID 0 0 0
      false 0 2 0 0 1).1 (by with_unfolding_all decide) (by with_unfolding_all decide)
  · exact (C6_sphere_zonal_reject 0 0 0 2 2 1 C6down C2ax C2ax RECTILINEAR_Z_GRID 0 0 0
      false 0 2 0 0 1).2 (by with_unfolding_all decide) (by with_unfolding_all decide)
      (by with_unfolding_all decide)

/-- The unamended C6 fails for descending end values: with xvals = (90,
-135) and zonal_periodic false on a sphere, the query x = 100 lies outside
the longitudinal extent in the sense of the ascending-branch predicate
(x > xvals (xdim-1)), yet the && check does not fire and the search
returns SUCCESS. -/
theorem C6_sphere_zonal_reject_counterexample :
    C6down 0 ≥ C6down ((2 : ℤ) - 1) ∧
    ((100 : ℚ) < C6down 0 ∨ (100 : ℚ) > C6down ((2 : ℤ) - 1)) ∧
    (search_indices_rectilinear 100 0 0 2 2 1 C6down C2ax C2ax true false
      RECTILINEAR_Z_GRID 0 0 0 false 0 2 0 0 1).err = SUCCESS := by
  refine ⟨?_, ?_, ?_⟩
  · with_unfolding_all decide
  · with_unfolding_all decide
  · with_unfolding_all decide
